import Mathlib

/-!
# CloudDeck manager API: authentication and machine-lifecycle controller

A shallow embedding of `src/clouddeck/clouddeckmanagerapi.cpp`.

* `QString` values are Lean strings; the Qt string primitives the controller
  uses are defined in the namespace `Qt` on the underlying character lists.
* The member variables of `CloudDeckManagerApi` form the record `State`.
  A `QNetworkReply*` member is a Boolean: `true` when the pointer is non-null
  (a request of that category is outstanding).
* Every member function is a function `State → ... → State × List Effect`.
  The list holds, in program order, the signals emitted, the network requests
  handed to the `QNetworkAccessManager`, the replies aborted and the values
  written to `QSettings`.
* A reply handler receives the finished reply as a `Reply` record holding what
  the handler reads from it.
* `QNetworkReply::abort()` on an unfinished reply closes the device, sets the
  error `OperationCanceledError` and emits `finished()` before it returns.
  The handlers are connected to `finished()` in the same thread, and every
  `abort()` in the controller is called while the member pointer is still
  set, so the handler of the aborted reply runs inside the call, on the reply
  `Reply.canceled`.  The call `deleteLater()` that follows `abort()` goes
  through the pointer the handler has reset; it is taken as the no-op Qt makes
  of a null receiver.
-/

namespace CloudDeck

/-! ## Qt string primitives -/

namespace Qt

/-- Unicode white space as `QChar::isSpace` decides it: the ASCII controls
`\t \n \v \f \r`, the space, U+0085, U+00A0 and the separator categories
Zs, Zl and Zp. -/
def isSpace (c : Char) : Bool :=
  let n := c.toNat
  n == 0x20 || (0x09 ≤ n && n ≤ 0x0D) || n == 0x85 || n == 0xA0 || n == 0x1680 ||
  (0x2000 ≤ n && n ≤ 0x200A) || n == 0x2028 || n == 0x2029 || n == 0x202F ||
  n == 0x205F || n == 0x3000

/-- Character-list form of `QString::trimmed`. -/
def trimmedChars (l : List Char) : List Char :=
  ((l.dropWhile isSpace).reverse.dropWhile isSpace).reverse

/-- Model of `QString::trimmed()`: white space removed from both ends. -/
def trimmed (s : String) : String := ⟨trimmedChars s.data⟩

/-- Model of `QString::isEmpty()`. -/
def isEmpty (s : String) : Bool := s.data.isEmpty

/-- Model of `QString::size()`. -/
def size (s : String) : Int := (s.data.length : Int)

/-- Simple case folding restricted to what can fold to an ASCII letter:
`A`..`Z`, U+017F (long s) and U+212A (Kelvin sign).  Every comparison in the
controller is against an ASCII literal, for which this agrees with
`QChar::toCaseFolded`. -/
def foldCase (c : Char) : Char :=
  if c.toNat == 0x17F then (Char.ofNat 0x73)
  else if c.toNat == 0x212A then (Char.ofNat 0x6B)
  else c.toLower

/-- Model of `a.compare(b, Qt::CaseInsensitive) == 0`. -/
def equalsCaseInsensitive (a b : String) : Bool :=
  a.data.map foldCase == b.data.map foldCase

/-- Index of the last occurrence of `c` in a character list, `-1` when absent. -/
def lastIndexOfChars (c : Char) : List Char → Int
  | [] => -1
  | x :: xs =>
    let r := lastIndexOfChars c xs
    if r ≥ 0 then r + 1 else if x == c then 0 else -1

/-- Model of `QString::lastIndexOf(QChar)`. -/
def lastIndexOf (s : String) (c : Char) : Int := lastIndexOfChars c s.data

/-- Index of the first occurrence of `c` in a character list, `-1` when absent. -/
def indexOfChars (c : Char) : List Char → Int
  | [] => -1
  | x :: xs =>
    if x == c then 0
    else
      let r := indexOfChars c xs
      if r ≥ 0 then r + 1 else -1

/-- Model of `QString::indexOf(QChar, from)` for `from ≥ 0`: the search starts
at position `start`; the result is an index into the whole string. -/
def indexOf (s : String) (c : Char) (start : Nat) : Int :=
  let r := indexOfChars c (s.data.drop start)
  if r ≥ 0 then r + (start : Int) else -1

/-- Model of `QString::mid(position)` for `0 ≤ position ≤ size`. -/
def mid (s : String) (position : Int) : String := ⟨s.data.drop position.toNat⟩

/-- Model of `QString::startsWith(QString)` (case sensitive). -/
def startsWith (s p : String) : Bool := p.data.isPrefixOf s.data

/-- Model of `QString("...%1").arg(int)`: the decimal rendering of the number. -/
def number (n : Int) : String := toString n

/-- Conversion of a whole number to `double`: the nearest value with a 53-bit
significand, ties to the even significand.  Whole numbers below `2^53` in
magnitude are kept. -/
def toDouble (n : Int) : Int :=
  let a := n.natAbs
  if a < 2 ^ 53 then n
  else
    let k := Nat.log2 a - 52
    let q := a / 2 ^ k
    let r := a % 2 ^ k
    let half := 2 ^ (k - 1)
    let q := if r > half ∨ (r = half ∧ q % 2 = 1) then q + 1 else q
    Int.sign n * ((q * 2 ^ k : Nat) : Int)

/-- Model of `static_cast<qint64>(v)` for a `double` with the whole value `v`.
Outside the range of `qint64` the conversion is undefined in C++; the model
gives `INT64_MIN`, the result of the x86-64 conversion instruction. -/
def castToInt64 (v : Int) : Int :=
  if -9223372036854775808 ≤ v ∧ v ≤ 9223372036854775807 then v else -9223372036854775808

end Qt

/-! ## JSON values (`QJsonValue`, `QJsonObject`, `QJsonDocument`) -/

/-- Model of `QJsonValue`.  A JSON number is `number n`, the whole number `n`
as the document holds it, or `real d`, a number given by the value `d` of its
`double`.  An object is its member list; a key is looked up at its first
occurrence. -/
inductive QJsonValue where
  | null
  | undefined
  | bool (b : Bool)
  | number (n : Int)
  | real (d : ℚ)
  | string (s : String)
  | array (items : List QJsonValue)
  | object (members : List (String × QJsonValue))

/-- Model of `QJsonObject`. -/
abbrev QJsonObject := List (String × QJsonValue)

namespace QJsonValue

def isString : QJsonValue → Bool
  | string _ => true
  | _ => false

def toString : QJsonValue → String
  | string s => s
  | _ => ""

def isObject : QJsonValue → Bool
  | object _ => true
  | _ => false

def toObject : QJsonValue → QJsonObject
  | object m => m
  | _ => []

def isArray : QJsonValue → Bool
  | array _ => true
  | _ => false

def toArray : QJsonValue → List QJsonValue
  | array xs => xs
  | _ => []

/-- Model of `QJsonValue::toInt()`: `0` unless the value is a whole number
that fits in a 32-bit `int`. -/
def toInt : QJsonValue → Int
  | number n => if -2147483648 ≤ n ∧ n ≤ 2147483647 then n else 0
  | real d => if d.den = 1 ∧ -2147483648 ≤ d.num ∧ d.num ≤ 2147483647 then d.num else 0
  | _ => 0

/-- Model of `static_cast<qint64>(value.toDouble())`: the `double` of the
number, rounded toward zero. -/
def toInt64 : QJsonValue → Int
  | number n => Qt.castToInt64 (Qt.toDouble n)
  | real d => Qt.castToInt64 (d.num.tdiv d.den)
  | _ => 0

end QJsonValue

/-- Model of `QJsonObject::value(key)`: `undefined` when the key is absent. -/
def QJsonObject.value : QJsonObject → String → QJsonValue
  | [], _ => QJsonValue.undefined
  | (k, v) :: rest, key => if k = key then v else QJsonObject.value rest key

/-- Model of `QJsonObject::contains(key)`. -/
def QJsonObject.contains : QJsonObject → String → Bool
  | [], _ => false
  | (k, _) :: rest, key => if k = key then true else QJsonObject.contains rest key

/-- Result of `QJsonDocument::fromJson(body, &parseError)`. -/
inductive QJsonDocument where
  | null
  | array (items : List QJsonValue)
  | object (obj : QJsonObject)

/-- What a handler reads from a finished `QNetworkReply`. -/
structure Reply where
  /-- HTTP status, `attribute(HttpStatusCodeAttribute).toInt()` -/
  statusCode : Int
  /-- Transport error `error()`; `0` is `QNetworkReply::NoError` -/
  networkError : Nat
  /-- Text of the transport error, `errorString()` -/
  networkErrorText : String
  /-- Body bytes, `readAll()` -/
  body : String
  /-- Parsed body, `QJsonDocument::fromJson(body, &parseError)` -/
  doc : QJsonDocument
  /-- Parser message, `parseError.errorString()` -/
  parseErrorString : String

/-- What a handler reads from a reply that is being aborted: `abort()` closes
the device, so `readAll()` returns nothing, and sets the error
`OperationCanceledError` (5) with the text `Operation canceled`.  The handlers
use the HTTP status only when the body is not empty or no transport error is
set, so its value does not matter here. -/
def Reply.canceled : Reply where
  statusCode := 0
  networkError := 5
  networkErrorText := "Operation canceled"
  body := ""
  doc := QJsonDocument.null
  parseErrorString := ""

/-! ## Controller data -/

inductive AuthStatus where
  | AuthSuccess
  | AuthInvalidInput
  | AuthInProgress
  | AuthChallengeRequired
  | AuthNotAuthorized
  | AuthUserNotFound
  | AuthUserNotConfirmed
  | AuthPasswordResetRequired
  | AuthInvalidParameter
  | AuthInvalidPassword
  | AuthTooManyRequests
  | AuthLimitExceeded
  | AuthResourceNotFound
  | AuthInternalError
  | AuthNetworkError
  | AuthHttpError
  | AuthParseError
  | AuthUnknownError
  deriving DecidableEq, Repr

inductive MachineAction where
  | MachineNone
  | MachineStarting
  | MachineStopping
  deriving DecidableEq, Repr

open AuthStatus MachineAction

/-- The member variables of `CloudDeckManagerApi`. -/
structure State where
  loginReply : Bool
  getUserReply : Bool
  accountReply : Bool
  machineStatusReply : Bool
  machineCommandReply : Bool
  machineClientReply : Bool
  loginInProgress : Bool
  getUserInProgress : Bool
  accountInProgress : Bool
  /-- Expiry `m_accessTokenExpiresAtUtc` in seconds; `none` is the invalid `QDateTime()` -/
  accessTokenExpiresAtUtc : Option Int
  accessToken : String
  idToken : String
  refreshToken : String
  tokenType : String
  expiresIn : Int
  machineId : String
  accountId : String
  machineAccessToken : String
  lastLoginEmail : String
  lastLoginPassword : String
  machineStatus : String
  machinePassword : String
  machinePublicIp : String
  machineLastStarted : Int
  machineCreatedAt : Int
  machineAction : MachineAction
  transitionCheckCount : Int
  /-- Poll timer running, `m_machinePollTimer->isActive()` -/
  pollTimerActive : Bool
  deriving DecidableEq, Repr

/-- The state the constructor establishes. -/
def State.initial : State where
  loginReply := false
  getUserReply := false
  accountReply := false
  machineStatusReply := false
  machineCommandReply := false
  machineClientReply := false
  loginInProgress := false
  getUserInProgress := false
  accountInProgress := false
  accessTokenExpiresAtUtc := none
  accessToken := ""
  idToken := ""
  refreshToken := ""
  tokenType := ""
  expiresIn := 0
  machineId := ""
  accountId := ""
  machineAccessToken := ""
  lastLoginEmail := ""
  lastLoginPassword := ""
  machineStatus := ""
  machinePassword := ""
  machinePublicIp := ""
  machineLastStarted := 0
  machineCreatedAt := 0
  machineAction := MachineNone
  transitionCheckCount := 0
  pollTimerActive := false

/-- The six request categories, one per `QNetworkReply*` member. -/
inductive ReplyKind where
  | login
  | getUser
  | account
  | machineStatus
  | machineCommand
  | machineClient
  deriving DecidableEq, Repr

/-- A request handed to the `QNetworkAccessManager`. -/
inductive Request where
  /-- POST InitiateAuth with `USERNAME` and `PASSWORD` -/
  | initiateAuth (username password : String)
  /-- POST GetUser with `AccessToken` -/
  | getUser (accessToken : String)
  /-- GET `/accounts/<accountId>` -/
  | getAccount (accountId accessToken : String)
  /-- GET `/machines/<machineId>` -/
  | getMachine (machineId accessToken : String)
  /-- POST `/machines/<machineId>/<action>` with an empty body -/
  | postMachineCommand (machineId action accessToken : String)
  /-- POST `/machines/<machineId>/clients` with the pin -/
  | postMachineClient (machineId accessToken pin : String)
  deriving DecidableEq, Repr

/-- Observable effects of a member function, in program order. -/
inductive Effect where
  | loginCompleted (status : AuthStatus) (accessToken : String) (expiresIn : Int)
      (idToken refreshToken tokenType errorCode errorMessage challengeName : String)
      (challengeParameters : QJsonObject)
  | machineIdFetched (success : Bool) (machineId errorCode errorMessage : String)
  | machineStatusUpdated (status publicIp password : String) (lastStarted createdAt : Int)
  | machineStatusFailed (errorCode errorMessage : String)
  | machineStartFinished (success : Bool) (status errorCode errorMessage : String)
  | machineStopFinished (success : Bool) (status errorCode errorMessage : String)
  | machineClientAdded (success : Bool) (response : QJsonObject) (errorCode errorMessage : String)
  /-- a request issued through `m_networkAccessManager` -/
  | sent (r : Request)
  /-- calls of `abort()` and `deleteLater()` on an outstanding reply -/
  | aborted (k : ReplyKind)
  /-- a call of `QSettings::setValue(key, value)` -/
  | settingsSetValue (key value : String)

namespace Effect

/-- The effect is a network request. -/
def isRequest : Effect → Bool
  | sent _ => true
  | _ => false

/-- The effect is a start or stop command request. -/
def isCommandRequest : Effect → Bool
  | sent (Request.postMachineCommand _ _ _) => true
  | _ => false

/-- The effect is a `machineStartFinished` or `machineStopFinished` signal. -/
def isStartStopFinished : Effect → Bool
  | machineStartFinished _ _ _ _ => true
  | machineStopFinished _ _ _ _ => true
  | _ => false

/-- The effect is an emitted signal (of any kind). -/
def isSignal : Effect → Bool
  | sent _ => false
  | aborted _ => false
  | settingsSetValue _ _ => false
  | _ => true

end Effect

/-! ## Error normalisation (file-local helpers and static members) -/

/-- File-local `extractErrorCode`: the first of the probed keys holding a string. -/
def extractErrorCode (obj : QJsonObject) : String :=
  if obj.contains "__type" && (obj.value "__type").isString then (obj.value "__type").toString
  else if obj.contains "code" && (obj.value "code").isString then (obj.value "code").toString
  else if obj.contains "error" && (obj.value "error").isString then (obj.value "error").toString
  else if obj.contains "Error" && (obj.value "Error").isString then (obj.value "Error").toString
  else if obj.contains "errorCode" && (obj.value "errorCode").isString then
    (obj.value "errorCode").toString
  else ""

/-- File-local `extractErrorMessage`: the first of the probed keys holding a string. -/
def extractErrorMessage (obj : QJsonObject) : String :=
  if obj.contains "message" && (obj.value "message").isString then (obj.value "message").toString
  else if obj.contains "Message" && (obj.value "Message").isString then
    (obj.value "Message").toString
  else if obj.contains "error_description" && (obj.value "error_description").isString then
    (obj.value "error_description").toString
  else ""

/-- Member function `CloudDeckManagerApi::normalizeErrorCode`. -/
def normalizeErrorCode (rawCode : String) : String :=
  if Qt.isEmpty rawCode then rawCode
  else
    let code := rawCode
    let hashIndex := Qt.lastIndexOf code '#'
    let code := if hashIndex ≥ 0 ∧ hashIndex + 1 < Qt.size code then Qt.mid code (hashIndex + 1) else code
    let slashIndex := Qt.lastIndexOf code '/'
    let code := if slashIndex ≥ 0 ∧ slashIndex + 1 < Qt.size code then Qt.mid code (slashIndex + 1) else code
    Qt.trimmed code

/-- Member function `CloudDeckManagerApi::mapErrorCodeToStatus`. -/
def mapErrorCodeToStatus (errorCode : String) : AuthStatus :=
  if errorCode = "EmptyCredentials" ∨ errorCode = "EmptyEmail" ∨ errorCode = "EmptyPassword" ∨
      errorCode = "InvalidEmail" then AuthInvalidInput
  else if errorCode = "NotAuthorizedException" then AuthNotAuthorized
  else if errorCode = "UserNotFoundException" then AuthUserNotFound
  else if errorCode = "UserNotConfirmedException" then AuthUserNotConfirmed
  else if errorCode = "PasswordResetRequiredException" then AuthPasswordResetRequired
  else if errorCode = "InvalidParameterException" then AuthInvalidParameter
  else if errorCode = "InvalidPasswordException" then AuthInvalidPassword
  else if errorCode = "TooManyRequestsException" then AuthTooManyRequests
  else if errorCode = "LimitExceededException" ∨ errorCode = "RequestLimitExceeded" then
    AuthLimitExceeded
  else if errorCode = "ResourceNotFoundException" then AuthResourceNotFound
  else if errorCode = "InternalErrorException" ∨ errorCode = "InternalError" then AuthInternalError
  else if errorCode = "NetworkError" then AuthNetworkError
  else if Qt.startsWith errorCode "Http" then AuthHttpError
  else if errorCode = "ParseError" ∨ errorCode = "MissingAccessToken" ∨
      errorCode = "EmptyResponse" then AuthParseError
  else if errorCode = "InProgress" then AuthInProgress
  else if errorCode = "ChallengeRequired" then AuthChallengeRequired
  else AuthUnknownError

/-- Member function `CloudDeckManagerApi::defaultMessageForStatus`. -/
def defaultMessageForStatus : AuthStatus → String
  | AuthInvalidInput => "Invalid login input"
  | AuthInProgress => "Login already in progress"
  | AuthChallengeRequired => "Additional authentication required"
  | AuthNotAuthorized => "Incorrect username or password"
  | AuthUserNotFound => "User not found"
  | AuthUserNotConfirmed => "User not confirmed"
  | AuthPasswordResetRequired => "Password reset required"
  | AuthInvalidParameter => "Invalid parameters"
  | AuthInvalidPassword => "Invalid password"
  | AuthTooManyRequests => "Too many requests"
  | AuthLimitExceeded => "Request limit exceeded"
  | AuthResourceNotFound => "Resource not found"
  | AuthInternalError => "Internal server error"
  | AuthNetworkError => "Network error"
  | AuthHttpError => "HTTP error"
  | AuthParseError => "Invalid response from server"
  | AuthUnknownError => "Unknown error"
  | AuthSuccess => ""

/-- The code `QString("Http%1").arg(statusCode)`. -/
def httpCode (statusCode : Int) : String := "Http" ++ Qt.number statusCode

/-- The message `QString("HTTP error %1").arg(statusCode)`. -/
def httpMessage (statusCode : Int) : String := "HTTP error " ++ Qt.number statusCode

/-- The message chosen for a body that is not a JSON object. -/
def parseMessage (r : Reply) : String :=
  if Qt.isEmpty r.parseErrorString then "Invalid JSON response" else r.parseErrorString

/-! ## Machine lifecycle controller -/

/-- The error code and message of a failed machine reply whose body is the
JSON object `obj` (shared text of the status, command and account handlers). -/
def replyError (r : Reply) (code message : String) : String × String :=
  let errorCode :=
    if Qt.isEmpty code then
      (if r.networkError ≠ 0 then "NetworkError" else httpCode r.statusCode)
    else code
  let errorMessage :=
    if Qt.isEmpty message then
      (if r.networkError ≠ 0 then r.networkErrorText else httpMessage r.statusCode)
    else message
  (errorCode, errorMessage)

/-- Member function `CloudDeckManagerApi::handleMachineCommandReply`. -/
def handleMachineCommandReply (s : State) (r : Reply) : State × List Effect :=
  if !s.machineCommandReply then (s, [])
  else
    let s := { s with machineCommandReply := false }
    if r.networkError = 0 ∧ r.statusCode < 400 then (s, [])
    else
      let parsed : String × String :=
        if Qt.isEmpty r.body then ("", "")
        else
          match r.doc with
          | QJsonDocument.object obj =>
            (normalizeErrorCode (extractErrorCode obj), extractErrorMessage obj)
          | _ => ("", "")
      let e := replyError r parsed.1 parsed.2
      match s.machineAction with
      | MachineStarting =>
        ({ s with pollTimerActive := false, machineAction := MachineNone },
          [Effect.machineStartFinished false s.machineStatus e.1 e.2])
      | MachineStopping =>
        ({ s with pollTimerActive := false, machineAction := MachineNone },
          [Effect.machineStopFinished false s.machineStatus e.1 e.2])
      | MachineNone => (s, [Effect.machineStatusFailed e.1 e.2])

/-- Member function `CloudDeckManagerApi::sendMachineCommand`.  When a command
reply is outstanding, its `abort()` (source line 1185) runs
`handleMachineCommandReply` on the canceled reply while `m_machineCommandReply`
is still set; the new command is posted after that. -/
def sendMachineCommand (s : State) (machineId action accessToken : String) :
    State × List Effect :=
  if Qt.isEmpty (Qt.trimmed machineId) then (s, [])
  else if Qt.isEmpty (Qt.trimmed accessToken) then
    match s.machineAction with
    | MachineStarting =>
      (s, [Effect.machineStartFinished false s.machineStatus "EmptyAccessToken"
            "Access token is required"])
    | MachineStopping =>
      (s, [Effect.machineStopFinished false s.machineStatus "EmptyAccessToken"
            "Access token is required"])
    | MachineNone => (s, [Effect.machineStatusFailed "EmptyAccessToken" "Access token is required"])
  else
    let r : State × List Effect :=
      if s.machineCommandReply then
        let h := handleMachineCommandReply s Reply.canceled
        (h.1, Effect.aborted ReplyKind.machineCommand :: h.2)
      else (s, [])
    ({ r.1 with machineCommandReply := true },
      r.2 ++ [Effect.sent (Request.postMachineCommand machineId action accessToken)])

/-- Member function `CloudDeckManagerApi::fetchMachineStatus`. -/
def fetchMachineStatus (s : State) (machineId accessToken : String) : State × List Effect :=
  let trimmedId := Qt.trimmed machineId
  if Qt.isEmpty trimmedId then
    (s, [Effect.machineStatusFailed "EmptyMachineId" "Machine ID is required"])
  else
    let trimmedToken := Qt.trimmed accessToken
    if Qt.isEmpty trimmedToken then
      (s, [Effect.machineStatusFailed "EmptyAccessToken" "Access token is required"])
    else if s.machineStatusReply then (s, [])
    else
      ({ s with machineId := trimmedId, machineAccessToken := trimmedToken,
                machineStatusReply := true },
        [Effect.sent (Request.getMachine trimmedId trimmedToken)])

/-- Member function `CloudDeckManagerApi::startMachine`. -/
def startMachine (s : State) (machineId accessToken : String) : State × List Effect :=
  let trimmedId := Qt.trimmed machineId
  if Qt.isEmpty trimmedId then
    (s, [Effect.machineStartFinished false "" "EmptyMachineId" "Machine ID is required"])
  else
    let trimmedToken := Qt.trimmed accessToken
    if Qt.isEmpty trimmedToken then
      (s, [Effect.machineStartFinished false "" "EmptyAccessToken" "Access token is required"])
    else if s.machineAction ≠ MachineNone then
      (s, [Effect.machineStartFinished false s.machineStatus "InProgress"
            "Machine operation already in progress"])
    else
      let s1 := { s with machineId := trimmedId, machineAccessToken := trimmedToken,
                         machineAction := MachineStarting, transitionCheckCount := 0 }
      let r := sendMachineCommand s1 s1.machineId "start" trimmedToken
      ({ r.1 with pollTimerActive := true }, r.2)

/-- Member function `CloudDeckManagerApi::stopMachine`. -/
def stopMachine (s : State) (machineId accessToken : String) : State × List Effect :=
  let trimmedId := Qt.trimmed machineId
  if Qt.isEmpty trimmedId then
    (s, [Effect.machineStopFinished false "" "EmptyMachineId" "Machine ID is required"])
  else
    let trimmedToken := Qt.trimmed accessToken
    if Qt.isEmpty trimmedToken then
      (s, [Effect.machineStopFinished false "" "EmptyAccessToken" "Access token is required"])
    else if s.machineAction ≠ MachineNone then
      (s, [Effect.machineStopFinished false s.machineStatus "InProgress"
            "Machine operation already in progress"])
    else
      let s1 := { s with machineId := trimmedId, machineAccessToken := trimmedToken,
                         machineAction := MachineStopping, transitionCheckCount := 0 }
      let r := sendMachineCommand s1 s1.machineId "stop" trimmedToken
      ({ r.1 with pollTimerActive := true }, r.2)

/-- Member function `CloudDeckManagerApi::pollMachineStatus`, the slot of the poll timer. -/
def pollMachineStatus (s : State) : State × List Effect :=
  if Qt.isEmpty s.machineId then (s, [])
  else if Qt.isEmpty s.machineAccessToken then
    ({ s with pollTimerActive := false },
      [Effect.machineStatusFailed "EmptyAccessToken" "Access token is required"])
  else fetchMachineStatus s s.machineId s.machineAccessToken

/-- The lifecycle step at the end of `handleMachineStatusReply`
(source lines 1004-1043), run after the machine record has been stored. -/
def advanceMachineAction (s : State) : State × List Effect :=
  match s.machineAction with
  | MachineStarting =>
    if Qt.equalsCaseInsensitive s.machineStatus "running" then
      ({ s with pollTimerActive := false, machineAction := MachineNone },
        [Effect.machineStartFinished true s.machineStatus "" ""])
    else if Qt.equalsCaseInsensitive s.machineStatus "starting" then
      ({ s with transitionCheckCount := 0 }, [])
    else
      let s1 := { s with transitionCheckCount := s.transitionCheckCount + 1 }
      if s1.transitionCheckCount ≥ 2 then
        sendMachineCommand { s1 with transitionCheckCount := 0 } s1.machineId "start"
          s1.machineAccessToken
      else (s1, [])
  | MachineStopping =>
    if Qt.equalsCaseInsensitive s.machineStatus "off" then
      ({ s with pollTimerActive := false, machineAction := MachineNone },
        [Effect.machineStopFinished true s.machineStatus "" ""])
    else if Qt.equalsCaseInsensitive s.machineStatus "stopping" then
      ({ s with transitionCheckCount := 0 }, [])
    else
      let s1 := { s with transitionCheckCount := s.transitionCheckCount + 1 }
      if s1.transitionCheckCount ≥ 2 then
        sendMachineCommand { s1 with transitionCheckCount := 0 } s1.machineId "stop"
          s1.machineAccessToken
      else (s1, [])
  | MachineNone => (s, [])

/-- The `QSettings` writes of a successful status fetch (source lines 990-999). -/
def persistMachineFacts (s : State) : List Effect :=
  (if Qt.isEmpty s.machinePublicIp then []
    else [Effect.settingsSetValue "clouddeck/serverAddress" s.machinePublicIp]) ++
  (if Qt.isEmpty s.machinePassword then []
    else [Effect.settingsSetValue "clouddeck/hostPassword" s.machinePassword]) ++
  (if Qt.isEmpty s.lastLoginEmail then []
    else [Effect.settingsSetValue "clouddeck/hostUser" s.lastLoginEmail])

/-- The machine record taken from a status response (source lines 976-983):
the stored id is replaced when the response holds a string `id`; the other
five fields are always overwritten. -/
def storeMachineRecord (s : State) (obj : QJsonObject) : State :=
  let s := if obj.contains "id" && (obj.value "id").isString then
      { s with machineId := (obj.value "id").toString } else s
  { s with machineStatus := (obj.value "status").toString,
           machinePassword := (obj.value "password").toString,
           machinePublicIp := (obj.value "public_ip").toString,
           machineLastStarted := (obj.value "last_started").toInt64,
           machineCreatedAt := (obj.value "created_at").toInt64 }

/-- Member function `CloudDeckManagerApi::handleMachineStatusReply`. -/
def handleMachineStatusReply (s : State) (r : Reply) : State × List Effect :=
  if !s.machineStatusReply then (s, [])
  else
    let s := { s with machineStatusReply := false }
    if r.networkError ≠ 0 ∧ Qt.isEmpty r.body then
      (s, [Effect.machineStatusFailed "NetworkError" r.networkErrorText])
    else if Qt.isEmpty r.body then
      if r.statusCode ≥ 400 then
        (s, [Effect.machineStatusFailed (httpCode r.statusCode) (httpMessage r.statusCode)])
      else (s, [Effect.machineStatusFailed "EmptyResponse" "Empty response from server"])
    else
      match r.doc with
      | QJsonDocument.null => (s, [Effect.machineStatusFailed "ParseError" (parseMessage r)])
      | QJsonDocument.array _ => (s, [Effect.machineStatusFailed "ParseError" (parseMessage r)])
      | QJsonDocument.object obj =>
        if r.statusCode ≥ 400 ∨ r.networkError ≠ 0 then
          let e := replyError r (normalizeErrorCode (extractErrorCode obj)) (extractErrorMessage obj)
          (s, [Effect.machineStatusFailed e.1 e.2])
        else
          let s := storeMachineRecord s obj
          if Qt.isEmpty s.machineStatus then
            (s, [Effect.machineStatusFailed "MissingStatus" "Machine status missing from response"])
          else
            let r2 := advanceMachineAction s
            (r2.1, persistMachineFacts s ++
              [Effect.machineStatusUpdated s.machineStatus s.machinePublicIp s.machinePassword
                s.machineLastStarted s.machineCreatedAt] ++ r2.2)

/-! ## Authentication session -/

/-- Member function `CloudDeckManagerApi::finishLogin`; `now` is `QDateTime::currentDateTimeUtc()`
in seconds. -/
def finishLogin (now : Int) (s : State) (status : AuthStatus) (accessToken : String)
    (expiresIn : Int) (idToken refreshToken tokenType errorCode errorMessage challengeName : String)
    (challengeParameters : QJsonObject) : State × List Effect :=
  let s := { s with loginInProgress := false }
  let completed := Effect.loginCompleted status accessToken expiresIn idToken refreshToken
    tokenType errorCode errorMessage challengeName challengeParameters
  if status = AuthSuccess ∧ expiresIn > 0 then
    let s := { s with accessTokenExpiresAtUtc := some (now + expiresIn),
                      accessToken := accessToken, idToken := idToken,
                      refreshToken := refreshToken, tokenType := tokenType,
                      expiresIn := expiresIn }
    let writes :=
      if !Qt.isEmpty s.lastLoginEmail && !Qt.isEmpty s.lastLoginPassword then
        [Effect.settingsSetValue "clouddeck/email" s.lastLoginEmail,
         Effect.settingsSetValue "clouddeck/password" s.lastLoginPassword,
         Effect.settingsSetValue "clouddeck/hostUser" s.lastLoginEmail]
      else []
    (s, writes ++ [completed])
  else
    ({ s with accessTokenExpiresAtUtc := none, accessToken := "", idToken := "",
              refreshToken := "", tokenType := "", expiresIn := 0 }, [completed])

/-- A `finishLogin` call that reports a failure: no tokens, no challenge. -/
def failLogin (now : Int) (s : State) (status : AuthStatus) (errorCode errorMessage : String) :
    State × List Effect :=
  finishLogin now s status "" 0 "" "" "" errorCode errorMessage "" []

/-- Member function `CloudDeckManagerApi::loginWithCredentials`. -/
def loginWithCredentials (now : Int) (s : State) (email password : String) :
    State × List Effect :=
  if s.loginInProgress then failLogin now s AuthInProgress "InProgress" "Login already in progress"
  else
    let trimmedEmail := Qt.trimmed email
    let emailEmpty := Qt.isEmpty trimmedEmail
    let passwordEmpty := Qt.isEmpty (Qt.trimmed password)
    if emailEmpty && passwordEmpty then
      failLogin now s AuthInvalidInput "EmptyCredentials" "Email and password are required"
    else if emailEmpty then failLogin now s AuthInvalidInput "EmptyEmail" "Email is required"
    else if passwordEmpty then
      failLogin now s AuthInvalidInput "EmptyPassword" "Password is required"
    else
      let atIndex := Qt.indexOf trimmedEmail '@' 0
      if atIndex ≤ 0 ∨ Qt.indexOf trimmedEmail '.' atIndex.toNat = -1 then
        failLogin now s AuthInvalidInput "InvalidEmail" "Email address is invalid"
      else
        ({ s with lastLoginEmail := trimmedEmail, lastLoginPassword := password,
                  loginInProgress := true, loginReply := true },
          [Effect.sent (Request.initiateAuth trimmedEmail password)])

/-- Member function `CloudDeckManagerApi::handleLoginReply`. -/
def handleLoginReply (now : Int) (s : State) (r : Reply) : State × List Effect :=
  if !s.loginReply then failLogin now s AuthUnknownError "MissingReply" "Login reply missing"
  else
    let s := { s with loginReply := false }
    if r.networkError ≠ 0 ∧ Qt.isEmpty r.body then
      failLogin now s AuthNetworkError "NetworkError" r.networkErrorText
    else if Qt.isEmpty r.body then
      if r.statusCode ≥ 400 then
        failLogin now s AuthHttpError (httpCode r.statusCode) (httpMessage r.statusCode)
      else failLogin now s AuthParseError "EmptyResponse" "Empty response from server"
    else
      match r.doc with
      | QJsonDocument.null => failLogin now s AuthParseError "ParseError" (parseMessage r)
      | QJsonDocument.array _ => failLogin now s AuthParseError "ParseError" (parseMessage r)
      | QJsonDocument.object obj =>
        if obj.contains "AuthenticationResult" && (obj.value "AuthenticationResult").isObject then
          let result := (obj.value "AuthenticationResult").toObject
          let accessToken := (result.value "AccessToken").toString
          let expiresIn := (result.value "ExpiresIn").toInt
          let idToken := (result.value "IdToken").toString
          let refreshToken := (result.value "RefreshToken").toString
          let tokenType := (result.value "TokenType").toString
          if Qt.isEmpty accessToken then
            failLogin now s AuthParseError "MissingAccessToken" "Access token missing from response"
          else
            finishLogin now s AuthSuccess accessToken expiresIn idToken refreshToken tokenType
              "" "" "" []
        else if obj.contains "ChallengeName" then
          finishLogin now s AuthChallengeRequired "" 0 "" "" "" "ChallengeRequired"
            "Additional authentication required" (obj.value "ChallengeName").toString
            (obj.value "ChallengeParameters").toObject
        else
          let errorCode := normalizeErrorCode (extractErrorCode obj)
          let errorMessage := extractErrorMessage obj
          let errorCode :=
            if Qt.isEmpty errorCode ∧ r.statusCode ≥ 400 then httpCode r.statusCode else errorCode
          let errorMessage :=
            if Qt.isEmpty errorMessage ∧ r.statusCode ≥ 400 then httpMessage r.statusCode
            else errorMessage
          if Qt.isEmpty errorCode then
            failLogin now s AuthUnknownError "UnknownError" "Unknown login error"
          else
            let status := mapErrorCodeToStatus errorCode
            let errorMessage :=
              if Qt.isEmpty errorMessage then defaultMessageForStatus status else errorMessage
            failLogin now s status errorCode errorMessage

/-- Member function `CloudDeckManagerApi::accessTokenSecondsRemaining` at the instant `now`. -/
def accessTokenSecondsRemaining (now : Int) (s : State) : Int :=
  match s.accessTokenExpiresAtUtc with
  | none => 0
  | some expiresAt =>
    let seconds := expiresAt - now
    if seconds ≤ 0 then 0
    else if seconds > 2147483647 then 2147483647
    else seconds

/-- Member function `CloudDeckManagerApi::isAccessTokenExpired`. -/
def isAccessTokenExpired (now : Int) (s : State) : Bool :=
  accessTokenSecondsRemaining now s == 0

/-! ## Identity resolution -/

/-- Member function `CloudDeckManagerApi::fetchAccountMachineId`. -/
def fetchAccountMachineId (s : State) (accountId accessToken : String) : State × List Effect :=
  let trimmedAccountId := Qt.trimmed accountId
  if Qt.isEmpty trimmedAccountId then
    (s, [Effect.machineIdFetched false "" "EmptyAccountId" "Account ID is required"])
  else
    let trimmedToken := Qt.trimmed accessToken
    if Qt.isEmpty trimmedToken then
      (s, [Effect.machineIdFetched false "" "EmptyAccessToken" "Access token is required"])
    else if s.accountInProgress then
      (s, [Effect.machineIdFetched false "" "InProgress" "Account lookup already in progress"])
    else
      ({ s with accountId := trimmedAccountId, accountInProgress := true, accountReply := true },
        [Effect.sent (Request.getAccount trimmedAccountId trimmedToken)])

/-- Member function `CloudDeckManagerApi::fetchMachineId`. -/
def fetchMachineId (s : State) (accessToken : String) : State × List Effect :=
  let trimmedToken := Qt.trimmed accessToken
  if Qt.isEmpty trimmedToken then
    (s, [Effect.machineIdFetched false "" "EmptyAccessToken" "Access token is required"])
  else if s.getUserInProgress || s.accountInProgress then
    (s, [Effect.machineIdFetched false "" "InProgress" "GetUser already in progress"])
  else
    ({ s with machineId := "", accountId := "", machineAccessToken := trimmedToken,
              getUserInProgress := true, getUserReply := true },
      [Effect.sent (Request.getUser trimmedToken)])

/-- The loop of `handleGetUserReply` over `UserAttributes`: the `Value` of the
first object entry whose `Name` is `custom:account`. -/
def findAccountAttribute : List QJsonValue → Option String
  | [] => none
  | entry :: rest =>
    if !entry.isObject then findAccountAttribute rest
    else if (entry.toObject.value "Name").toString = "custom:account" then
      some (entry.toObject.value "Value").toString
    else findAccountAttribute rest

/-- Member function `CloudDeckManagerApi::handleGetUserReply`. -/
def handleGetUserReply (s : State) (r : Reply) : State × List Effect :=
  if !s.getUserReply then
    ({ s with getUserInProgress := false },
      [Effect.machineIdFetched false "" "MissingReply" "GetUser reply missing"])
  else
    let s := { s with getUserReply := false, getUserInProgress := false }
    if r.networkError ≠ 0 ∧ Qt.isEmpty r.body then
      (s, [Effect.machineIdFetched false "" "NetworkError" r.networkErrorText])
    else if Qt.isEmpty r.body then
      if r.statusCode ≥ 400 then
        (s, [Effect.machineIdFetched false "" (httpCode r.statusCode) (httpMessage r.statusCode)])
      else (s, [Effect.machineIdFetched false "" "EmptyResponse" "Empty response from server"])
    else
      match r.doc with
      | QJsonDocument.null => (s, [Effect.machineIdFetched false "" "ParseError" (parseMessage r)])
      | QJsonDocument.array _ =>
        (s, [Effect.machineIdFetched false "" "ParseError" (parseMessage r)])
      | QJsonDocument.object obj =>
        if obj.contains "UserAttributes" && (obj.value "UserAttributes").isArray then
          match findAccountAttribute (obj.value "UserAttributes").toArray with
          | some value =>
            if Qt.isEmpty value then
              (s, [Effect.machineIdFetched false "" "MissingAccountId"
                    "custom:account value missing"])
            else
              let s := { s with accountId := value }
              fetchAccountMachineId s value s.machineAccessToken
          | none =>
            (s, [Effect.machineIdFetched false "" "MissingAccountId" "custom:account not found"])
        else
          let errorCode := normalizeErrorCode (extractErrorCode obj)
          let errorMessage := extractErrorMessage obj
          let errorCode :=
            if Qt.isEmpty errorCode ∧ r.statusCode ≥ 400 then httpCode r.statusCode else errorCode
          let errorMessage :=
            if Qt.isEmpty errorMessage ∧ r.statusCode ≥ 400 then httpMessage r.statusCode
            else errorMessage
          let errorCode := if Qt.isEmpty errorCode then "UnknownError" else errorCode
          let errorMessage :=
            if Qt.isEmpty errorMessage then "Unknown GetUser error" else errorMessage
          (s, [Effect.machineIdFetched false "" errorCode errorMessage])

/-- Member function `CloudDeckManagerApi::handleAccountReply`. -/
def handleAccountReply (s : State) (r : Reply) : State × List Effect :=
  if !s.accountReply then
    ({ s with accountInProgress := false },
      [Effect.machineIdFetched false "" "MissingReply" "Account reply missing"])
  else
    let s := { s with accountReply := false, accountInProgress := false }
    if r.networkError ≠ 0 ∧ Qt.isEmpty r.body then
      (s, [Effect.machineIdFetched false "" "NetworkError" r.networkErrorText])
    else if Qt.isEmpty r.body then
      if r.statusCode ≥ 400 then
        (s, [Effect.machineIdFetched false "" (httpCode r.statusCode) (httpMessage r.statusCode)])
      else (s, [Effect.machineIdFetched false "" "EmptyResponse" "Empty response from server"])
    else
      match r.doc with
      | QJsonDocument.null => (s, [Effect.machineIdFetched false "" "ParseError" (parseMessage r)])
      | QJsonDocument.array _ =>
        (s, [Effect.machineIdFetched false "" "ParseError" (parseMessage r)])
      | QJsonDocument.object obj =>
        if r.statusCode ≥ 400 ∨ r.networkError ≠ 0 then
          let e := replyError r (normalizeErrorCode (extractErrorCode obj)) (extractErrorMessage obj)
          (s, [Effect.machineIdFetched false "" e.1 e.2])
        else
          let machineId := (obj.value "machine_id").toString
          if Qt.isEmpty machineId then
            (s, [Effect.machineIdFetched false "" "MissingMachineId"
                  "machine_id missing from account response"])
          else
            ({ s with machineId := machineId }, [Effect.machineIdFetched true machineId "" ""])

/-! ## Companion operation: pairing a client -/

/-- Member function `CloudDeckManagerApi::addMachineClient`. -/
def addMachineClient (s : State) (accessToken machineId pin : String) : State × List Effect :=
  let trimmedToken := Qt.trimmed accessToken
  let trimmedId := Qt.trimmed machineId
  let trimmedPin := Qt.trimmed pin
  if Qt.isEmpty trimmedToken then
    (s, [Effect.machineClientAdded false [] "EmptyAccessToken" "Access token is required"])
  else if Qt.isEmpty trimmedId then
    (s, [Effect.machineClientAdded false [] "EmptyMachineId" "Machine ID is required"])
  else if Qt.isEmpty trimmedPin then
    (s, [Effect.machineClientAdded false [] "EmptyPin" "PIN is required"])
  else if s.machineClientReply then
    (s, [Effect.machineClientAdded false [] "InProgress" "Client add already in progress"])
  else
    ({ s with machineClientReply := true },
      [Effect.sent (Request.postMachineClient trimmedId trimmedToken trimmedPin)])

/-- Member function `CloudDeckManagerApi::handleMachineClientReply`. -/
def handleMachineClientReply (s : State) (r : Reply) : State × List Effect :=
  if !s.machineClientReply then (s, [])
  else
    let s := { s with machineClientReply := false }
    if r.networkError ≠ 0 ∧ Qt.isEmpty r.body then
      (s, [Effect.machineClientAdded false [] "NetworkError" r.networkErrorText])
    else
      let parsed : Option QJsonObject :=
        if Qt.isEmpty r.body then some []
        else
          match r.doc with
          | QJsonDocument.object obj => some obj
          | _ => if r.statusCode ≥ 400 then none else some []
      match parsed with
      | none => (s, [Effect.machineClientAdded false [] "ParseError" (parseMessage r)])
      | some responseMap =>
        if r.statusCode ≥ 400 ∨ r.networkError ≠ 0 then
          let codes : String × String :=
            if responseMap.isEmpty then ("", "")
            else (normalizeErrorCode (extractErrorCode responseMap),
                  extractErrorMessage responseMap)
          let e := replyError r codes.1 codes.2
          (s, [Effect.machineClientAdded false responseMap e.1 e.2])
        else (s, [Effect.machineClientAdded true responseMap "" ""])

/-! ## Cancellation -/

/-- Member function `CloudDeckManagerApi::cancelCurrentOperation`.  Each
`abort()` (source lines 470-496) runs the handler of its reply on the canceled
reply while the member pointer is still set; the pointer is reset after it.
The login handler does not read the clock on this path. -/
def cancelCurrentOperation (s : State) : State × List Effect :=
  let r1 : State × List Effect :=
    if s.loginReply then
      let h := handleLoginReply 0 s Reply.canceled
      ({ h.1 with loginReply := false }, Effect.aborted ReplyKind.login :: h.2)
    else (s, [])
  let r2 : State × List Effect :=
    if r1.1.getUserReply then
      let h := handleGetUserReply r1.1 Reply.canceled
      ({ h.1 with getUserReply := false }, r1.2 ++ Effect.aborted ReplyKind.getUser :: h.2)
    else r1
  let r3 : State × List Effect :=
    if r2.1.accountReply then
      let h := handleAccountReply r2.1 Reply.canceled
      ({ h.1 with accountReply := false }, r2.2 ++ Effect.aborted ReplyKind.account :: h.2)
    else r2
  let r4 : State × List Effect :=
    if r3.1.machineStatusReply then
      let h := handleMachineStatusReply r3.1 Reply.canceled
      ({ h.1 with machineStatusReply := false },
        r3.2 ++ Effect.aborted ReplyKind.machineStatus :: h.2)
    else r3
  let r5 : State × List Effect :=
    if r4.1.machineCommandReply then
      let h := handleMachineCommandReply r4.1 Reply.canceled
      ({ h.1 with machineCommandReply := false },
        r4.2 ++ Effect.aborted ReplyKind.machineCommand :: h.2)
    else r4
  let r6 : State × List Effect :=
    if r5.1.machineClientReply then
      let h := handleMachineClientReply r5.1 Reply.canceled
      ({ h.1 with machineClientReply := false },
        r5.2 ++ Effect.aborted ReplyKind.machineClient :: h.2)
    else r5
  ({ r6.1 with pollTimerActive := false, machineAction := MachineNone,
               transitionCheckCount := 0, loginInProgress := false,
               getUserInProgress := false, accountInProgress := false }, r6.2)

/-! ## Driving the controller -/

/-- One stimulus of the controller: a call of a public operation, the
completion of an outstanding request, or a timeout of the poll timer.  The
operations that read the clock carry the current time in seconds. -/
inductive Input where
  | loginWithCredentials (now : Int) (email password : String)
  | fetchMachineId (accessToken : String)
  | fetchMachineStatus (machineId accessToken : String)
  | startMachine (machineId accessToken : String)
  | stopMachine (machineId accessToken : String)
  | addMachineClient (accessToken machineId pin : String)
  | cancelCurrentOperation
  | loginReply (now : Int) (r : Reply)
  | getUserReply (r : Reply)
  | accountReply (r : Reply)
  | machineStatusReply (r : Reply)
  | machineCommandReply (r : Reply)
  | machineClientReply (r : Reply)
  | pollTimeout

/-- The input is a call of `startMachine` or `stopMachine`. -/
def Input.isStartOrStop : Input → Bool
  | Input.startMachine _ _ => true
  | Input.stopMachine _ _ => true
  | _ => false

/-- Dispatch of one stimulus to the member function that handles it. -/
def step (s : State) : Input → State × List Effect
  | Input.loginWithCredentials now email password => loginWithCredentials now s email password
  | Input.fetchMachineId accessToken => fetchMachineId s accessToken
  | Input.fetchMachineStatus machineId accessToken => fetchMachineStatus s machineId accessToken
  | Input.startMachine machineId accessToken => startMachine s machineId accessToken
  | Input.stopMachine machineId accessToken => stopMachine s machineId accessToken
  | Input.addMachineClient accessToken machineId pin => addMachineClient s accessToken machineId pin
  | Input.cancelCurrentOperation => cancelCurrentOperation s
  | Input.loginReply now r => handleLoginReply now s r
  | Input.getUserReply r => handleGetUserReply s r
  | Input.accountReply r => handleAccountReply s r
  | Input.machineStatusReply r => handleMachineStatusReply s r
  | Input.machineCommandReply r => handleMachineCommandReply s r
  | Input.machineClientReply r => handleMachineClientReply s r
  | Input.pollTimeout => pollMachineStatus s

/-- A sequence of stimuli, with the effects concatenated in order. -/
def run (s : State) : List Input → State × List Effect
  | [] => (s, [])
  | i :: rest =>
    let r1 := step s i
    let r2 := run r1.1 rest
    (r2.1, r1.2 ++ r2.2)

/-- The start and stop completion signals among a list of effects. -/
def startStopFinished (es : List Effect) : List Effect := es.filter Effect.isStartStopFinished

/-- The start and stop command requests among a list of effects. -/
def commandRequests (es : List Effect) : List Effect := es.filter Effect.isCommandRequest

/-- The network requests among a list of effects. -/
def requests (es : List Effect) : List Effect := es.filter Effect.isRequest

/-! ## Vocabulary of the statements -/

/-- The body object of a reply that `handleMachineStatusReply` takes as a
successful status fetch: no transport error, a non-empty body that parses to a
JSON object, an HTTP status below 400 and a non-empty `status` string.  It is
`none` for every reply the handler reports through `machineStatusFailed`. -/
def Reply.fetchedStatus (r : Reply) : Option QJsonObject :=
  if r.networkError ≠ 0 ∨ Qt.isEmpty r.body ∨ r.statusCode ≥ 400 then none
  else
    match r.doc with
    | QJsonDocument.object obj =>
      if Qt.isEmpty (obj.value "status").toString then none else some obj
    | _ => none

/-- Two consecutive status fetches: the reply to the outstanding status
request, the poll tick that issues the next request, and the reply to it. -/
def twoFetches (r1 r2 : Reply) : List Input :=
  [Input.machineStatusReply r1, Input.pollTimeout, Input.machineStatusReply r2]

/-- The reply is one that is handled as a failed status fetch: a transport
error, an empty body, an HTTP status of 400 or more, a body that is not a JSON
object, or an object whose `status` string is missing or empty. -/
def Reply.handledAsFailure (r : Reply) : Bool :=
  r.networkError != 0 || Qt.isEmpty r.body || decide (r.statusCode ≥ 400) ||
  match r.doc with
  | QJsonDocument.object obj => Qt.isEmpty (obj.value "status").toString
  | _ => true

/-- The normalized error code extracted from the body of a reply: empty when
the body is empty or is not a JSON object. -/
def Reply.bodyErrorCode (r : Reply) : String :=
  if Qt.isEmpty r.body then ""
  else
    match r.doc with
    | QJsonDocument.object obj => normalizeErrorCode (extractErrorCode obj)
    | _ => ""

/-- The characters after the first `@` of a character list; empty when the
list holds no `@`. -/
def afterFirstAt : List Char → List Char
  | [] => []
  | c :: cs => if c = '@' then cs else afterFirstAt cs

/-- The stored token set: expiry instant, the four token strings and
`m_expiresIn`. -/
def State.tokenSet (s : State) : Option Int × String × String × String × String × Int :=
  (s.accessTokenExpiresAtUtc, s.accessToken, s.idToken, s.refreshToken, s.tokenType,
    s.expiresIn)

/-- The token set of a controller without a session: no expiry, four empty
strings and `m_expiresIn = 0`. -/
def clearedTokenSet : Option Int × String × String × String × String × Int :=
  (none, "", "", "", "", 0)

/-- The status carried by a `loginCompleted` signal; `none` for other effects. -/
def Effect.loginStatus : Effect → Option AuthStatus
  | Effect.loginCompleted status _ _ _ _ _ _ _ _ _ => some status
  | _ => none

/-- The error code carried by a `loginCompleted` signal; `none` for other
effects. -/
def Effect.loginErrorCode : Effect → Option String
  | Effect.loginCompleted _ _ _ _ _ _ errorCode _ _ _ => some errorCode
  | _ => none

/-- Consistency of a token set: it is the cleared one, or its access token is
non-empty and its expiry is set. -/
def TokenSetConsistent (t : Option Int × String × String × String × String × Int) : Prop :=
  t = clearedTokenSet ∨ (Qt.isEmpty t.2.1 = false ∧ t.1.isSome = true)

/-- The statuses of the `loginCompleted` signals among a list of effects. -/
def loginCompletions (es : List Effect) : List AuthStatus := es.filterMap Effect.loginStatus

/-- The part of a character list after the last occurrence of `c`; the whole
list when `c` does not occur. -/
def afterLast (c : Char) : List Char → List Char
  | [] => []
  | x :: xs => if c ∈ xs then afterLast c xs else if x = c then xs else x :: xs

/-- Reference normalization in the words of the specification: remove
everything up to and including the last `#`, then everything up to and
including the last `/`, then trim white space. -/
def referenceNormalize (raw : String) : String :=
  ⟨Qt.trimmedChars (afterLast '/' (afterLast '#' raw.data))⟩

/-- Removal of everything up to and including the last `c`, except that a list
ending in `c` is left as it is. -/
def afterLastUnlessFinal (c : Char) (l : List Char) : List Char :=
  if l.getLast? = some c then l else afterLast c l

/-- Reference normalization with the guard of the code: a `#` (then a `/`) that
is the last character removes nothing. -/
def referenceNormalizeGuarded (raw : String) : String :=
  ⟨Qt.trimmedChars (afterLastUnlessFinal '/' (afterLastUnlessFinal '#' raw.data))⟩

/-- The codes of the table of `mapErrorCodeToStatus` (source lines 1257-1305),
the `Http` prefix test apart. -/
def knownErrorCodes : List String :=
  ["EmptyCredentials", "EmptyEmail", "EmptyPassword", "InvalidEmail", "NotAuthorizedException",
   "UserNotFoundException", "UserNotConfirmedException", "PasswordResetRequiredException",
   "InvalidParameterException", "InvalidPasswordException", "TooManyRequestsException",
   "LimitExceededException", "RequestLimitExceeded", "ResourceNotFoundException",
   "InternalErrorException", "InternalError", "NetworkError", "ParseError",
   "MissingAccessToken", "EmptyResponse", "InProgress", "ChallengeRequired"]

/-- The code has the form `Http<status>`: the prefix `Http` followed by one or
more decimal digits. -/
def isHttpStatusCode (code : String) : Bool :=
  Qt.startsWith code "Http" && !(code.data.drop 4).isEmpty &&
    (code.data.drop 4).all Char.isDigit

/-- Reference for `extractErrorCode` in the words of the specification: the
probed keys are tried in order and the first one whose value is a string gives
the result; a key that is absent or holds a non-string value is skipped; the
result is empty when no key holds a string. -/
def firstStringValue (obj : QJsonObject) : List String → String
  | [] => ""
  | key :: rest =>
    match obj.value key with
    | QJsonValue.string s => s
    | _ => firstStringValue obj rest

/-- The keys probed for an error code, in order. -/
def errorCodeKeys : List String := ["__type", "code", "error", "Error", "errorCode"]

/-- The machine record: id, status, password, public address and the two
timestamps. -/
def State.machineRecord (s : State) : String × String × String × String × Int × Int :=
  (s.machineId, s.machineStatus, s.machinePassword, s.machinePublicIp, s.machineLastStarted,
    s.machineCreatedAt)

/-- The response holds a string member `id`, the test of source line 976. -/
def hasStringId (obj : QJsonObject) : Bool :=
  obj.contains "id" && (obj.value "id").isString

/-- The signals among a list of effects. -/
def signals (es : List Effect) : List Effect := es.filter Effect.isSignal

/-- While an action is in flight the poll timer runs and the stored machine
access token is non-blank. -/
def LifecycleConsistent (s : State) : Prop :=
  s.machineAction ≠ MachineNone →
    s.pollTimerActive = true ∧ Qt.isEmpty (Qt.trimmed s.machineAccessToken) = false

/-- Agreement of the status and the error code of a login completion: the
status is success exactly when the code is empty, and a status other than
success is the classification of a non-empty code. -/
def StatusAgrees (status : AuthStatus) (errorCode : String) : Prop :=
  (status = AuthSuccess ↔ Qt.isEmpty errorCode = true) ∧
  (status ≠ AuthSuccess →
    Qt.isEmpty errorCode = false ∧ status = mapErrorCodeToStatus errorCode)

/-- The email shape that `loginWithCredentials` accepts: an `@` occurs, the
first `@` is not the first character, and a `.` occurs after the first `@`. -/
def hasAcceptedShape (email : List Char) : Bool :=
  decide ('@' ∈ email) && decide (email.head? ≠ some '@') &&
    decide ('.' ∈ afterFirstAt email)

/-! ## Concrete states and replies used in the examples -/

/-- The state after `startMachine("m-1", "token")` on a fresh controller. -/
def startedState : State := (startMachine State.initial "m-1" "token").1

/-- The started controller after its first poll tick: a status request is
outstanding. -/
def polledState : State := (pollMachineStatus startedState).1

/-- A reply with HTTP status 200 whose body parses to the object `obj`. -/
def okReply (body : String) (obj : QJsonObject) : Reply where
  statusCode := 200
  networkError := 0
  networkErrorText := ""
  body := body
  doc := QJsonDocument.object obj
  parseErrorString := ""

/-- The started controller after the reply to its start command (HTTP 200, an
empty JSON object) and its first poll tick: a status request is outstanding
and no command reply is. -/
def acknowledgedState : State :=
  (pollMachineStatus (handleMachineCommandReply startedState (okReply "\x7b\x7d" [])).1).1

/-- The status response with `status` set to `status` and no other member. -/
def statusReply (status : String) : Reply :=
  okReply ("\x7b\"status\":\"" ++ status ++ "\"\x7d") [("status", QJsonValue.string status)]

/-- The status response with the members `id` and `status`. -/
def statusReplyWithId (id status : String) : Reply :=
  okReply ("\x7b\"id\":\"" ++ id ++ "\",\"status\":\"" ++ status ++ "\"\x7d")
    [("id", QJsonValue.string id), ("status", QJsonValue.string status)]

/-- A transport failure without a body (connection refused). -/
def refusedReply : Reply where
  statusCode := 0
  networkError := 1
  networkErrorText := "Connection refused"
  body := ""
  doc := QJsonDocument.null
  parseErrorString := "illegal value"

/-- An HTTP 403 reply whose body is a JSON error object with the code `code`. -/
def forbiddenReply (code : String) : Reply where
  statusCode := 403
  networkError := 0
  networkErrorText := ""
  body := "\x7b\"__type\":\"" ++ code ++ "\"\x7d"
  doc := QJsonDocument.object [("__type", QJsonValue.string code)]
  parseErrorString := ""

/-- The controller after `loginWithCredentials("a@b.com", "pw")` at time 0: an
authentication request is outstanding. -/
def loggingInState : State := (loginWithCredentials 0 State.initial "a@b.com" "pw").1

/-- The `AuthenticationResult` object of a login response. -/
def authResult (accessToken : String) (expiresIn : Int) : QJsonObject :=
  [("AccessToken", QJsonValue.string accessToken), ("ExpiresIn", QJsonValue.number expiresIn),
   ("IdToken", QJsonValue.string "id-1"), ("RefreshToken", QJsonValue.string "refresh-1"),
   ("TokenType", QJsonValue.string "Bearer")]

/-- A login response with an `AuthenticationResult` holding all five members. -/
def authReply (accessToken : String) (expiresIn : Int) : Reply :=
  okReply ("\x7b\"AuthenticationResult\":\x7b\"AccessToken\":\"" ++ accessToken ++
      "\",\"ExpiresIn\":" ++ Qt.number expiresIn ++
      ",\"IdToken\":\"id-1\",\"RefreshToken\":\"refresh-1\",\"TokenType\":\"Bearer\"\x7d\x7d")
    [("AuthenticationResult", QJsonValue.object (authResult accessToken expiresIn))]

/-- The controller that holds the tokens of a login completed at time 5
(`tok-1`, valid for 3600 s) and has a second login request outstanding. -/
def reloggingState : State :=
  (run State.initial
    [Input.loginWithCredentials 0 "a@b.com" "pw", Input.loginReply 5 (authReply "tok-1" 3600),
     Input.loginWithCredentials 10 "a@b.com" "pw"]).1

/-- Three calls of `loginWithCredentials("a@b.com", "pw")` in a row, no login
reply in between. -/
def overlappingLogins : List Input :=
  [Input.loginWithCredentials 0 "a@b.com" "pw", Input.loginWithCredentials 1 "a@b.com" "pw",
   Input.loginWithCredentials 2 "a@b.com" "pw"]

/-- A start that is over before the reply to its command arrives, followed by
a second start: `startMachine("m-1", "token")`, a poll tick, the status reply
`running`, and `startMachine("m-1", "token")` again. -/
def restartTrace : List Input :=
  [Input.startMachine "m-1" "token", Input.pollTimeout,
   Input.machineStatusReply (statusReply "running"), Input.startMachine "m-1" "token"]

/-- The started controller after a `fetchMachineId("token")` call: the action
is still in flight and the stored machine id has been cleared. -/
def startedThenResolving : State := (fetchMachineId startedState "token").1

/-- A GetUser response whose `UserAttributes` hold `custom:account`. -/
def userAttributesReply (account : String) : Reply :=
  okReply ("\x7b\"UserAttributes\":[\x7b\"Name\":\"custom:account\",\"Value\":\"" ++ account ++
      "\"\x7d]\x7d")
    [("UserAttributes", QJsonValue.array
      [QJsonValue.object [("Name", QJsonValue.string "custom:account"),
        ("Value", QJsonValue.string account)]])]

/-- An HTTP 400 login response with a provider error object. -/
def providerErrorReply (code message : String) : Reply where
  statusCode := 400
  networkError := 0
  networkErrorText := ""
  body := "\x7b\"__type\":\"" ++ code ++ "\",\"message\":\"" ++ message ++ "\"\x7d"
  doc := QJsonDocument.object
    [("__type", QJsonValue.string code), ("message", QJsonValue.string message)]
  parseErrorString := ""

/-! # Theorems -/

/-! ## Auxiliary facts about the string primitives -/

theorem Qt.dropWhile_head_not (p : Char → Bool) (l : List Char) (x : Char) (xs : List Char)
    (h : l.dropWhile p = x :: xs) : p x = false := by
  induction l with
  | nil => simp at h
  | cons y ys ih =>
    by_cases hy : p y = true
    · rw [List.dropWhile_cons_of_pos hy] at h
      exact ih h
    · rw [List.dropWhile_cons_of_neg hy] at h
      cases h
      simpa using hy

theorem Qt.trimmedChars_idempotent (l : List Char) :
    Qt.trimmedChars (Qt.trimmedChars l) = Qt.trimmedChars l := by
  have key : ∀ m : List Char, Qt.trimmedChars m = List.rdropWhile Qt.isSpace (m.dropWhile Qt.isSpace) := by
    intro m
    rfl
  rw [key l]
  generalize hd : l.dropWhile Qt.isSpace = d
  rw [key]
  have hpre : List.rdropWhile Qt.isSpace d <+: d := List.rdropWhile_prefix Qt.isSpace d
  have hdrop : (List.rdropWhile Qt.isSpace d).dropWhile Qt.isSpace = List.rdropWhile Qt.isSpace d := by
    cases ht : List.rdropWhile Qt.isSpace d with
    | nil => rfl
    | cons x xs =>
      rw [ht] at hpre
      obtain ⟨r, hr⟩ := hpre
      have hx : Qt.isSpace x = false :=
        Qt.dropWhile_head_not Qt.isSpace l x (xs ++ r) (by rw [hd, ← hr]; rfl)
      rw [List.dropWhile_cons_of_neg (by simp [hx])]
  rw [hdrop, List.rdropWhile_idempotent]

theorem Qt.trimmed_idempotent (s : String) : Qt.trimmed (Qt.trimmed s) = Qt.trimmed s := by
  simp [Qt.trimmed, Qt.trimmedChars_idempotent]

theorem Qt.isEmpty_trimmed_trimmed (s : String) :
    Qt.isEmpty (Qt.trimmed (Qt.trimmed s)) = Qt.isEmpty (Qt.trimmed s) := by
  rw [Qt.trimmed_idempotent]

theorem Qt.isEmpty_of_trimmed_nonempty (s : String) (h : Qt.isEmpty (Qt.trimmed s) = false) :
    Qt.isEmpty s = false := by
  cases hs : s.data with
  | nil => simp [Qt.isEmpty, Qt.trimmed, Qt.trimmedChars, hs] at h
  | cons x xs => simp [Qt.isEmpty, hs]

/-! ## Operations that never touch the lifecycle action -/

theorem finishLogin_lifecycle (now : Int) (s : State) (status : AuthStatus) (a : String)
    (e : Int) (i rt tt ec em cn : String) (cp : QJsonObject) :
    (finishLogin now s status a e i rt tt ec em cn cp).1.machineAction = s.machineAction ∧
    startStopFinished (finishLogin now s status a e i rt tt ec em cn cp).2 = [] := by
  unfold finishLogin startStopFinished
  simp only []
  split_ifs <;> simp [Effect.isStartStopFinished]

theorem loginWithCredentials_lifecycle (now : Int) (s : State) (email password : String) :
    (loginWithCredentials now s email password).1.machineAction = s.machineAction ∧
    startStopFinished (loginWithCredentials now s email password).2 = [] := by
  unfold loginWithCredentials failLogin
  simp only []
  repeat' split
  all_goals first
    | exact finishLogin_lifecycle _ _ _ _ _ _ _ _ _ _ _ _
    | simp [startStopFinished, Effect.isStartStopFinished]

theorem handleLoginReply_lifecycle (now : Int) (s : State) (r : Reply) :
    (handleLoginReply now s r).1.machineAction = s.machineAction ∧
    startStopFinished (handleLoginReply now s r).2 = [] := by
  unfold handleLoginReply failLogin
  simp only []
  repeat' split
  all_goals exact finishLogin_lifecycle _ _ _ _ _ _ _ _ _ _ _ _

theorem fetchAccountMachineId_lifecycle (s : State) (accountId accessToken : String) :
    (fetchAccountMachineId s accountId accessToken).1.machineAction = s.machineAction ∧
    startStopFinished (fetchAccountMachineId s accountId accessToken).2 = [] := by
  unfold fetchAccountMachineId
  simp only []
  repeat' split
  all_goals simp [startStopFinished, Effect.isStartStopFinished]

theorem fetchMachineId_lifecycle (s : State) (accessToken : String) :
    (fetchMachineId s accessToken).1.machineAction = s.machineAction ∧
    startStopFinished (fetchMachineId s accessToken).2 = [] := by
  unfold fetchMachineId
  simp only []
  repeat' split
  all_goals simp [startStopFinished, Effect.isStartStopFinished]

theorem handleGetUserReply_lifecycle (s : State) (r : Reply) :
    (handleGetUserReply s r).1.machineAction = s.machineAction ∧
    startStopFinished (handleGetUserReply s r).2 = [] := by
  unfold handleGetUserReply
  simp only []
  repeat' split
  all_goals first
    | exact fetchAccountMachineId_lifecycle _ _ _
    | simp [startStopFinished, Effect.isStartStopFinished]

theorem handleAccountReply_lifecycle (s : State) (r : Reply) :
    (handleAccountReply s r).1.machineAction = s.machineAction ∧
    startStopFinished (handleAccountReply s r).2 = [] := by
  unfold handleAccountReply
  simp only []
  repeat' split
  all_goals simp [startStopFinished, Effect.isStartStopFinished]

theorem fetchMachineStatus_lifecycle (s : State) (machineId accessToken : String) :
    (fetchMachineStatus s machineId accessToken).1.machineAction = s.machineAction ∧
    startStopFinished (fetchMachineStatus s machineId accessToken).2 = [] := by
  unfold fetchMachineStatus
  simp only []
  repeat' split
  all_goals simp [startStopFinished, Effect.isStartStopFinished]

theorem pollMachineStatus_lifecycle (s : State) :
    (pollMachineStatus s).1.machineAction = s.machineAction ∧
    startStopFinished (pollMachineStatus s).2 = [] := by
  unfold pollMachineStatus
  repeat' split
  all_goals first
    | exact fetchMachineStatus_lifecycle _ _ _
    | simp [startStopFinished, Effect.isStartStopFinished]

theorem addMachineClient_lifecycle (s : State) (accessToken machineId pin : String) :
    (addMachineClient s accessToken machineId pin).1.machineAction = s.machineAction ∧
    startStopFinished (addMachineClient s accessToken machineId pin).2 = [] := by
  unfold addMachineClient
  simp only []
  repeat' split
  all_goals simp [startStopFinished, Effect.isStartStopFinished]

theorem handleMachineClientReply_lifecycle (s : State) (r : Reply) :
    (handleMachineClientReply s r).1.machineAction = s.machineAction ∧
    startStopFinished (handleMachineClientReply s r).2 = [] := by
  unfold handleMachineClientReply
  simp only []
  repeat' split
  all_goals simp [startStopFinished, Effect.isStartStopFinished]

/-! ## Handlers run from inside `abort()` -/

theorem failLogin_eq (now : Int) (s : State) (status : AuthStatus) (ec em : String) :
    failLogin now s status ec em =
      ({ s with loginInProgress := false, accessTokenExpiresAtUtc := none, accessToken := "",
                idToken := "", refreshToken := "", tokenType := "", expiresIn := 0 },
        [Effect.loginCompleted status "" 0 "" "" "" ec em "" []]) := by
  unfold failLogin finishLogin
  simp

theorem handleLoginReply_canceled (now : Int) (s : State) (hout : s.loginReply = true) :
    handleLoginReply now s Reply.canceled =
      ({ s with loginReply := false, loginInProgress := false,
                accessTokenExpiresAtUtc := none, accessToken := "", idToken := "",
                refreshToken := "", tokenType := "", expiresIn := 0 },
        [Effect.loginCompleted AuthNetworkError "" 0 "" "" "" "NetworkError"
          "Operation canceled" "" []]) := by
  unfold handleLoginReply
  simp only [hout, Bool.not_true, Bool.false_eq_true, if_false]
  rw [failLogin_eq]
  rfl

theorem handleGetUserReply_canceled (s : State) (hout : s.getUserReply = true) :
    handleGetUserReply s Reply.canceled =
      ({ s with getUserReply := false, getUserInProgress := false },
        [Effect.machineIdFetched false "" "NetworkError" "Operation canceled"]) := by
  unfold handleGetUserReply
  simp only [hout, Bool.not_true, Bool.false_eq_true, if_false]
  rfl

theorem handleAccountReply_canceled (s : State) (hout : s.accountReply = true) :
    handleAccountReply s Reply.canceled =
      ({ s with accountReply := false, accountInProgress := false },
        [Effect.machineIdFetched false "" "NetworkError" "Operation canceled"]) := by
  unfold handleAccountReply
  simp only [hout, Bool.not_true, Bool.false_eq_true, if_false]
  rfl

theorem handleMachineStatusReply_canceled (s : State) (hout : s.machineStatusReply = true) :
    handleMachineStatusReply s Reply.canceled =
      ({ s with machineStatusReply := false },
        [Effect.machineStatusFailed "NetworkError" "Operation canceled"]) := by
  unfold handleMachineStatusReply
  simp only [hout, Bool.not_true, Bool.false_eq_true, if_false]
  rfl

theorem handleMachineClientReply_canceled (s : State) (hout : s.machineClientReply = true) :
    handleMachineClientReply s Reply.canceled =
      ({ s with machineClientReply := false },
        [Effect.machineClientAdded false [] "NetworkError" "Operation canceled"]) := by
  unfold handleMachineClientReply
  simp only [hout, Bool.not_true, Bool.false_eq_true, if_false]
  rfl

theorem handleMachineCommandReply_canceled (s : State) (hout : s.machineCommandReply = true) :
    handleMachineCommandReply s Reply.canceled =
      match s.machineAction with
      | MachineStarting =>
        ({ s with machineCommandReply := false, pollTimerActive := false,
                  machineAction := MachineNone },
          [Effect.machineStartFinished false s.machineStatus "NetworkError"
            "Operation canceled"])
      | MachineStopping =>
        ({ s with machineCommandReply := false, pollTimerActive := false,
                  machineAction := MachineNone },
          [Effect.machineStopFinished false s.machineStatus "NetworkError"
            "Operation canceled"])
      | MachineNone =>
        ({ s with machineCommandReply := false },
          [Effect.machineStatusFailed "NetworkError" "Operation canceled"]) := by
  unfold handleMachineCommandReply
  simp only [hout, Bool.not_true, Bool.false_eq_true, if_false]
  cases s.machineAction <;> rfl

/-- The handlers use the HTTP status of an aborted reply on no path: with the
error set and the body empty, every handler gives the same result for every
status. -/
theorem canceled_status_not_read (s : State) (now statusCode : Int) :
    handleLoginReply now s { Reply.canceled with statusCode := statusCode } =
      handleLoginReply now s Reply.canceled ∧
    handleGetUserReply s { Reply.canceled with statusCode := statusCode } =
      handleGetUserReply s Reply.canceled ∧
    handleAccountReply s { Reply.canceled with statusCode := statusCode } =
      handleAccountReply s Reply.canceled ∧
    handleMachineStatusReply s { Reply.canceled with statusCode := statusCode } =
      handleMachineStatusReply s Reply.canceled ∧
    handleMachineCommandReply s { Reply.canceled with statusCode := statusCode } =
      handleMachineCommandReply s Reply.canceled ∧
    handleMachineClientReply s { Reply.canceled with statusCode := statusCode } =
      handleMachineClientReply s Reply.canceled := by
  refine ⟨?_, ?_, ?_, ?_, ?_, ?_⟩
  · unfold handleLoginReply; cases s.loginReply <;> rfl
  · unfold handleGetUserReply; cases s.getUserReply <;> rfl
  · unfold handleAccountReply; cases s.accountReply <;> rfl
  · unfold handleMachineStatusReply; cases s.machineStatusReply <;> rfl
  · unfold handleMachineCommandReply
    cases s.machineCommandReply <;> cases s.machineAction <;> rfl
  · unfold handleMachineClientReply; cases s.machineClientReply <;> rfl

/-- The state and the effects of `cancelCurrentOperation`, in closed form. -/
theorem cancelCurrentOperation_eq (s : State) :
    cancelCurrentOperation s =
      ({ s with loginReply := false, getUserReply := false, accountReply := false,
                machineStatusReply := false, machineCommandReply := false,
                machineClientReply := false, pollTimerActive := false,
                machineAction := MachineNone, transitionCheckCount := 0,
                loginInProgress := false, getUserInProgress := false,
                accountInProgress := false,
                accessTokenExpiresAtUtc :=
                  if s.loginReply then none else s.accessTokenExpiresAtUtc,
                accessToken := if s.loginReply then "" else s.accessToken,
                idToken := if s.loginReply then "" else s.idToken,
                refreshToken := if s.loginReply then "" else s.refreshToken,
                tokenType := if s.loginReply then "" else s.tokenType,
                expiresIn := if s.loginReply then 0 else s.expiresIn },
        (if s.loginReply then
          [Effect.aborted ReplyKind.login,
           Effect.loginCompleted AuthNetworkError "" 0 "" "" "" "NetworkError"
             "Operation canceled" "" []] else []) ++
        (if s.getUserReply then
          [Effect.aborted ReplyKind.getUser,
           Effect.machineIdFetched false "" "NetworkError" "Operation canceled"] else []) ++
        (if s.accountReply then
          [Effect.aborted ReplyKind.account,
           Effect.machineIdFetched false "" "NetworkError" "Operation canceled"] else []) ++
        (if s.machineStatusReply then
          [Effect.aborted ReplyKind.machineStatus,
           Effect.machineStatusFailed "NetworkError" "Operation canceled"] else []) ++
        (if s.machineCommandReply then
          [Effect.aborted ReplyKind.machineCommand,
           match s.machineAction with
           | MachineStarting =>
             Effect.machineStartFinished false s.machineStatus "NetworkError"
               "Operation canceled"
           | MachineStopping =>
             Effect.machineStopFinished false s.machineStatus "NetworkError"
               "Operation canceled"
           | MachineNone => Effect.machineStatusFailed "NetworkError" "Operation canceled"]
          else []) ++
        (if s.machineClientReply then
          [Effect.aborted ReplyKind.machineClient,
           Effect.machineClientAdded false [] "NetworkError" "Operation canceled"]
          else [])) := by
  obtain ⟨lr, gr, ar, sr, cr, clr, lp, gp, ap, ex, at_, it, rt, tt, ei, mid, aid, mat, le, lpw,
    ms, mp, mip, mls, mca, act, tcc, pta⟩ := s
  cases lr <;> cases gr <;> cases ar <;> cases sr <;> cases cr <;> cases clr <;>
    simp only [cancelCurrentOperation, handleLoginReply_canceled, handleGetUserReply_canceled,
      handleAccountReply_canceled, handleMachineStatusReply_canceled,
      handleMachineCommandReply_canceled, handleMachineClientReply_canceled, if_true,
      if_false, Bool.false_eq_true] <;>
    cases act <;> rfl

theorem cancelCurrentOperation_lifecycle (s : State) :
    (cancelCurrentOperation s).1.machineAction = MachineNone ∧
    (s.machineAction = MachineNone → startStopFinished (cancelCurrentOperation s).2 = []) := by
  rw [cancelCurrentOperation_eq]
  refine ⟨rfl, fun h => ?_⟩
  simp only [startStopFinished, List.filter_append, h]
  repeat' split
  all_goals simp [Effect.isStartStopFinished]

/-! ## Reply handlers of the lifecycle controller while no action is in flight -/

theorem persistMachineFacts_startStopFinished (s : State) :
    startStopFinished (persistMachineFacts s) = [] := by
  unfold persistMachineFacts startStopFinished
  simp only [List.filter_append]
  repeat' split
  all_goals simp [Effect.isStartStopFinished]

theorem storeMachineRecord_machineAction (s : State) (obj : QJsonObject) :
    (storeMachineRecord s obj).machineAction = s.machineAction := by
  unfold storeMachineRecord
  simp only []
  split <;> rfl

theorem advanceMachineAction_idle (s : State) (h : s.machineAction = MachineNone) :
    advanceMachineAction s = (s, []) := by
  unfold advanceMachineAction
  rw [h]

theorem handleMachineStatusReply_idle (s : State) (r : Reply)
    (h : s.machineAction = MachineNone) :
    (handleMachineStatusReply s r).1.machineAction = MachineNone ∧
    startStopFinished (handleMachineStatusReply s r).2 = [] := by
  have hp : ∀ t : State, List.filter Effect.isStartStopFinished (persistMachineFacts t) = [] :=
    persistMachineFacts_startStopFinished
  have ha : ∀ obj : QJsonObject,
      (storeMachineRecord { s with machineStatusReply := false } obj).machineAction =
        MachineNone := fun obj => by rw [storeMachineRecord_machineAction]; exact h
  unfold handleMachineStatusReply
  simp only []
  repeat' split
  all_goals first
    | simp [startStopFinished, Effect.isStartStopFinished, h]; done
    | exact ⟨ha _, by simp [startStopFinished, Effect.isStartStopFinished]⟩
    | (rw [advanceMachineAction_idle _ (ha _)]
       exact ⟨ha _, by simp [startStopFinished, Effect.isStartStopFinished, hp,
         List.filter_append]⟩)

theorem handleMachineCommandReply_idle (s : State) (r : Reply)
    (h : s.machineAction = MachineNone) :
    (handleMachineCommandReply s r).1.machineAction = MachineNone ∧
    startStopFinished (handleMachineCommandReply s r).2 = [] := by
  unfold handleMachineCommandReply
  simp only [h]
  repeat' split
  all_goals simp [startStopFinished, Effect.isStartStopFinished, h]

theorem step_idle (s : State) (i : Input) (h : s.machineAction = MachineNone)
    (hi : i.isStartOrStop = false) :
    (step s i).1.machineAction = MachineNone ∧ startStopFinished (step s i).2 = [] := by
  cases i with
  | loginWithCredentials now email password =>
    have := loginWithCredentials_lifecycle now s email password
    simpa [step, h] using this
  | fetchMachineId accessToken => simpa [step, h] using fetchMachineId_lifecycle s accessToken
  | fetchMachineStatus machineId accessToken =>
    simpa [step, h] using fetchMachineStatus_lifecycle s machineId accessToken
  | startMachine machineId accessToken => simp [Input.isStartOrStop] at hi
  | stopMachine machineId accessToken => simp [Input.isStartOrStop] at hi
  | addMachineClient accessToken machineId pin =>
    simpa [step, h] using addMachineClient_lifecycle s accessToken machineId pin
  | cancelCurrentOperation =>
    exact ⟨(cancelCurrentOperation_lifecycle s).1, (cancelCurrentOperation_lifecycle s).2 h⟩
  | loginReply now r => simpa [step, h] using handleLoginReply_lifecycle now s r
  | getUserReply r => simpa [step, h] using handleGetUserReply_lifecycle s r
  | accountReply r => simpa [step, h] using handleAccountReply_lifecycle s r
  | machineStatusReply r => simpa [step] using handleMachineStatusReply_idle s r h
  | machineCommandReply r => simpa [step] using handleMachineCommandReply_idle s r h
  | machineClientReply r => simpa [step, h] using handleMachineClientReply_lifecycle s r
  | pollTimeout => simpa [step, h] using pollMachineStatus_lifecycle s

theorem run_idle (inputs : List Input) (s : State) (h : s.machineAction = MachineNone)
    (hi : ∀ i ∈ inputs, i.isStartOrStop = false) :
    (run s inputs).1.machineAction = MachineNone ∧ startStopFinished (run s inputs).2 = [] := by
  induction inputs generalizing s with
  | nil => exact ⟨h, rfl⟩
  | cons i rest ih =>
    have h1 := step_idle s i h (hi i (List.mem_cons_self i rest))
    have h2 := ih (step s i).1 h1.1 (fun j hj => hi j (List.mem_cons_of_mem i hj))
    refine ⟨h2.1, ?_⟩
    have := h1.2
    have := h2.2
    simp_all [run, startStopFinished, List.filter_append]

/-! ## Shape of a successful status fetch -/

theorem storeMachineRecord_fields (s : State) (obj : QJsonObject) :
    (storeMachineRecord s obj).machineStatus = (obj.value "status").toString ∧
    (storeMachineRecord s obj).machineAction = s.machineAction ∧
    (storeMachineRecord s obj).transitionCheckCount = s.transitionCheckCount ∧
    (storeMachineRecord s obj).pollTimerActive = s.pollTimerActive ∧
    (storeMachineRecord s obj).machineAccessToken = s.machineAccessToken ∧
    (storeMachineRecord s obj).machineCommandReply = s.machineCommandReply ∧
    (storeMachineRecord s obj).machineStatusReply = s.machineStatusReply := by
  unfold storeMachineRecord
  simp only []
  split <;> simp

theorem fetchedStatus_some (r : Reply) (obj : QJsonObject) (h : r.fetchedStatus = some obj) :
    r.networkError = 0 ∧ Qt.isEmpty r.body = false ∧ r.statusCode < 400 ∧
    r.doc = QJsonDocument.object obj ∧ Qt.isEmpty (obj.value "status").toString = false := by
  unfold Reply.fetchedStatus at h
  split at h
  · simp at h
  · rename_i hc
    simp only [not_or, ne_eq, not_not, Bool.not_eq_true, ge_iff_le, not_le] at hc
    split at h
    · rename_i o ho
      split at h
      · simp at h
      · rename_i hs
        simp only [Option.some.injEq] at h
        subst h
        exact ⟨hc.1, hc.2.1, hc.2.2, ho, by simpa using hs⟩
    · simp at h

theorem handleMachineStatusReply_fetched (s : State) (r : Reply) (obj : QJsonObject)
    (hout : s.machineStatusReply = true) (hok : r.fetchedStatus = some obj) :
    handleMachineStatusReply s r =
      ((advanceMachineAction (storeMachineRecord { s with machineStatusReply := false } obj)).1,
        persistMachineFacts (storeMachineRecord { s with machineStatusReply := false } obj) ++
          [Effect.machineStatusUpdated
            (storeMachineRecord { s with machineStatusReply := false } obj).machineStatus
            (storeMachineRecord { s with machineStatusReply := false } obj).machinePublicIp
            (storeMachineRecord { s with machineStatusReply := false } obj).machinePassword
            (storeMachineRecord { s with machineStatusReply := false } obj).machineLastStarted
            (storeMachineRecord { s with machineStatusReply := false } obj).machineCreatedAt] ++
          (advanceMachineAction
            (storeMachineRecord { s with machineStatusReply := false } obj)).2) := by
  obtain ⟨hnet, hbody, hcode, hdoc, hstatus⟩ := fetchedStatus_some r obj hok
  have hst := (storeMachineRecord_fields { s with machineStatusReply := false } obj).1
  unfold handleMachineStatusReply
  simp only [hout, hnet, hbody, hdoc, hst, hstatus]
  simp [not_le.mpr hcode]

/-! ## Start and stop requests while an action is in flight -/

/-- C1 (as stated) fails: on the state reached by `startMachine("m-1", "token")`
the action is `MachineStarting`, yet a second `startMachine` with an empty
machine id reports `EmptyMachineId` and a `stopMachine` with a blank access
token reports `EmptyAccessToken`; neither reports `InProgress`. -/
theorem startMachine_blank_argument_not_inProgress :
    startedState.machineAction = MachineStarting ∧
    (startMachine startedState "" "token").2 =
      [Effect.machineStartFinished false "" "EmptyMachineId" "Machine ID is required"] ∧
    (stopMachine startedState "m-1" " ").2 =
      [Effect.machineStopFinished false "" "EmptyAccessToken" "Access token is required"] :=
  ⟨rfl, rfl, rfl⟩

/-- C1 (amended): while an action is in flight, `startMachine` and `stopMachine`
emit exactly one start/stop-finished event, a failure, and nothing else (so no
command request).  The code is `InProgress` when the machine id and the access
token are both non-blank after trimming, `EmptyMachineId` when the trimmed
machine id is empty, and `EmptyAccessToken` when only the trimmed token is. -/
theorem startStop_rejected_while_action_in_flight (s : State) (machineId accessToken : String)
    (h : s.machineAction ≠ MachineNone) :
    (startMachine s machineId accessToken).2 =
      (if Qt.isEmpty (Qt.trimmed machineId) then
        [Effect.machineStartFinished false "" "EmptyMachineId" "Machine ID is required"]
      else if Qt.isEmpty (Qt.trimmed accessToken) then
        [Effect.machineStartFinished false "" "EmptyAccessToken" "Access token is required"]
      else
        [Effect.machineStartFinished false s.machineStatus "InProgress"
          "Machine operation already in progress"]) ∧
    (stopMachine s machineId accessToken).2 =
      (if Qt.isEmpty (Qt.trimmed machineId) then
        [Effect.machineStopFinished false "" "EmptyMachineId" "Machine ID is required"]
      else if Qt.isEmpty (Qt.trimmed accessToken) then
        [Effect.machineStopFinished false "" "EmptyAccessToken" "Access token is required"]
      else
        [Effect.machineStopFinished false s.machineStatus "InProgress"
          "Machine operation already in progress"]) ∧
    commandRequests (startMachine s machineId accessToken).2 = [] ∧
    commandRequests (stopMachine s machineId accessToken).2 = [] := by
  unfold startMachine stopMachine commandRequests
  refine ⟨?_, ?_, ?_, ?_⟩ <;> (simp only []; split_ifs <;> rfl)

/-- Witness for C1 (amended): a second start with non-blank arguments on the
started controller. -/
theorem startStop_rejected_while_action_in_flight_witness :
    (startMachine startedState "m-2" "token").2 =
      [Effect.machineStartFinished false "" "InProgress"
        "Machine operation already in progress"] :=
  (startStop_rejected_while_action_in_flight startedState "m-2" "token" (by decide)).1

/-- C2: a start or stop request made while an action is in flight leaves the
whole controller state as it was, for every argument pair; in particular the
action, the stall counter, the stored machine id and access token, the machine
record and the poll-timer flag keep their values. -/
theorem startStop_while_action_in_flight_keeps_state (s : State)
    (machineId accessToken : String) (h : s.machineAction ≠ MachineNone) :
    (startMachine s machineId accessToken).1 = s ∧
    (stopMachine s machineId accessToken).1 = s := by
  unfold startMachine stopMachine
  constructor <;> (simp only []; split_ifs <;> rfl)

/-- Witness for C2: a stop requested while the start of `m-1` is in flight. -/
theorem startStop_while_action_in_flight_keeps_state_witness :
    (startMachine startedState "m-2" "other").1 = startedState ∧
    (stopMachine startedState "m-2" "other").1 = startedState :=
  startStop_while_action_in_flight_keeps_state startedState "m-2" "other" (by decide)

/-! ## The lifecycle step on a successful status fetch -/

theorem advanceMachineAction_started (t : State) (ha : t.machineAction = MachineStarting)
    (hs : Qt.equalsCaseInsensitive t.machineStatus "running" = true) :
    advanceMachineAction t =
      ({ t with pollTimerActive := false, machineAction := MachineNone },
        [Effect.machineStartFinished true t.machineStatus "" ""]) := by
  unfold advanceMachineAction
  rw [ha]
  simp [hs]

theorem advanceMachineAction_stopped (t : State) (ha : t.machineAction = MachineStopping)
    (hs : Qt.equalsCaseInsensitive t.machineStatus "off" = true) :
    advanceMachineAction t =
      ({ t with pollTimerActive := false, machineAction := MachineNone },
        [Effect.machineStopFinished true t.machineStatus "" ""]) := by
  unfold advanceMachineAction
  rw [ha]
  simp [hs]

theorem startStopFinished_statusUpdate (t : State) (tail : List Effect) :
    startStopFinished (persistMachineFacts t ++
      [Effect.machineStatusUpdated t.machineStatus t.machinePublicIp t.machinePassword
        t.machineLastStarted t.machineCreatedAt] ++ tail) = startStopFinished tail := by
  have hp := persistMachineFacts_startStopFinished t
  unfold startStopFinished at hp ⊢
  simp [List.filter_append, hp, Effect.isStartStopFinished]

/-- C3: when a successful status fetch returns the target status of the action
in flight under case-insensitive comparison (`running` while starting, `off`
while stopping), the handler stops the poll timer, sets the action to none and
emits the matching start/stop-finished signal with success exactly once; and
from the resulting state no sequence of later inputs that contains no new
`startMachine` or `stopMachine` emits a further start/stop-finished signal. -/
theorem statusReply_target_reached (s : State) (r : Reply) (obj : QJsonObject)
    (hout : s.machineStatusReply = true) (hok : r.fetchedStatus = some obj) :
    (s.machineAction = MachineStarting →
      Qt.equalsCaseInsensitive (obj.value "status").toString "running" = true →
      (handleMachineStatusReply s r).1.pollTimerActive = false ∧
      (handleMachineStatusReply s r).1.machineAction = MachineNone ∧
      startStopFinished (handleMachineStatusReply s r).2 =
        [Effect.machineStartFinished true (obj.value "status").toString "" ""] ∧
      ∀ later : List Input, (∀ i ∈ later, i.isStartOrStop = false) →
        startStopFinished (run (handleMachineStatusReply s r).1 later).2 = []) ∧
    (s.machineAction = MachineStopping →
      Qt.equalsCaseInsensitive (obj.value "status").toString "off" = true →
      (handleMachineStatusReply s r).1.pollTimerActive = false ∧
      (handleMachineStatusReply s r).1.machineAction = MachineNone ∧
      startStopFinished (handleMachineStatusReply s r).2 =
        [Effect.machineStopFinished true (obj.value "status").toString "" ""] ∧
      ∀ later : List Input, (∀ i ∈ later, i.isStartOrStop = false) →
        startStopFinished (run (handleMachineStatusReply s r).1 later).2 = []) := by
  rw [handleMachineStatusReply_fetched s r obj hout hok]
  obtain ⟨hst, hact, -⟩ := storeMachineRecord_fields { s with machineStatusReply := false } obj
  generalize storeMachineRecord { s with machineStatusReply := false } obj = t at hst hact ⊢
  simp only [startStopFinished_statusUpdate]
  constructor
  · intro ha hs
    have hadv := advanceMachineAction_started t (hact.trans ha) (hst ▸ hs)
    rw [hadv]
    refine ⟨rfl, rfl, by simp [startStopFinished, Effect.isStartStopFinished, hst], ?_⟩
    intro later hl
    exact (run_idle later _ rfl hl).2
  · intro ha hs
    have hadv := advanceMachineAction_stopped t (hact.trans ha) (hst ▸ hs)
    rw [hadv]
    refine ⟨rfl, rfl, by simp [startStopFinished, Effect.isStartStopFinished, hst], ?_⟩
    intro later hl
    exact (run_idle later _ rfl hl).2

/-- Witness for C3: the started controller receives `Running` on its first poll. -/
theorem statusReply_target_reached_witness :
    (handleMachineStatusReply polledState (statusReply "Running")).1.pollTimerActive = false ∧
    (handleMachineStatusReply polledState (statusReply "Running")).1.machineAction =
      MachineNone ∧
    startStopFinished (handleMachineStatusReply polledState (statusReply "Running")).2 =
      [Effect.machineStartFinished true "Running" "" ""] :=
  have h := (statusReply_target_reached polledState (statusReply "Running")
    [("status", QJsonValue.string "Running")] rfl rfl).1 rfl rfl
  ⟨h.1, h.2.1, h.2.2.1⟩

/-! ## Stall recovery -/

/-- With no command reply outstanding, a command with a non-blank id and
token is posted and nothing else happens. -/
theorem sendMachineCommand_sends (s : State) (machineId action accessToken : String)
    (hid : Qt.isEmpty (Qt.trimmed machineId) = false)
    (htok : Qt.isEmpty (Qt.trimmed accessToken) = false)
    (hout : s.machineCommandReply = false) :
    sendMachineCommand s machineId action accessToken =
      ({ s with machineCommandReply := true },
        [Effect.sent (Request.postMachineCommand machineId action accessToken)]) := by
  unfold sendMachineCommand
  simp [hid, htok, hout]

/-- With a command reply outstanding, the handler of the aborted reply runs
before the command is posted. -/
theorem sendMachineCommand_resends (s : State) (machineId action accessToken : String)
    (hid : Qt.isEmpty (Qt.trimmed machineId) = false)
    (htok : Qt.isEmpty (Qt.trimmed accessToken) = false)
    (hout : s.machineCommandReply = true) :
    sendMachineCommand s machineId action accessToken =
      ({ (handleMachineCommandReply s Reply.canceled).1 with machineCommandReply := true },
        Effect.aborted ReplyKind.machineCommand ::
          (handleMachineCommandReply s Reply.canceled).2 ++
          [Effect.sent (Request.postMachineCommand machineId action accessToken)]) := by
  unfold sendMachineCommand
  simp [hid, htok, hout]

theorem handleMachineCommandReply_commandRequests (s : State) (r : Reply) :
    commandRequests (handleMachineCommandReply s r).2 = [] := by
  unfold handleMachineCommandReply commandRequests
  simp only []
  repeat' split
  all_goals simp [Effect.isCommandRequest]

/-- A command with a non-blank id and token is posted exactly once, whatever
the state. -/
theorem sendMachineCommand_commandRequests (s : State) (machineId action accessToken : String)
    (hid : Qt.isEmpty (Qt.trimmed machineId) = false)
    (htok : Qt.isEmpty (Qt.trimmed accessToken) = false) :
    commandRequests (sendMachineCommand s machineId action accessToken).2 =
      [Effect.sent (Request.postMachineCommand machineId action accessToken)] := by
  cases hout : s.machineCommandReply
  · rw [sendMachineCommand_sends s _ _ _ hid htok hout]
    rfl
  · rw [sendMachineCommand_resends s _ _ _ hid htok hout]
    have h := handleMachineCommandReply_commandRequests s Reply.canceled
    unfold commandRequests at h ⊢
    simp [List.filter_append, h, Effect.isCommandRequest]

theorem advanceMachineAction_starting_stale (t : State) (ha : t.machineAction = MachineStarting)
    (h1 : Qt.equalsCaseInsensitive t.machineStatus "running" = false)
    (h2 : Qt.equalsCaseInsensitive t.machineStatus "starting" = false) :
    advanceMachineAction t =
      if t.transitionCheckCount + 1 ≥ 2 then
        sendMachineCommand { t with transitionCheckCount := 0 } t.machineId "start"
          t.machineAccessToken
      else ({ t with transitionCheckCount := t.transitionCheckCount + 1 }, []) := by
  unfold advanceMachineAction
  rw [ha]
  simp [h1, h2]

theorem advanceMachineAction_stopping_stale (t : State) (ha : t.machineAction = MachineStopping)
    (h1 : Qt.equalsCaseInsensitive t.machineStatus "off" = false)
    (h2 : Qt.equalsCaseInsensitive t.machineStatus "stopping" = false) :
    advanceMachineAction t =
      if t.transitionCheckCount + 1 ≥ 2 then
        sendMachineCommand { t with transitionCheckCount := 0 } t.machineId "stop"
          t.machineAccessToken
      else ({ t with transitionCheckCount := t.transitionCheckCount + 1 }, []) := by
  unfold advanceMachineAction
  rw [ha]
  simp [h1, h2]

theorem persistMachineFacts_commandRequests (s : State) :
    commandRequests (persistMachineFacts s) = [] := by
  unfold persistMachineFacts commandRequests
  simp only [List.filter_append]
  repeat' split
  all_goals simp [Effect.isCommandRequest]

theorem commandRequests_statusUpdate (t : State) (tail : List Effect) :
    commandRequests (persistMachineFacts t ++
      [Effect.machineStatusUpdated t.machineStatus t.machinePublicIp t.machinePassword
        t.machineLastStarted t.machineCreatedAt] ++ tail) = commandRequests tail := by
  have hp := persistMachineFacts_commandRequests t
  unfold commandRequests at hp ⊢
  simp [List.filter_append, hp, Effect.isCommandRequest]

theorem commandRequests_append (a b : List Effect) :
    commandRequests (a ++ b) = commandRequests a ++ commandRequests b := by
  simp [commandRequests, List.filter_append]

theorem pollMachineStatus_fetches (s : State)
    (hid : Qt.isEmpty (Qt.trimmed s.machineId) = false)
    (htok : Qt.isEmpty (Qt.trimmed s.machineAccessToken) = false)
    (hout : s.machineStatusReply = false) :
    pollMachineStatus s =
      ({ s with machineId := Qt.trimmed s.machineId,
                machineAccessToken := Qt.trimmed s.machineAccessToken,
                machineStatusReply := true },
        [Effect.sent (Request.getMachine (Qt.trimmed s.machineId)
          (Qt.trimmed s.machineAccessToken))]) := by
  unfold pollMachineStatus fetchMachineStatus
  simp [Qt.isEmpty_of_trimmed_nonempty _ hid, Qt.isEmpty_of_trimmed_nonempty _ htok, hid, htok,
    hout]

theorem handleMachineCommandReply_frame (s : State) (r : Reply) :
    (handleMachineCommandReply s r).1 =
      { s with machineCommandReply := (handleMachineCommandReply s r).1.machineCommandReply,
               pollTimerActive := (handleMachineCommandReply s r).1.pollTimerActive,
               machineAction := (handleMachineCommandReply s r).1.machineAction } := by
  unfold handleMachineCommandReply
  simp only []
  repeat' split
  all_goals rfl

/-- A command changes the command slot and, through the handler of an aborted
command reply, the poll timer and the action; nothing else. -/
theorem sendMachineCommand_frame (s : State) (machineId action accessToken : String) :
    (sendMachineCommand s machineId action accessToken).1 =
      { s with machineCommandReply :=
                 (sendMachineCommand s machineId action accessToken).1.machineCommandReply,
               pollTimerActive :=
                 (sendMachineCommand s machineId action accessToken).1.pollTimerActive,
               machineAction :=
                 (sendMachineCommand s machineId action accessToken).1.machineAction } := by
  unfold sendMachineCommand
  simp only []
  repeat' split
  all_goals first
    | rfl
    | (show ({ (handleMachineCommandReply s Reply.canceled).1 with
          machineCommandReply := true } : State) = _
       rw [handleMachineCommandReply_frame])

/-- With no command reply outstanding a command changes the command slot only. -/
theorem sendMachineCommand_slot (s : State) (machineId action accessToken : String)
    (hout : s.machineCommandReply = false) :
    (sendMachineCommand s machineId action accessToken).1 =
      { s with machineCommandReply :=
          (sendMachineCommand s machineId action accessToken).1.machineCommandReply } := by
  unfold sendMachineCommand
  simp only [hout, Bool.false_eq_true, if_false]
  repeat' split
  all_goals rfl

/-- One status fetch with a stale status while starting, field by field. -/
theorem handleMachineStatusReply_starting_stale (s : State) (r : Reply) (obj : QJsonObject)
    (hout : s.machineStatusReply = true) (hok : r.fetchedStatus = some obj)
    (ha : s.machineAction = MachineStarting) (hcmd : s.machineCommandReply = false)
    (hs : Qt.equalsCaseInsensitive (obj.value "status").toString "running" = false)
    (hs' : Qt.equalsCaseInsensitive (obj.value "status").toString "starting" = false) :
    (handleMachineStatusReply s r).1.machineAction = MachineStarting ∧
    (handleMachineStatusReply s r).1.pollTimerActive = s.pollTimerActive ∧
    (handleMachineStatusReply s r).1.machineAccessToken = s.machineAccessToken ∧
    (handleMachineStatusReply s r).1.machineStatusReply = false ∧
    (s.transitionCheckCount + 1 < 2 →
      (handleMachineStatusReply s r).1.transitionCheckCount = s.transitionCheckCount + 1 ∧
      commandRequests (handleMachineStatusReply s r).2 = [] ∧
      (handleMachineStatusReply s r).1.machineCommandReply = false) ∧
    (s.transitionCheckCount + 1 ≥ 2 →
      (handleMachineStatusReply s r).1.transitionCheckCount = 0 ∧
      (Qt.isEmpty (Qt.trimmed (handleMachineStatusReply s r).1.machineId) = false →
        Qt.isEmpty (Qt.trimmed s.machineAccessToken) = false →
        commandRequests (handleMachineStatusReply s r).2 =
          [Effect.sent (Request.postMachineCommand (handleMachineStatusReply s r).1.machineId
            "start" s.machineAccessToken)])) := by
  obtain ⟨hst, hact, hcnt, hpoll, htok, hcr, hsr⟩ :=
    storeMachineRecord_fields { s with machineStatusReply := false } obj
  dsimp only at hact hcnt hpoll htok hcr hsr
  rw [handleMachineStatusReply_fetched s r obj hout hok,
    advanceMachineAction_starting_stale _ (hact.trans ha) (hst ▸ hs) (hst ▸ hs')]
  generalize storeMachineRecord { s with machineStatusReply := false } obj = t at *
  simp only [commandRequests_statusUpdate, hcnt]
  by_cases hc : s.transitionCheckCount + 1 ≥ 2
  · rw [if_pos hc]
    have hf := sendMachineCommand_slot { t with transitionCheckCount := 0 } t.machineId "start"
      t.machineAccessToken (hcr.trans hcmd)
    refine ⟨?_, ?_, ?_, ?_, fun h => absurd hc (not_le.mpr h), fun _ => ⟨?_, ?_⟩⟩
    · rw [hf]; exact hact.trans ha
    · rw [hf]; exact hpoll
    · rw [hf]; exact htok
    · rw [hf]; exact hsr
    · rw [hf]
    · intro hid htk
      rw [hf] at hid
      dsimp only at hid
      rw [sendMachineCommand_commandRequests _ _ _ _ hid (htok ▸ htk), hf, htok]
  · rw [if_neg hc]
    exact ⟨hact.trans ha, hpoll, htok, hsr, fun _ => ⟨rfl, rfl, hcr.trans hcmd⟩,
      fun h => absurd h hc⟩


/-- One status fetch with a stale status while stopping, field by field. -/
theorem handleMachineStatusReply_stopping_stale (s : State) (r : Reply) (obj : QJsonObject)
    (hout : s.machineStatusReply = true) (hok : r.fetchedStatus = some obj)
    (ha : s.machineAction = MachineStopping) (hcmd : s.machineCommandReply = false)
    (hs : Qt.equalsCaseInsensitive (obj.value "status").toString "off" = false)
    (hs' : Qt.equalsCaseInsensitive (obj.value "status").toString "stopping" = false) :
    (handleMachineStatusReply s r).1.machineAction = MachineStopping ∧
    (handleMachineStatusReply s r).1.pollTimerActive = s.pollTimerActive ∧
    (handleMachineStatusReply s r).1.machineAccessToken = s.machineAccessToken ∧
    (handleMachineStatusReply s r).1.machineStatusReply = false ∧
    (s.transitionCheckCount + 1 < 2 →
      (handleMachineStatusReply s r).1.transitionCheckCount = s.transitionCheckCount + 1 ∧
      commandRequests (handleMachineStatusReply s r).2 = [] ∧
      (handleMachineStatusReply s r).1.machineCommandReply = false) ∧
    (s.transitionCheckCount + 1 ≥ 2 →
      (handleMachineStatusReply s r).1.transitionCheckCount = 0 ∧
      (Qt.isEmpty (Qt.trimmed (handleMachineStatusReply s r).1.machineId) = false →
        Qt.isEmpty (Qt.trimmed s.machineAccessToken) = false →
        commandRequests (handleMachineStatusReply s r).2 =
          [Effect.sent (Request.postMachineCommand (handleMachineStatusReply s r).1.machineId
            "stop" s.machineAccessToken)])) := by
  obtain ⟨hst, hact, hcnt, hpoll, htok, hcr, hsr⟩ :=
    storeMachineRecord_fields { s with machineStatusReply := false } obj
  dsimp only at hact hcnt hpoll htok hcr hsr
  rw [handleMachineStatusReply_fetched s r obj hout hok,
    advanceMachineAction_stopping_stale _ (hact.trans ha) (hst ▸ hs) (hst ▸ hs')]
  generalize storeMachineRecord { s with machineStatusReply := false } obj = t at *
  simp only [commandRequests_statusUpdate, hcnt]
  by_cases hc : s.transitionCheckCount + 1 ≥ 2
  · rw [if_pos hc]
    have hf := sendMachineCommand_slot { t with transitionCheckCount := 0 } t.machineId "stop"
      t.machineAccessToken (hcr.trans hcmd)
    refine ⟨?_, ?_, ?_, ?_, fun h => absurd hc (not_le.mpr h), fun _ => ⟨?_, ?_⟩⟩
    · rw [hf]; exact hact.trans ha
    · rw [hf]; exact hpoll
    · rw [hf]; exact htok
    · rw [hf]; exact hsr
    · rw [hf]
    · intro hid htk
      rw [hf] at hid
      dsimp only at hid
      rw [sendMachineCommand_commandRequests _ _ _ _ hid (htok ▸ htk), hf, htok]
  · rw [if_neg hc]
    exact ⟨hact.trans ha, hpoll, htok, hsr, fun _ => ⟨rfl, rfl, hcr.trans hcmd⟩,
      fun h => absurd h hc⟩


theorem run_twoFetches (s : State) (r1 r2 : Reply) :
    run s (twoFetches r1 r2) =
      ((handleMachineStatusReply
          (pollMachineStatus (handleMachineStatusReply s r1).1).1 r2).1,
        (handleMachineStatusReply s r1).2 ++
          ((pollMachineStatus (handleMachineStatusReply s r1).1).2 ++
            ((handleMachineStatusReply
              (pollMachineStatus (handleMachineStatusReply s r1).1).1 r2).2 ++ []))) := rfl

theorem stall_recovery_starting (s : State) (r1 r2 : Reply) (obj1 obj2 : QJsonObject)
    (hout : s.machineStatusReply = true) (hcount : s.transitionCheckCount = 0)
    (htok : Qt.isEmpty (Qt.trimmed s.machineAccessToken) = false)
    (h1 : r1.fetchedStatus = some obj1) (h2 : r2.fetchedStatus = some obj2)
    (hid1 : Qt.isEmpty (Qt.trimmed (handleMachineStatusReply s r1).1.machineId) = false)
    (hid2 : Qt.isEmpty (Qt.trimmed (run s (twoFetches r1 r2)).1.machineId) = false)
    (ha : s.machineAction = MachineStarting) (hcmd : s.machineCommandReply = false)
    (hs1 : Qt.equalsCaseInsensitive (obj1.value "status").toString "running" = false)
    (hs1' : Qt.equalsCaseInsensitive (obj1.value "status").toString "starting" = false)
    (hs2 : Qt.equalsCaseInsensitive (obj2.value "status").toString "running" = false)
    (hs2' : Qt.equalsCaseInsensitive (obj2.value "status").toString "starting" = false) :
    commandRequests (handleMachineStatusReply s r1).2 = [] ∧
    commandRequests (run s (twoFetches r1 r2)).2 =
      [Effect.sent (Request.postMachineCommand (run s (twoFetches r1 r2)).1.machineId "start"
        (run s (twoFetches r1 r2)).1.machineAccessToken)] ∧
    (run s (twoFetches r1 r2)).1.transitionCheckCount = 0 ∧
    (run s (twoFetches r1 r2)).1.machineAction = MachineStarting ∧
    (run s (twoFetches r1 r2)).1.pollTimerActive = s.pollTimerActive := by
  obtain ⟨a1, a2, a3, a4, a5, -⟩ :=
    handleMachineStatusReply_starting_stale s r1 obj1 hout h1 ha hcmd hs1 hs1'
  obtain ⟨a5, a6, a7⟩ := a5 (by rw [hcount]; decide)
  have e2 := pollMachineStatus_fetches (handleMachineStatusReply s r1).1 hid1
    (by rw [a3]; exact htok) a4
  rw [run_twoFetches] at hid2 ⊢
  generalize handleMachineStatusReply s r1 = res1 at *
  have hp1 : (pollMachineStatus res1.1).1.machineStatusReply = true := by rw [e2]
  have hp2 : (pollMachineStatus res1.1).1.machineAction = MachineStarting := by rw [e2]; exact a1
  have hp3 : (pollMachineStatus res1.1).1.transitionCheckCount + 1 ≥ 2 := by
    rw [e2]; show res1.1.transitionCheckCount + 1 ≥ 2; rw [a5, hcount]; decide
  have hp4 : Qt.isEmpty (Qt.trimmed (pollMachineStatus res1.1).1.machineAccessToken) = false := by
    rw [e2]; show Qt.isEmpty (Qt.trimmed (Qt.trimmed res1.1.machineAccessToken)) = false
    rw [Qt.isEmpty_trimmed_trimmed, a3]; exact htok
  have hp5 : (pollMachineStatus res1.1).1.pollTimerActive = s.pollTimerActive := by
    rw [e2]; exact a2
  have hp6 : commandRequests (pollMachineStatus res1.1).2 = [] := by rw [e2]; rfl
  have hp7 : (pollMachineStatus res1.1).1.machineCommandReply = false := by rw [e2]; exact a7
  obtain ⟨b1, b2, b3, -, -, b6⟩ :=
    handleMachineStatusReply_starting_stale (pollMachineStatus res1.1).1 r2 obj2 hp1 h2 hp2 hp7
      hs2 hs2'
  obtain ⟨b6, b7⟩ := b6 hp3
  have b8 := b7 hid2 hp4
  generalize pollMachineStatus res1.1 = res2 at *
  generalize handleMachineStatusReply res2.1 r2 = res3 at *
  refine ⟨a6, ?_, b6, b1, b2.trans hp5⟩
  simp only [commandRequests_append, a6, hp6, b8, b3]
  rfl

theorem stall_recovery_stopping (s : State) (r1 r2 : Reply) (obj1 obj2 : QJsonObject)
    (hout : s.machineStatusReply = true) (hcount : s.transitionCheckCount = 0)
    (htok : Qt.isEmpty (Qt.trimmed s.machineAccessToken) = false)
    (h1 : r1.fetchedStatus = some obj1) (h2 : r2.fetchedStatus = some obj2)
    (hid1 : Qt.isEmpty (Qt.trimmed (handleMachineStatusReply s r1).1.machineId) = false)
    (hid2 : Qt.isEmpty (Qt.trimmed (run s (twoFetches r1 r2)).1.machineId) = false)
    (ha : s.machineAction = MachineStopping) (hcmd : s.machineCommandReply = false)
    (hs1 : Qt.equalsCaseInsensitive (obj1.value "status").toString "off" = false)
    (hs1' : Qt.equalsCaseInsensitive (obj1.value "status").toString "stopping" = false)
    (hs2 : Qt.equalsCaseInsensitive (obj2.value "status").toString "off" = false)
    (hs2' : Qt.equalsCaseInsensitive (obj2.value "status").toString "stopping" = false) :
    commandRequests (handleMachineStatusReply s r1).2 = [] ∧
    commandRequests (run s (twoFetches r1 r2)).2 =
      [Effect.sent (Request.postMachineCommand (run s (twoFetches r1 r2)).1.machineId "stop"
        (run s (twoFetches r1 r2)).1.machineAccessToken)] ∧
    (run s (twoFetches r1 r2)).1.transitionCheckCount = 0 ∧
    (run s (twoFetches r1 r2)).1.machineAction = MachineStopping ∧
    (run s (twoFetches r1 r2)).1.pollTimerActive = s.pollTimerActive := by
  obtain ⟨a1, a2, a3, a4, a5, -⟩ :=
    handleMachineStatusReply_stopping_stale s r1 obj1 hout h1 ha hcmd hs1 hs1'
  obtain ⟨a5, a6, a7⟩ := a5 (by rw [hcount]; decide)
  have e2 := pollMachineStatus_fetches (handleMachineStatusReply s r1).1 hid1
    (by rw [a3]; exact htok) a4
  rw [run_twoFetches] at hid2 ⊢
  generalize handleMachineStatusReply s r1 = res1 at *
  have hp1 : (pollMachineStatus res1.1).1.machineStatusReply = true := by rw [e2]
  have hp2 : (pollMachineStatus res1.1).1.machineAction = MachineStopping := by rw [e2]; exact a1
  have hp3 : (pollMachineStatus res1.1).1.transitionCheckCount + 1 ≥ 2 := by
    rw [e2]; show res1.1.transitionCheckCount + 1 ≥ 2; rw [a5, hcount]; decide
  have hp4 : Qt.isEmpty (Qt.trimmed (pollMachineStatus res1.1).1.machineAccessToken) = false := by
    rw [e2]; show Qt.isEmpty (Qt.trimmed (Qt.trimmed res1.1.machineAccessToken)) = false
    rw [Qt.isEmpty_trimmed_trimmed, a3]; exact htok
  have hp5 : (pollMachineStatus res1.1).1.pollTimerActive = s.pollTimerActive := by
    rw [e2]; exact a2
  have hp6 : commandRequests (pollMachineStatus res1.1).2 = [] := by rw [e2]; rfl
  have hp7 : (pollMachineStatus res1.1).1.machineCommandReply = false := by rw [e2]; exact a7
  obtain ⟨b1, b2, b3, -, -, b6⟩ :=
    handleMachineStatusReply_stopping_stale (pollMachineStatus res1.1).1 r2 obj2 hp1 h2 hp2 hp7
      hs2 hs2'
  obtain ⟨b6, b7⟩ := b6 hp3
  have b8 := b7 hid2 hp4
  generalize pollMachineStatus res1.1 = res2 at *
  generalize handleMachineStatusReply res2.1 r2 = res3 at *
  refine ⟨a6, ?_, b6, b1, b2.trans hp5⟩
  simp only [commandRequests_append, a6, hp6, b8, b3]
  rfl

/-- C4 (as stated) fails on two inputs.  In both the started controller
(stall counter 0, action starting, first status request outstanding) receives
two consecutive successful status fetches with status `pending`.

When the second response carries an empty `id`, both fetches succeed (two
`machineStatusUpdated` signals), the stall counter is back at 0, and no start
command is re-issued: the stored machine id was replaced by the empty string,
for which `sendMachineCommand` returns without sending.

When the reply to the start command is still outstanding at the second fetch,
the start command is re-issued once, but the `abort()` of the outstanding
command reply runs `handleMachineCommandReply`: a failed start is reported,
the action is cleared and the poll timer is stopped. -/
theorem stall_recovery_not_as_stated :
    polledState.machineAction = MachineStarting ∧
    polledState.transitionCheckCount = 0 ∧
    polledState.machineCommandReply = true ∧
    Qt.equalsCaseInsensitive "pending" "running" = false ∧
    Qt.equalsCaseInsensitive "pending" "starting" = false ∧
    (run polledState (twoFetches (statusReply "pending") (statusReplyWithId "" "pending"))).2 =
      [Effect.machineStatusUpdated "pending" "" "" 0 0,
       Effect.sent (Request.getMachine "m-1" "token"),
       Effect.machineStatusUpdated "pending" "" "" 0 0] ∧
    (run polledState
      (twoFetches (statusReply "pending") (statusReplyWithId "" "pending"))).1.transitionCheckCount
      = 0 ∧
    (run polledState (twoFetches (statusReply "pending") (statusReply "pending"))).2 =
      [Effect.machineStatusUpdated "pending" "" "" 0 0,
       Effect.sent (Request.getMachine "m-1" "token"),
       Effect.machineStatusUpdated "pending" "" "" 0 0,
       Effect.aborted ReplyKind.machineCommand,
       Effect.machineStartFinished false "pending" "NetworkError" "Operation canceled",
       Effect.sent (Request.postMachineCommand "m-1" "start" "token")] ∧
    (run polledState
      (twoFetches (statusReply "pending") (statusReply "pending"))).1.machineAction =
      MachineNone ∧
    (run polledState
      (twoFetches (statusReply "pending") (statusReply "pending"))).1.pollTimerActive =
      false :=
  ⟨rfl, rfl, rfl, rfl, rfl, rfl, rfl, rfl, rfl, rfl⟩

/-- C4 (amended): from stall counter 0 with a status request outstanding, no
command reply outstanding and a non-blank stored access token, two consecutive
successful status fetches whose status is neither the target nor the
transitional status of the action in flight, and after each of which the
stored machine id is non-blank, re-issue the command of that action exactly
once: none on the first fetch, one in the whole run.  The stall counter ends
at 0, the action is kept and the poll timer flag is unchanged.  Stated for
`starting` (`running`/`starting`, command `start`) and for `stopping`
(`off`/`stopping`, command `stop`). -/
theorem stall_recovery_reissues_once (s : State) (r1 r2 : Reply) (obj1 obj2 : QJsonObject)
    (hout : s.machineStatusReply = true) (hcmd : s.machineCommandReply = false)
    (hcount : s.transitionCheckCount = 0)
    (htok : Qt.isEmpty (Qt.trimmed s.machineAccessToken) = false)
    (h1 : r1.fetchedStatus = some obj1) (h2 : r2.fetchedStatus = some obj2)
    (hid1 : Qt.isEmpty (Qt.trimmed (handleMachineStatusReply s r1).1.machineId) = false)
    (hid2 : Qt.isEmpty (Qt.trimmed (run s (twoFetches r1 r2)).1.machineId) = false) :
    (s.machineAction = MachineStarting →
      Qt.equalsCaseInsensitive (obj1.value "status").toString "running" = false ∧
      Qt.equalsCaseInsensitive (obj1.value "status").toString "starting" = false ∧
      Qt.equalsCaseInsensitive (obj2.value "status").toString "running" = false ∧
      Qt.equalsCaseInsensitive (obj2.value "status").toString "starting" = false →
      commandRequests (handleMachineStatusReply s r1).2 = [] ∧
      commandRequests (run s (twoFetches r1 r2)).2 =
        [Effect.sent (Request.postMachineCommand (run s (twoFetches r1 r2)).1.machineId "start"
          (run s (twoFetches r1 r2)).1.machineAccessToken)] ∧
      (run s (twoFetches r1 r2)).1.transitionCheckCount = 0 ∧
      (run s (twoFetches r1 r2)).1.machineAction = MachineStarting ∧
      (run s (twoFetches r1 r2)).1.pollTimerActive = s.pollTimerActive) ∧
    (s.machineAction = MachineStopping →
      Qt.equalsCaseInsensitive (obj1.value "status").toString "off" = false ∧
      Qt.equalsCaseInsensitive (obj1.value "status").toString "stopping" = false ∧
      Qt.equalsCaseInsensitive (obj2.value "status").toString "off" = false ∧
      Qt.equalsCaseInsensitive (obj2.value "status").toString "stopping" = false →
      commandRequests (handleMachineStatusReply s r1).2 = [] ∧
      commandRequests (run s (twoFetches r1 r2)).2 =
        [Effect.sent (Request.postMachineCommand (run s (twoFetches r1 r2)).1.machineId "stop"
          (run s (twoFetches r1 r2)).1.machineAccessToken)] ∧
      (run s (twoFetches r1 r2)).1.transitionCheckCount = 0 ∧
      (run s (twoFetches r1 r2)).1.machineAction = MachineStopping ∧
      (run s (twoFetches r1 r2)).1.pollTimerActive = s.pollTimerActive) :=
  ⟨fun ha hs => stall_recovery_starting s r1 r2 obj1 obj2 hout hcount htok h1 h2 hid1 hid2 ha
      hcmd hs.1 hs.2.1 hs.2.2.1 hs.2.2.2,
   fun ha hs => stall_recovery_stopping s r1 r2 obj1 obj2 hout hcount htok h1 h2 hid1 hid2 ha
      hcmd hs.1 hs.2.1 hs.2.2.1 hs.2.2.2⟩

/-- Witness for C4 (amended): the started controller whose start command has
been answered sees `pending` twice and re-issues the start command for `m-1`
once; the action stays `MachineStarting` and the poll timer stays active. -/
theorem stall_recovery_reissues_once_witness :
    commandRequests (handleMachineStatusReply acknowledgedState (statusReply "pending")).2 =
      [] ∧
    commandRequests
      (run acknowledgedState (twoFetches (statusReply "pending") (statusReply "pending"))).2 =
      [Effect.sent (Request.postMachineCommand "m-1" "start" "token")] ∧
    (run acknowledgedState
      (twoFetches (statusReply "pending") (statusReply "pending"))).1.transitionCheckCount
      = 0 ∧
    (run acknowledgedState
      (twoFetches (statusReply "pending") (statusReply "pending"))).1.machineAction =
      MachineStarting ∧
    (run acknowledgedState
      (twoFetches (statusReply "pending") (statusReply "pending"))).1.pollTimerActive =
      true :=
  (stall_recovery_reissues_once acknowledgedState (statusReply "pending")
    (statusReply "pending") [("status", QJsonValue.string "pending")]
    [("status", QJsonValue.string "pending")] rfl rfl rfl rfl rfl rfl rfl rfl).1 rfl
    ⟨rfl, rfl, rfl, rfl⟩

/-! ## Normal progress of an action -/

/-- An accepted `startMachine` while a command reply is outstanding: the
handler of the aborted reply takes the action that was just set for a failed
start, clears it and stops the timer; the command is posted and the timer is
started after that. -/
theorem startMachine_over_outstanding_command (s : State) (machineId accessToken : String)
    (hid : Qt.isEmpty (Qt.trimmed machineId) = false)
    (htok : Qt.isEmpty (Qt.trimmed accessToken) = false)
    (ha : s.machineAction = MachineNone) (hout : s.machineCommandReply = true) :
    startMachine s machineId accessToken =
      ({ s with machineId := Qt.trimmed machineId, machineAccessToken := Qt.trimmed accessToken,
                machineAction := MachineNone, transitionCheckCount := 0,
                machineCommandReply := true, pollTimerActive := true },
        [Effect.aborted ReplyKind.machineCommand,
         Effect.machineStartFinished false s.machineStatus "NetworkError" "Operation canceled",
         Effect.sent (Request.postMachineCommand (Qt.trimmed machineId) "start"
           (Qt.trimmed accessToken))]) := by
  have hid' : Qt.isEmpty (Qt.trimmed (Qt.trimmed machineId)) = false := by
    rw [Qt.isEmpty_trimmed_trimmed]; exact hid
  have htok' : Qt.isEmpty (Qt.trimmed (Qt.trimmed accessToken)) = false := by
    rw [Qt.isEmpty_trimmed_trimmed]; exact htok
  unfold startMachine
  simp [hid, htok, ha, hid', htok', hout, sendMachineCommand_resends,
    handleMachineCommandReply_canceled]


/-- C6: a status reply that is handled as a failure (transport error, empty
body, body that is not a JSON object, HTTP status of 400 or more, missing or
empty status) makes the handler emit exactly one `machineStatusFailed` signal
and nothing else, so no start/stop-finished signal; the action, the poll timer
flag and the stall counter are unchanged.  This holds for every action, in
particular while a start or stop is in flight. -/
theorem failed_status_fetch_keeps_action (s : State) (r : Reply)
    (hout : s.machineStatusReply = true) (hfail : r.handledAsFailure = true) :
    (∃ code message, (handleMachineStatusReply s r).2 =
      [Effect.machineStatusFailed code message]) ∧
    startStopFinished (handleMachineStatusReply s r).2 = [] ∧
    (handleMachineStatusReply s r).1.machineAction = s.machineAction ∧
    (handleMachineStatusReply s r).1.pollTimerActive = s.pollTimerActive ∧
    (handleMachineStatusReply s r).1.transitionCheckCount = s.transitionCheckCount := by
  have key : ∃ code message, (handleMachineStatusReply s r).2 =
        [Effect.machineStatusFailed code message] ∧
      (handleMachineStatusReply s r).1.machineAction = s.machineAction ∧
      (handleMachineStatusReply s r).1.pollTimerActive = s.pollTimerActive ∧
      (handleMachineStatusReply s r).1.transitionCheckCount = s.transitionCheckCount := by
    have hf := fun obj => storeMachineRecord_fields { s with machineStatusReply := false } obj
    unfold handleMachineStatusReply
    unfold Reply.handledAsFailure at hfail
    simp only [hout]
    repeat' split
    all_goals first
      | exact ⟨_, _, rfl, rfl, rfl, rfl⟩
      | exact ⟨_, _, rfl, (hf _).2.1, (hf _).2.2.2.1, (hf _).2.2.1⟩
      | (exfalso; simp_all; done)
      | (exfalso; simp_all; omega)
  obtain ⟨code, message, h1, h2, h3, h4⟩ := key
  refine ⟨⟨code, message, h1⟩, ?_, h2, h3, h4⟩
  rw [h1]
  rfl

/-- Witness for C6: the started controller gets a refused connection on its
first poll. -/
theorem failed_status_fetch_keeps_action_witness :
    (handleMachineStatusReply polledState refusedReply).2 =
      [Effect.machineStatusFailed "NetworkError" "Connection refused"] ∧
    (handleMachineStatusReply polledState refusedReply).1.machineAction = MachineStarting ∧
    (handleMachineStatusReply polledState refusedReply).1.pollTimerActive = true :=
  have h := failed_status_fetch_keeps_action polledState refusedReply rfl rfl
  ⟨rfl, h.2.2.1, h.2.2.2.1⟩


/-- C7: a command reply with a transport error or an HTTP status of 400 or
more, received while starting (resp. stopping), stops the poll timer, sets the
action to none and emits exactly one `machineStartFinished` (resp.
`machineStopFinished`) with success false.  Its error code is the normalized
code extracted from a JSON-object body when that code is non-empty, otherwise
`NetworkError` for a transport error and `Http<status>` else.  A command reply
with no transport error and a status below 400 emits nothing and changes
nothing but the release of the command-request slot. -/
theorem command_reply_outcome (s : State) (r : Reply) (hout : s.machineCommandReply = true) :
    (r.networkError ≠ 0 ∨ r.statusCode ≥ 400 →
      (s.machineAction = MachineStarting →
        (handleMachineCommandReply s r).1.pollTimerActive = false ∧
        (handleMachineCommandReply s r).1.machineAction = MachineNone ∧
        ∃ message, (handleMachineCommandReply s r).2 =
          [Effect.machineStartFinished false s.machineStatus
            (if Qt.isEmpty r.bodyErrorCode then
              (if r.networkError ≠ 0 then "NetworkError" else "Http" ++ Qt.number r.statusCode)
            else r.bodyErrorCode) message]) ∧
      (s.machineAction = MachineStopping →
        (handleMachineCommandReply s r).1.pollTimerActive = false ∧
        (handleMachineCommandReply s r).1.machineAction = MachineNone ∧
        ∃ message, (handleMachineCommandReply s r).2 =
          [Effect.machineStopFinished false s.machineStatus
            (if Qt.isEmpty r.bodyErrorCode then
              (if r.networkError ≠ 0 then "NetworkError" else "Http" ++ Qt.number r.statusCode)
            else r.bodyErrorCode) message])) ∧
    (r.networkError = 0 ∧ r.statusCode < 400 →
      handleMachineCommandReply s r = ({ s with machineCommandReply := false }, [])) := by
  refine ⟨fun hfail => ⟨fun ha => ?_, fun ha => ?_⟩, fun hok => ?_⟩
  · have hn : ¬(r.networkError = 0 ∧ r.statusCode < 400) := by
      rintro ⟨h1, h2⟩
      rcases hfail with h | h
      · exact h h1
      · omega
    unfold handleMachineCommandReply
    simp only [hout, hn, ha, Reply.bodyErrorCode, replyError, httpCode]
    refine ⟨rfl, rfl, ?_⟩
    by_cases hb : Qt.isEmpty r.body = true
    · simp [hb]
    · cases hd : r.doc <;> simp [hb]
  · have hn : ¬(r.networkError = 0 ∧ r.statusCode < 400) := by
      rintro ⟨h1, h2⟩
      rcases hfail with h | h
      · exact h h1
      · omega
    unfold handleMachineCommandReply
    simp only [hout, hn, ha, Reply.bodyErrorCode, replyError, httpCode]
    refine ⟨rfl, rfl, ?_⟩
    by_cases hb : Qt.isEmpty r.body = true
    · simp [hb]
    · cases hd : r.doc <;> simp [hb]
  · unfold handleMachineCommandReply
    simp [hout, hok]

/-- Witness for C7: the start command of the started controller is refused
with HTTP 403 and the provider code `ns#NotAuthorizedException`. -/
theorem command_reply_outcome_witness :
    (handleMachineCommandReply startedState (forbiddenReply "ns#NotAuthorizedException")).1.machineAction
      = MachineNone ∧
    (handleMachineCommandReply startedState (forbiddenReply "ns#NotAuthorizedException")).2 =
      [Effect.machineStartFinished false "" "NotAuthorizedException" "HTTP error 403"] ∧
    handleMachineCommandReply startedState (okReply "" []) =
      ({ startedState with machineCommandReply := false }, []) :=
  have h := command_reply_outcome startedState (forbiddenReply "ns#NotAuthorizedException") rfl
  have h2 := command_reply_outcome startedState (okReply "" []) rfl
  ⟨((h.1 (Or.inr (by decide))).1 rfl).2.1, rfl, h2.2 ⟨rfl, by decide⟩⟩

/-! ## Cancellation -/

/-- C8 (evaluation at the failing input): on a fresh controller a login is
answered with the tokens `tok-1` (valid for 3600 s from time 5), a second
login is issued, and `cancelCurrentOperation` is called while that request is
outstanding.  Before the cancel the token set holds `tok-1`.  The `abort()` of
the login reply runs `handleLoginReply` on the canceled reply: the cancel
emits `loginCompleted` with `NetworkError` and leaves the token set cleared,
not unchanged. -/
theorem cancel_clears_stored_tokens :
    reloggingState.tokenSet = (some 3605, "tok-1", "id-1", "refresh-1", "Bearer", 3600) ∧
    reloggingState.loginReply = true ∧
    (cancelCurrentOperation reloggingState).2 =
      [Effect.aborted ReplyKind.login,
       Effect.loginCompleted AuthNetworkError "" 0 "" "" "" "NetworkError"
         "Operation canceled" "" []] ∧
    (cancelCurrentOperation reloggingState).1.tokenSet = clearedTokenSet ∧
    (cancelCurrentOperation reloggingState).1.loginReply = false :=
  ⟨rfl, rfl, rfl, rfl, rfl⟩

/-- C9 (evaluation at the failing input): three calls of
`loginWithCredentials("a@b.com", "pw")` on a fresh controller issue two
authentication requests (the second call is rejected and releases the guard,
the third overwrites `m_loginReply`).  `cancelCurrentOperation` aborts the
one request the pointer holds; the poll timer is inactive after it, so no poll
tick is delivered.  When the reply to the first request arrives, after the
cancel, `handleLoginReply` finds no pointer and emits a further
`loginCompleted`, with the code `MissingReply`. -/
theorem login_completion_after_cancel :
    (run State.initial overlappingLogins).2 =
      [Effect.sent (Request.initiateAuth "a@b.com" "pw"),
       Effect.loginCompleted AuthInProgress "" 0 "" "" "" "InProgress"
         "Login already in progress" "" [],
       Effect.sent (Request.initiateAuth "a@b.com" "pw")] ∧
    (cancelCurrentOperation (run State.initial overlappingLogins).1).2 =
      [Effect.aborted ReplyKind.login,
       Effect.loginCompleted AuthNetworkError "" 0 "" "" "" "NetworkError"
         "Operation canceled" "" []] ∧
    (cancelCurrentOperation (run State.initial overlappingLogins).1).1.loginReply = false ∧
    (cancelCurrentOperation (run State.initial overlappingLogins).1).1.pollTimerActive =
      false ∧
    (handleLoginReply 20 (cancelCurrentOperation (run State.initial overlappingLogins).1).1
      (authReply "tok-1" 3600)).2 =
      [Effect.loginCompleted AuthUnknownError "" 0 "" "" "" "MissingReply"
        "Login reply missing" "" []] :=
  ⟨rfl, rfl, rfl, rfl, rfl⟩

/-! ## Local validation of the credentials -/

/-- C10 (as stated) fails: with an empty email and the non-empty password
`" "` (one space) the reported code is `EmptyCredentials`, not `EmptyEmail`;
with the non-empty email `" "` and an empty password it is `EmptyCredentials`,
not `EmptyPassword`. -/
theorem login_whitespace_counts_as_empty :
    Qt.isEmpty " " = false ∧
    (loginWithCredentials 0 State.initial "" " ").2 =
      [Effect.loginCompleted AuthInvalidInput "" 0 "" "" "" "EmptyCredentials"
        "Email and password are required" "" []] ∧
    (loginWithCredentials 0 State.initial " " "").2 =
      [Effect.loginCompleted AuthInvalidInput "" 0 "" "" "" "EmptyCredentials"
        "Email and password are required" "" []] :=
  ⟨rfl, rfl, rfl⟩

/-- C10 (amended): when no login is in progress and the email and/or the
password is empty after trimming white space, `loginWithCredentials` emits
exactly one `loginCompleted` with status invalid-input and nothing else (no
network request, no request slot taken).  The code is `EmptyCredentials` when
both are empty after trimming, `EmptyEmail` when only the trimmed email is
empty and `EmptyPassword` when only the trimmed password is empty. -/
theorem login_rejects_blank_credentials (now : Int) (s : State) (email password : String)
    (hidle : s.loginInProgress = false)
    (hblank : Qt.isEmpty (Qt.trimmed email) = true ∨ Qt.isEmpty (Qt.trimmed password) = true) :
    (loginWithCredentials now s email password).2 =
      [Effect.loginCompleted AuthInvalidInput "" 0 "" "" ""
        (if Qt.isEmpty (Qt.trimmed email) = true ∧ Qt.isEmpty (Qt.trimmed password) = true then
          "EmptyCredentials"
        else if Qt.isEmpty (Qt.trimmed email) = true then "EmptyEmail" else "EmptyPassword")
        (if Qt.isEmpty (Qt.trimmed email) = true ∧ Qt.isEmpty (Qt.trimmed password) = true then
          "Email and password are required"
        else if Qt.isEmpty (Qt.trimmed email) = true then "Email is required"
        else "Password is required") "" []] ∧
    requests (loginWithCredentials now s email password).2 = [] ∧
    (loginWithCredentials now s email password).1.loginReply = s.loginReply ∧
    (loginWithCredentials now s email password).1.loginInProgress = false := by
  unfold loginWithCredentials failLogin finishLogin requests
  by_cases he : Qt.isEmpty (Qt.trimmed email) = true <;>
    by_cases hp : Qt.isEmpty (Qt.trimmed password) = true
  · simp [hidle, he, hp, Effect.isRequest]
  · simp [hidle, he, hp, Effect.isRequest]
  · simp [hidle, he, hp, Effect.isRequest]
  · rcases hblank with h | h
    · exact absurd h he
    · exact absurd h hp

/-- Witness for C10 (amended): a login with the email `a@b.com` and a password
of two spaces. -/
theorem login_rejects_blank_credentials_witness :
    (loginWithCredentials 0 State.initial "a@b.com" "  ").2 =
      [Effect.loginCompleted AuthInvalidInput "" 0 "" "" "" "EmptyPassword"
        "Password is required" "" []] ∧
    requests (loginWithCredentials 0 State.initial "a@b.com" "  ").2 = [] :=
  have h := login_rejects_blank_credentials 0 State.initial "a@b.com" "  " rfl (Or.inr rfl)
  ⟨h.1, h.2.1⟩


/-! ## Shape of the email -/

theorem Qt.indexOfChars_of_not_mem (c : Char) (l : List Char) (h : c ∉ l) :
    Qt.indexOfChars c l = -1 := by
  induction l with
  | nil => rfl
  | cons x xs ih =>
    have hx : (x == c) = false := by
      simp only [beq_eq_false_iff_ne, ne_eq]
      intro hxc
      exact h (by simp [hxc])
    have hxs : c ∉ xs := fun hm => h (List.mem_cons_of_mem x hm)
    simp [Qt.indexOfChars, hx, ih hxs]

theorem Qt.indexOfChars_nonneg_of_mem (c : Char) (l : List Char) (h : c ∈ l) :
    0 ≤ Qt.indexOfChars c l := by
  induction l with
  | nil => simp at h
  | cons x xs ih =>
    by_cases hx : x = c
    · simp [Qt.indexOfChars, hx]
    · have hm : c ∈ xs := by
        rcases List.mem_cons.mp h with h1 | h1
        · exact absurd h1.symm hx
        · exact h1
      have := ih hm
      simp only [Qt.indexOfChars, beq_iff_eq, hx, if_false]
      split <;> omega

theorem Qt.drop_indexOfChars_at (l : List Char) (h : '@' ∈ l) :
    l.drop (Qt.indexOfChars '@' l).toNat = '@' :: afterFirstAt l := by
  induction l with
  | nil => simp at h
  | cons x xs ih =>
    by_cases hx : x = '@'
    · simp [Qt.indexOfChars, afterFirstAt, hx]
    · have hm : '@' ∈ xs := by
        rcases List.mem_cons.mp h with h1 | h1
        · exact absurd h1.symm hx
        · exact h1
      have hnn := Qt.indexOfChars_nonneg_of_mem '@' xs hm
      have hdrop := ih hm
      simp only [Qt.indexOfChars, beq_iff_eq, hx, if_false, afterFirstAt, ge_iff_le, hnn, if_true]
      have : (Qt.indexOfChars '@' xs + 1).toNat = (Qt.indexOfChars '@' xs).toNat + 1 := by omega
      rw [this, List.drop_succ_cons]
      exact hdrop

theorem Qt.mem_of_mem_trimmedChars (c : Char) (l : List Char) (h : c ∈ Qt.trimmedChars l) :
    c ∈ l := by
  have h1 : Qt.trimmedChars l = List.rdropWhile Qt.isSpace (l.dropWhile Qt.isSpace) := rfl
  rw [h1] at h
  have h2 := (List.rdropWhile_prefix Qt.isSpace (l.dropWhile Qt.isSpace)).subset h
  exact (List.dropWhile_suffix Qt.isSpace).subset h2

theorem afterFirstAt_append_of_not_mem (a x : List Char) (h : '@' ∉ a) :
    afterFirstAt (a ++ x) = afterFirstAt x := by
  induction a with
  | nil => rfl
  | cons y ys ih =>
    have hy : y ≠ '@' := fun hy => h (by simp [hy])
    have hys : '@' ∉ ys := fun hm => h (List.mem_cons_of_mem y hm)
    simp [afterFirstAt, hy, ih hys]

theorem mem_afterFirstAt_append (c : Char) (t b : List Char) (h : c ∈ afterFirstAt t) :
    c ∈ afterFirstAt (t ++ b) := by
  induction t with
  | nil => simp [afterFirstAt] at h
  | cons y ys ih =>
    by_cases hy : y = '@'
    · simp only [afterFirstAt, hy, if_true, List.cons_append] at h ⊢
      exact List.mem_append_left b h
    · simp only [afterFirstAt, hy, if_false, List.cons_append] at h ⊢
      exact ih h

theorem Qt.mem_afterFirstAt_of_trimmedChars (c : Char) (l : List Char)
    (h : c ∈ afterFirstAt (Qt.trimmedChars l)) : c ∈ afterFirstAt l := by
  have h1 : Qt.trimmedChars l = List.rdropWhile Qt.isSpace (l.dropWhile Qt.isSpace) := rfl
  obtain ⟨b, hb⟩ := List.rdropWhile_prefix Qt.isSpace (l.dropWhile Qt.isSpace)
  have hl : l = l.takeWhile Qt.isSpace ++ (Qt.trimmedChars l ++ b) := by
    rw [h1, hb, List.takeWhile_append_dropWhile]
  have hat : '@' ∉ l.takeWhile Qt.isSpace := by
    intro hm
    have := List.mem_takeWhile_imp hm
    revert this
    decide
  rw [hl, afterFirstAt_append_of_not_mem _ _ hat]
  exact mem_afterFirstAt_append c _ b h


theorem loginWithCredentials_invalidEmail (now : Int) (s : State) (email password : String)
    (hidle : s.loginInProgress = false)
    (he : Qt.isEmpty (Qt.trimmed email) = false)
    (hp : Qt.isEmpty (Qt.trimmed password) = false)
    (hbad : '@' ∉ (Qt.trimmed email).data ∨ '.' ∉ afterFirstAt (Qt.trimmed email).data) :
    loginWithCredentials now s email password =
      failLogin now s AuthInvalidInput "InvalidEmail" "Email address is invalid" := by
  have hat0 : Qt.indexOf (Qt.trimmed email) '@' 0 = Qt.indexOfChars '@' (Qt.trimmed email).data := by
    unfold Qt.indexOf
    simp only [List.drop_zero, Nat.cast_zero, add_zero]
    by_cases hm : '@' ∈ (Qt.trimmed email).data
    · simp [Qt.indexOfChars_nonneg_of_mem _ _ hm]
    · simp [Qt.indexOfChars_of_not_mem _ _ hm]
  have hcond : Qt.indexOf (Qt.trimmed email) '@' 0 ≤ 0 ∨
      Qt.indexOf (Qt.trimmed email) '.' (Qt.indexOf (Qt.trimmed email) '@' 0).toNat = -1 := by
    rw [hat0]
    by_cases hm : '@' ∈ (Qt.trimmed email).data
    · rcases hbad with hb | hb
      · exact absurd hm hb
      · right
        unfold Qt.indexOf
        rw [Qt.drop_indexOfChars_at _ hm]
        have hd : '.' ∉ '@' :: afterFirstAt (Qt.trimmed email).data := by
          intro h
          rcases List.mem_cons.mp h with h1 | h1
          · exact absurd h1 (by decide)
          · exact hb h1
        simp [Qt.indexOfChars_of_not_mem _ _ hd]
    · left
      rw [Qt.indexOfChars_of_not_mem _ _ hm]
      decide
  unfold loginWithCredentials
  simp only [hidle, he, hp]
  simp [hcond]

/-- C11 (as stated) fails: with no login in progress, the non-empty email
`" "` (one space, no `@`) and the password `pw` give the code `EmptyEmail`; the
email `abc` (no `@`) and the non-empty password `" "` give `EmptyPassword`.
Neither is `InvalidEmail`. -/
theorem login_blank_email_not_invalidEmail :
    Qt.isEmpty " " = false ∧ '@' ∉ (" " : String).data ∧ '@' ∉ ("abc" : String).data ∧
    (loginWithCredentials 0 State.initial " " "pw").2 =
      [Effect.loginCompleted AuthInvalidInput "" 0 "" "" "" "EmptyEmail"
        "Email is required" "" []] ∧
    (loginWithCredentials 0 State.initial "abc" " ").2 =
      [Effect.loginCompleted AuthInvalidInput "" 0 "" "" "" "EmptyPassword"
        "Password is required" "" []] :=
  ⟨rfl, by decide, by decide, rfl, rfl⟩

/-- C11 (amended): when no login is in progress and the email and the password
are both non-empty after trimming white space, every email that contains no
`@`, or no `.` after its first `@`, makes `loginWithCredentials` emit exactly
one `loginCompleted` with status invalid-input and code `InvalidEmail` and
nothing else: no network request is issued and no request slot is taken. -/
theorem login_rejects_invalid_email (now : Int) (s : State) (email password : String)
    (hidle : s.loginInProgress = false)
    (he : Qt.isEmpty (Qt.trimmed email) = false)
    (hp : Qt.isEmpty (Qt.trimmed password) = false)
    (hbad : '@' ∉ email.data ∨ '.' ∉ afterFirstAt email.data) :
    (loginWithCredentials now s email password).2 =
      [Effect.loginCompleted AuthInvalidInput "" 0 "" "" "" "InvalidEmail"
        "Email address is invalid" "" []] ∧
    requests (loginWithCredentials now s email password).2 = [] ∧
    (loginWithCredentials now s email password).1.loginReply = s.loginReply ∧
    (loginWithCredentials now s email password).1.loginInProgress = false := by
  have hbad' : '@' ∉ (Qt.trimmed email).data ∨ '.' ∉ afterFirstAt (Qt.trimmed email).data := by
    rcases hbad with h | h
    · exact Or.inl (fun hm => h (Qt.mem_of_mem_trimmedChars _ _ hm))
    · exact Or.inr (fun hm => h (Qt.mem_afterFirstAt_of_trimmedChars _ _ hm))
  rw [loginWithCredentials_invalidEmail now s email password hidle he hp hbad']
  unfold failLogin finishLogin requests
  simp [Effect.isRequest]

/-- Witness for C11 (amended): the email `user@localhost` has no `.` after its
`@`. -/
theorem login_rejects_invalid_email_witness :
    (loginWithCredentials 0 State.initial "user@localhost" "pw").2 =
      [Effect.loginCompleted AuthInvalidInput "" 0 "" "" "" "InvalidEmail"
        "Email address is invalid" "" []] ∧
    requests (loginWithCredentials 0 State.initial "user@localhost" "pw").2 = [] :=
  have h := login_rejects_invalid_email 0 State.initial "user@localhost" "pw" rfl rfl rfl
    (Or.inr (by decide))
  ⟨h.1, h.2.1⟩


/-! ## Single flight of the authentication request -/

/-- C12 (evaluation at the failing input): three calls of
`loginWithCredentials("a@b.com", "pw")` on a fresh controller.  The first
issues the authentication request.  The second is rejected with `InProgress`,
but `finishLogin` clears `m_loginInProgress` while the request is still
outstanding.  The third therefore passes the guard and issues a second
authentication request while the first one is outstanding. -/
theorem login_guard_cleared_by_rejection :
    (loginWithCredentials 0 State.initial "a@b.com" "pw").2 =
      [Effect.sent (Request.initiateAuth "a@b.com" "pw")] ∧
    loggingInState.loginReply = true ∧
    (loginWithCredentials 0 loggingInState "a@b.com" "pw").2 =
      [Effect.loginCompleted AuthInProgress "" 0 "" "" "" "InProgress"
        "Login already in progress" "" []] ∧
    (loginWithCredentials 0 loggingInState "a@b.com" "pw").1.loginReply = true ∧
    (loginWithCredentials 0 loggingInState "a@b.com" "pw").1.loginInProgress = false ∧
    (loginWithCredentials 0 (loginWithCredentials 0 loggingInState "a@b.com" "pw").1
        "a@b.com" "pw").2 =
      [Effect.sent (Request.initiateAuth "a@b.com" "pw")] :=
  ⟨rfl, rfl, rfl, rfl, rfl, rfl⟩


/-! ## The stored token set -/

theorem sendMachineCommand_tokenSet (s : State) (machineId action accessToken : String) :
    (sendMachineCommand s machineId action accessToken).1.tokenSet = s.tokenSet := by
  rw [sendMachineCommand_frame]
  rfl

theorem fetchMachineStatus_tokenSet (s : State) (machineId accessToken : String) :
    (fetchMachineStatus s machineId accessToken).1.tokenSet = s.tokenSet := by
  unfold fetchMachineStatus
  simp only []
  repeat' split
  all_goals rfl

theorem startMachine_tokenSet (s : State) (machineId accessToken : String) :
    (startMachine s machineId accessToken).1.tokenSet = s.tokenSet := by
  unfold startMachine
  simp only []
  repeat' split
  all_goals first
    | rfl
    | exact (sendMachineCommand_tokenSet _ _ _ _).trans rfl

theorem stopMachine_tokenSet (s : State) (machineId accessToken : String) :
    (stopMachine s machineId accessToken).1.tokenSet = s.tokenSet := by
  unfold stopMachine
  simp only []
  repeat' split
  all_goals first
    | rfl
    | exact (sendMachineCommand_tokenSet _ _ _ _).trans rfl

theorem pollMachineStatus_tokenSet (s : State) :
    (pollMachineStatus s).1.tokenSet = s.tokenSet := by
  unfold pollMachineStatus
  repeat' split
  all_goals first
    | rfl
    | exact fetchMachineStatus_tokenSet _ _ _

/-- The token set after a cancel: cleared by the handler of the aborted login
reply when a login request is outstanding, kept otherwise. -/
theorem cancelCurrentOperation_tokenSet (s : State) :
    (cancelCurrentOperation s).1.tokenSet =
      if s.loginReply then clearedTokenSet else s.tokenSet := by
  rw [cancelCurrentOperation_eq]
  cases s.loginReply <;> rfl

theorem storeMachineRecord_tokenSet (s : State) (obj : QJsonObject) :
    (storeMachineRecord s obj).tokenSet = s.tokenSet := by
  unfold storeMachineRecord
  simp only []
  split <;> rfl

theorem advanceMachineAction_tokenSet (s : State) :
    (advanceMachineAction s).1.tokenSet = s.tokenSet := by
  unfold advanceMachineAction
  simp only []
  repeat' split
  all_goals first
    | rfl
    | exact (sendMachineCommand_tokenSet _ _ _ _).trans rfl

theorem handleMachineStatusReply_tokenSet (s : State) (r : Reply) :
    (handleMachineStatusReply s r).1.tokenSet = s.tokenSet := by
  unfold handleMachineStatusReply
  simp only []
  repeat' split
  all_goals first
    | rfl
    | exact (storeMachineRecord_tokenSet _ _).trans rfl
    | exact (advanceMachineAction_tokenSet _).trans ((storeMachineRecord_tokenSet _ _).trans rfl)

theorem handleMachineCommandReply_tokenSet (s : State) (r : Reply) :
    (handleMachineCommandReply s r).1.tokenSet = s.tokenSet := by
  unfold handleMachineCommandReply
  simp only []
  repeat' split
  all_goals rfl

theorem fetchAccountMachineId_tokenSet (s : State) (accountId accessToken : String) :
    (fetchAccountMachineId s accountId accessToken).1.tokenSet = s.tokenSet := by
  unfold fetchAccountMachineId
  simp only []
  repeat' split
  all_goals rfl

theorem fetchMachineId_tokenSet (s : State) (accessToken : String) :
    (fetchMachineId s accessToken).1.tokenSet = s.tokenSet := by
  unfold fetchMachineId
  simp only []
  repeat' split
  all_goals rfl

theorem handleGetUserReply_tokenSet (s : State) (r : Reply) :
    (handleGetUserReply s r).1.tokenSet = s.tokenSet := by
  unfold handleGetUserReply
  simp only []
  repeat' split
  all_goals first
    | rfl
    | exact (fetchAccountMachineId_tokenSet _ _ _).trans rfl

theorem handleAccountReply_tokenSet (s : State) (r : Reply) :
    (handleAccountReply s r).1.tokenSet = s.tokenSet := by
  unfold handleAccountReply
  simp only []
  repeat' split
  all_goals rfl

theorem addMachineClient_tokenSet (s : State) (accessToken machineId pin : String) :
    (addMachineClient s accessToken machineId pin).1.tokenSet = s.tokenSet := by
  unfold addMachineClient
  simp only []
  repeat' split
  all_goals rfl

theorem handleMachineClientReply_tokenSet (s : State) (r : Reply) :
    (handleMachineClientReply s r).1.tokenSet = s.tokenSet := by
  unfold handleMachineClientReply
  simp only []
  repeat' split
  all_goals rfl


theorem finishLogin_stored (now : Int) (s : State) (a : String) (e : Int)
    (i rt tt ec em cn : String) (cp : QJsonObject) (he : e > 0) :
    (finishLogin now s AuthSuccess a e i rt tt ec em cn cp).1.tokenSet =
      (some (now + e), a, i, rt, tt, e) := by
  unfold finishLogin
  simp [he, State.tokenSet]

theorem finishLogin_cleared (now : Int) (s : State) (status : AuthStatus) (a : String) (e : Int)
    (i rt tt ec em cn : String) (cp : QJsonObject) (h : ¬(status = AuthSuccess ∧ e > 0)) :
    (finishLogin now s status a e i rt tt ec em cn cp).1.tokenSet = clearedTokenSet := by
  unfold finishLogin
  simp only [h, if_false]
  rfl

theorem failLogin_cleared (now : Int) (s : State) (status : AuthStatus) (ec em : String) :
    (failLogin now s status ec em).1.tokenSet = clearedTokenSet :=
  finishLogin_cleared now s status "" 0 "" "" "" ec em "" [] (fun h => absurd h.2 (by decide))

theorem finishLogin_completions (now : Int) (s : State) (status : AuthStatus) (a : String)
    (e : Int) (i rt tt ec em cn : String) (cp : QJsonObject) :
    loginCompletions (finishLogin now s status a e i rt tt ec em cn cp).2 = [status] := by
  unfold finishLogin loginCompletions
  simp only []
  repeat' split
  all_goals simp [Effect.loginStatus]

theorem finishLogin_consistent (now : Int) (s : State) (status : AuthStatus) (a : String)
    (e : Int) (i rt tt ec em cn : String) (cp : QJsonObject)
    (h : Qt.isEmpty a = false ∨ e ≤ 0) :
    TokenSetConsistent (finishLogin now s status a e i rt tt ec em cn cp).1.tokenSet := by
  by_cases hc : status = AuthSuccess ∧ e > 0
  · obtain ⟨hs, he⟩ := hc
    subst hs
    rw [finishLogin_stored now s a e i rt tt ec em cn cp he]
    right
    rcases h with h | h
    · exact ⟨h, rfl⟩
    · omega
  · left
    exact finishLogin_cleared now s status a e i rt tt ec em cn cp hc

theorem loginWithCredentials_consistent (now : Int) (s : State) (email password : String)
    (h : TokenSetConsistent s.tokenSet) :
    TokenSetConsistent (loginWithCredentials now s email password).1.tokenSet := by
  unfold loginWithCredentials failLogin
  simp only []
  repeat' split
  all_goals first
    | exact finishLogin_consistent _ _ _ _ _ _ _ _ _ _ _ _ (Or.inr (le_refl _))
    | exact h

theorem handleLoginReply_consistent (now : Int) (s : State) (r : Reply) :
    TokenSetConsistent (handleLoginReply now s r).1.tokenSet := by
  unfold handleLoginReply failLogin
  simp only []
  repeat' split
  all_goals first
    | exact finishLogin_consistent _ _ _ _ _ _ _ _ _ _ _ _ (Or.inr (le_refl _))
    | exact finishLogin_consistent _ _ _ _ _ _ _ _ _ _ _ _ (Or.inl (by rename_i hne; simpa using hne))

theorem step_consistent (s : State) (i : Input) (h : TokenSetConsistent s.tokenSet) :
    TokenSetConsistent (step s i).1.tokenSet := by
  cases i with
  | loginWithCredentials now email password =>
    exact loginWithCredentials_consistent now s email password h
  | fetchMachineId accessToken =>
    show TokenSetConsistent (fetchMachineId s accessToken).1.tokenSet
    rw [fetchMachineId_tokenSet]; exact h
  | fetchMachineStatus machineId accessToken =>
    show TokenSetConsistent (fetchMachineStatus s machineId accessToken).1.tokenSet
    rw [fetchMachineStatus_tokenSet]; exact h
  | startMachine machineId accessToken =>
    show TokenSetConsistent (startMachine s machineId accessToken).1.tokenSet
    rw [startMachine_tokenSet]; exact h
  | stopMachine machineId accessToken =>
    show TokenSetConsistent (stopMachine s machineId accessToken).1.tokenSet
    rw [stopMachine_tokenSet]; exact h
  | addMachineClient accessToken machineId pin =>
    show TokenSetConsistent (addMachineClient s accessToken machineId pin).1.tokenSet
    rw [addMachineClient_tokenSet]; exact h
  | cancelCurrentOperation =>
    show TokenSetConsistent (cancelCurrentOperation s).1.tokenSet
    rw [cancelCurrentOperation_tokenSet]
    split
    · exact Or.inl rfl
    · exact h
  | loginReply now r => exact handleLoginReply_consistent now s r
  | getUserReply r =>
    show TokenSetConsistent (handleGetUserReply s r).1.tokenSet
    rw [handleGetUserReply_tokenSet]; exact h
  | accountReply r =>
    show TokenSetConsistent (handleAccountReply s r).1.tokenSet
    rw [handleAccountReply_tokenSet]; exact h
  | machineStatusReply r =>
    show TokenSetConsistent (handleMachineStatusReply s r).1.tokenSet
    rw [handleMachineStatusReply_tokenSet]; exact h
  | machineCommandReply r =>
    show TokenSetConsistent (handleMachineCommandReply s r).1.tokenSet
    rw [handleMachineCommandReply_tokenSet]; exact h
  | machineClientReply r =>
    show TokenSetConsistent (handleMachineClientReply s r).1.tokenSet
    rw [handleMachineClientReply_tokenSet]; exact h
  | pollTimeout =>
    show TokenSetConsistent (pollMachineStatus s).1.tokenSet
    rw [pollMachineStatus_tokenSet]; exact h

theorem run_consistent (inputs : List Input) (s : State) (h : TokenSetConsistent s.tokenSet) :
    TokenSetConsistent (run s inputs).1.tokenSet := by
  induction inputs generalizing s with
  | nil => exact h
  | cons i rest ih => exact ih (step s i).1 (step_consistent s i h)

/-- C13: in every state reached from the initial state by any sequence of
public operations, reply completions and poll ticks, the stored access token
is non-empty if and only if the stored expiry is set; and whenever the expiry
is unset (and with it the access token), the id token, the refresh token and
the token type are empty and `m_expiresIn` is 0. -/
theorem token_and_expiry_exist_together (inputs : List Input) :
    (Qt.isEmpty (run State.initial inputs).1.accessToken = false ↔
      (run State.initial inputs).1.accessTokenExpiresAtUtc.isSome = true) ∧
    ((run State.initial inputs).1.accessTokenExpiresAtUtc = none →
      Qt.isEmpty (run State.initial inputs).1.accessToken = true ∧
      (run State.initial inputs).1.idToken = "" ∧
      (run State.initial inputs).1.refreshToken = "" ∧
      (run State.initial inputs).1.tokenType = "" ∧
      (run State.initial inputs).1.expiresIn = 0) := by
  have h := run_consistent inputs State.initial (Or.inl rfl)
  generalize (run State.initial inputs).1 = t at h
  rcases h with h | ⟨h1, h2⟩
  · have hf : t.accessTokenExpiresAtUtc = none ∧ t.accessToken = "" ∧ t.idToken = "" ∧
        t.refreshToken = "" ∧ t.tokenType = "" ∧ t.expiresIn = 0 := by
      simpa [State.tokenSet, clearedTokenSet] using h
    obtain ⟨f1, f2, f3, f4, f5, f6⟩ := hf
    rw [f1, f2]
    exact ⟨by decide, fun _ => ⟨rfl, f3, f4, f5, f6⟩⟩
  · have h1' : Qt.isEmpty t.accessToken = false := h1
    have h2' : t.accessTokenExpiresAtUtc.isSome = true := h2
    refine ⟨⟨fun _ => h2', fun _ => h1'⟩, fun hn => ?_⟩
    rw [hn] at h2'
    exact absurd h2' (by decide)

/-- Witness for C13: the controller after a login that stored a token set, and
after a following login attempt that was rejected locally. -/
theorem token_and_expiry_exist_together_witness :
    (Qt.isEmpty (run State.initial [Input.loginWithCredentials 0 "a@b.com" "pw",
        Input.loginReply 5 (authReply "tok-1" 3600)]).1.accessToken = false ↔
      (run State.initial [Input.loginWithCredentials 0 "a@b.com" "pw",
        Input.loginReply 5 (authReply "tok-1" 3600)]).1.accessTokenExpiresAtUtc.isSome = true) ∧
    (run State.initial [Input.loginWithCredentials 0 "a@b.com" "pw",
        Input.loginReply 5 (authReply "tok-1" 3600),
        Input.loginWithCredentials 9 "" ""]).1.idToken = "" :=
  ⟨(token_and_expiry_exist_together [Input.loginWithCredentials 0 "a@b.com" "pw",
      Input.loginReply 5 (authReply "tok-1" 3600)]).1,
   ((token_and_expiry_exist_together [Input.loginWithCredentials 0 "a@b.com" "pw",
      Input.loginReply 5 (authReply "tok-1" 3600),
      Input.loginWithCredentials 9 "" ""]).2 rfl).2.1⟩


/-! ## Completion of a login -/

theorem handleLoginReply_authenticated (now : Int) (s : State) (r : Reply) (obj : QJsonObject)
    (hout : s.loginReply = true) (hbody : Qt.isEmpty r.body = false)
    (hdoc : r.doc = QJsonDocument.object obj)
    (hres : (obj.contains "AuthenticationResult" &&
      (obj.value "AuthenticationResult").isObject) = true)
    (htok : Qt.isEmpty
      ((obj.value "AuthenticationResult").toObject.value "AccessToken").toString = false) :
    handleLoginReply now s r =
      finishLogin now { s with loginReply := false } AuthSuccess
        ((obj.value "AuthenticationResult").toObject.value "AccessToken").toString
        ((obj.value "AuthenticationResult").toObject.value "ExpiresIn").toInt
        ((obj.value "AuthenticationResult").toObject.value "IdToken").toString
        ((obj.value "AuthenticationResult").toObject.value "RefreshToken").toString
        ((obj.value "AuthenticationResult").toObject.value "TokenType").toString
        "" "" "" [] := by
  unfold handleLoginReply
  simp only [hout, hbody, hdoc, hres, htok]
  simp

/-- C15: every login completion whose status is not success leaves the stored
token set cleared (no expiry, the four token strings empty, `m_expiresIn = 0`),
whatever token set was stored before.  Stated for `finishLogin` itself and for
every `loginCompleted` emitted by `loginWithCredentials` (local validation
failure, in-progress rejection) and by `handleLoginReply` (challenge,
transport, parse and provider errors). -/
theorem failed_login_clears_tokens (now : Int) (s : State) :
    (∀ (status : AuthStatus) (a : String) (e : Int) (i rt tt ec em cn : String)
        (cp : QJsonObject), status ≠ AuthSuccess →
      (finishLogin now s status a e i rt tt ec em cn cp).1.tokenSet = clearedTokenSet) ∧
    (∀ (email password : String) (status : AuthStatus),
      status ∈ loginCompletions (loginWithCredentials now s email password).2 →
      status ≠ AuthSuccess →
      (loginWithCredentials now s email password).1.tokenSet = clearedTokenSet) ∧
    (∀ (r : Reply) (status : AuthStatus),
      status ∈ loginCompletions (handleLoginReply now s r).2 →
      status ≠ AuthSuccess →
      (handleLoginReply now s r).1.tokenSet = clearedTokenSet) := by
  refine ⟨fun status a e i rt tt ec em cn cp hs =>
      finishLogin_cleared now s status a e i rt tt ec em cn cp (fun h => hs h.1), ?_, ?_⟩
  · intro email password status hmem hs
    revert hmem
    unfold loginWithCredentials
    simp only []
    repeat' split
    all_goals first
      | (intro _; exact failLogin_cleared _ _ _ _ _)
      | (intro hmem; simp [loginCompletions, Effect.loginStatus] at hmem)
  · intro r status hmem hs
    revert hmem
    unfold handleLoginReply
    simp only []
    repeat' split
    all_goals first
      | (intro _; exact failLogin_cleared _ _ _ _ _)
      | (intro _
         exact finishLogin_cleared _ _ _ _ _ _ _ _ _ _ _ _ (fun h => absurd h.2 (by decide)))
      | (intro hmem
         rw [finishLogin_completions] at hmem
         exact absurd (List.mem_singleton.mp hmem) hs)

/-- Witness for C15: a controller holding the token set of a successful login
rejects a login with empty credentials and loses the token set. -/
theorem failed_login_clears_tokens_witness :
    (handleLoginReply 5 loggingInState (authReply "tok-1" 3600)).1.accessToken = "tok-1" ∧
    (loginWithCredentials 9 (handleLoginReply 5 loggingInState (authReply "tok-1" 3600)).1
      "" "").1.tokenSet = clearedTokenSet :=
  ⟨rfl, (failed_login_clears_tokens 9
      (handleLoginReply 5 loggingInState (authReply "tok-1" 3600)).1).2.1 "" ""
      AuthInvalidInput (by decide) (by decide)⟩


/-! ## Remaining lifetime of the access token -/

theorem QJsonValue.toInt_le (v : QJsonValue) : v.toInt ≤ 2147483647 := by
  cases v with
  | number n =>
    show (if -2147483648 ≤ n ∧ n ≤ 2147483647 then n else 0) ≤ 2147483647
    split
    · rename_i h; exact h.2
    · decide
  | real d =>
    show (if d.den = 1 ∧ -2147483648 ≤ d.num ∧ d.num ≤ 2147483647 then d.num else 0)
      ≤ 2147483647
    split
    · rename_i h; exact h.2.2
    · decide
  | null => show (0 : Int) ≤ 2147483647; decide
  | undefined => show (0 : Int) ≤ 2147483647; decide
  | bool b => show (0 : Int) ≤ 2147483647; decide
  | string x => show (0 : Int) ≤ 2147483647; decide
  | array xs => show (0 : Int) ≤ 2147483647; decide
  | object m => show (0 : Int) ≤ 2147483647; decide

/-- C16: with time in integer seconds, `accessTokenSecondsRemaining` equals
`min (max 0 (e - now)) INT_MAX` for a stored expiry `e` and 0 without one; it
is never negative and is 0 whenever `e ≤ now`; `isAccessTokenExpired` holds
exactly when it is 0; and at the instant a login succeeds with
`ExpiresIn = n > 0` it equals `n`. -/
theorem accessTokenSecondsRemaining_saturates (now : Int) (s : State) :
    (∀ e : Int, s.accessTokenExpiresAtUtc = some e →
      accessTokenSecondsRemaining now s = min (max 0 (e - now)) 2147483647) ∧
    (s.accessTokenExpiresAtUtc = none → accessTokenSecondsRemaining now s = 0) ∧
    0 ≤ accessTokenSecondsRemaining now s ∧
    (∀ e : Int, s.accessTokenExpiresAtUtc = some e → e ≤ now →
      accessTokenSecondsRemaining now s = 0) ∧
    (isAccessTokenExpired now s = true ↔ accessTokenSecondsRemaining now s = 0) ∧
    (∀ (r : Reply) (obj : QJsonObject), s.loginReply = true → Qt.isEmpty r.body = false →
      r.doc = QJsonDocument.object obj →
      (obj.contains "AuthenticationResult" &&
        (obj.value "AuthenticationResult").isObject) = true →
      Qt.isEmpty
        ((obj.value "AuthenticationResult").toObject.value "AccessToken").toString = false →
      ((obj.value "AuthenticationResult").toObject.value "ExpiresIn").toInt > 0 →
      accessTokenSecondsRemaining now (handleLoginReply now s r).1 =
        ((obj.value "AuthenticationResult").toObject.value "ExpiresIn").toInt) := by
  have hform : ∀ e : Int, s.accessTokenExpiresAtUtc = some e →
      accessTokenSecondsRemaining now s = min (max 0 (e - now)) 2147483647 := by
    intro e he
    unfold accessTokenSecondsRemaining
    rw [he]
    simp only []
    split
    · rename_i h
      rw [max_eq_left h]
      decide
    · rename_i h
      rw [max_eq_right (le_of_lt (not_le.mp h))]
      split
      · rename_i h2
        exact (min_eq_right (le_of_lt h2)).symm
      · rename_i h2
        exact (min_eq_left (not_lt.mp h2)).symm
  have hnone : s.accessTokenExpiresAtUtc = none → accessTokenSecondsRemaining now s = 0 := by
    intro hn
    unfold accessTokenSecondsRemaining
    rw [hn]
  refine ⟨hform, hnone, ?_, ?_, ?_, ?_⟩
  · cases he : s.accessTokenExpiresAtUtc with
    | none => rw [hnone he]
    | some e =>
      rw [hform e he]
      exact le_min (le_max_left _ _) (by decide)
  · intro e he hle
    rw [hform e he, max_eq_left (by omega)]
    decide
  · unfold isAccessTokenExpired
    exact beq_iff_eq
  · intro r obj hout hbody hdoc hres htok hpos
    have hst : (handleLoginReply now s r).1.tokenSet =
        (some (now + ((obj.value "AuthenticationResult").toObject.value "ExpiresIn").toInt),
          ((obj.value "AuthenticationResult").toObject.value "AccessToken").toString,
          ((obj.value "AuthenticationResult").toObject.value "IdToken").toString,
          ((obj.value "AuthenticationResult").toObject.value "RefreshToken").toString,
          ((obj.value "AuthenticationResult").toObject.value "TokenType").toString,
          ((obj.value "AuthenticationResult").toObject.value "ExpiresIn").toInt) := by
      rw [handleLoginReply_authenticated now s r obj hout hbody hdoc hres htok]
      exact finishLogin_stored _ _ _ _ _ _ _ _ _ _ _ hpos
    have hexp : (handleLoginReply now s r).1.accessTokenExpiresAtUtc =
        some (now + ((obj.value "AuthenticationResult").toObject.value "ExpiresIn").toInt) :=
      congrArg Prod.fst hst
    have hle := QJsonValue.toInt_le ((obj.value "AuthenticationResult").toObject.value "ExpiresIn")
    unfold accessTokenSecondsRemaining
    rw [hexp]
    simp only []
    split
    · omega
    · split
      · omega
      · omega

/-- Witness for C16: a login answered at time 5 with `ExpiresIn = 3600` leaves
3600 seconds at time 5, 5 seconds at time 3600 and none at time 4000. -/
theorem accessTokenSecondsRemaining_saturates_witness :
    accessTokenSecondsRemaining 5
      (handleLoginReply 5 loggingInState (authReply "tok-1" 3600)).1 = 3600 ∧
    accessTokenSecondsRemaining 3600
      (handleLoginReply 5 loggingInState (authReply "tok-1" 3600)).1 =
      min (max 0 (3605 - 3600)) 2147483647 ∧
    accessTokenSecondsRemaining 4000
      (handleLoginReply 5 loggingInState (authReply "tok-1" 3600)).1 = 0 :=
  ⟨(accessTokenSecondsRemaining_saturates 5 loggingInState).2.2.2.2.2
      (authReply "tok-1" 3600)
      [("AuthenticationResult", QJsonValue.object (authResult "tok-1" 3600))]
      rfl rfl rfl rfl rfl (by decide),
   (accessTokenSecondsRemaining_saturates 3600
      (handleLoginReply 5 loggingInState (authReply "tok-1" 3600)).1).1 3605 rfl,
   (accessTokenSecondsRemaining_saturates 4000
      (handleLoginReply 5 loggingInState (authReply "tok-1" 3600)).1).2.2.2.1 3605 rfl
      (by decide)⟩


/-! ## Auxiliary facts about the last occurrence of a character -/

theorem Qt.lastIndexOfChars_of_not_mem (c : Char) (l : List Char) (h : c ∉ l) :
    Qt.lastIndexOfChars c l = -1 := by
  induction l with
  | nil => rfl
  | cons x xs ih =>
    have hx : (x == c) = false := by
      simp only [beq_eq_false_iff_ne, ne_eq]
      intro hxc
      exact h (by simp [hxc])
    have hxs : c ∉ xs := fun hm => h (List.mem_cons_of_mem x hm)
    simp [Qt.lastIndexOfChars, hx, ih hxs]

theorem Qt.lastIndexOfChars_nonneg_of_mem (c : Char) (l : List Char) (h : c ∈ l) :
    0 ≤ Qt.lastIndexOfChars c l := by
  induction l with
  | nil => simp at h
  | cons x xs ih =>
    by_cases hm : c ∈ xs
    · have := ih hm
      simp only [Qt.lastIndexOfChars, ge_iff_le, this, if_true]
      omega
    · have hx : x = c := by
        rcases List.mem_cons.mp h with h1 | h1
        · exact h1.symm
        · exact absurd h1 hm
      simp [Qt.lastIndexOfChars, Qt.lastIndexOfChars_of_not_mem c xs hm, hx]

theorem afterLast_of_not_mem (c : Char) (l : List Char) (h : c ∉ l) : afterLast c l = l := by
  cases l with
  | nil => rfl
  | cons x xs =>
    have hx : x ≠ c := fun hxc => h (by simp [hxc])
    have hxs : c ∉ xs := fun hm => h (List.mem_cons_of_mem x hm)
    simp [afterLast, hx, hxs]

theorem Qt.drop_lastIndexOfChars (c : Char) (l : List Char) (h : c ∈ l) :
    l.drop (Qt.lastIndexOfChars c l + 1).toNat = afterLast c l := by
  induction l with
  | nil => simp at h
  | cons x xs ih =>
    by_cases hm : c ∈ xs
    · have hnn := Qt.lastIndexOfChars_nonneg_of_mem c xs hm
      have hd := ih hm
      simp only [Qt.lastIndexOfChars, ge_iff_le, hnn, if_true, afterLast, hm]
      have : (Qt.lastIndexOfChars c xs + 1 + 1).toNat = (Qt.lastIndexOfChars c xs + 1).toNat + 1 := by
        omega
      rw [this, List.drop_succ_cons]
      exact hd
    · have hx : x = c := by
        rcases List.mem_cons.mp h with h1 | h1
        · exact h1.symm
        · exact absurd h1 hm
      simp [Qt.lastIndexOfChars, Qt.lastIndexOfChars_of_not_mem c xs hm, hx, afterLast, hm]

theorem afterLast_not_mem (c : Char) (l : List Char) : c ∉ afterLast c l := by
  induction l with
  | nil => simp [afterLast]
  | cons x xs ih =>
    by_cases hm : c ∈ xs
    · simp only [afterLast, hm, if_true]
      exact ih
    · by_cases hx : x = c
      · simp [afterLast, hm, hx]
      · simp only [afterLast, hm, hx, if_false]
        intro h
        rcases List.mem_cons.mp h with h1 | h1
        · exact hx h1.symm
        · exact hm h1

theorem afterLast_suffix (c : Char) (l : List Char) : afterLast c l <:+ l := by
  induction l with
  | nil => exact List.suffix_refl _
  | cons x xs ih =>
    by_cases hm : c ∈ xs
    · simp only [afterLast, hm, if_true]
      exact ih.trans (List.suffix_cons x xs)
    · by_cases hx : x = c
      · simp only [afterLast, hm, hx, if_false, if_true]
        exact List.suffix_cons c xs
      · simp only [afterLast, hm, hx, if_false]
        exact List.suffix_refl _

theorem afterLast_eq_nil_iff (c : Char) (l : List Char) (h : c ∈ l) :
    afterLast c l = [] ↔ l.getLast? = some c := by
  induction l with
  | nil => simp at h
  | cons x xs ih =>
    by_cases hm : c ∈ xs
    · have hne : xs ≠ [] := List.ne_nil_of_mem hm
      obtain ⟨y, ys, rfl⟩ := List.exists_cons_of_ne_nil hne
      simpa [afterLast, hm] using ih hm
    · have hx : x = c := by
        rcases List.mem_cons.mp h with h1 | h1
        · exact h1.symm
        · exact absurd h1 hm
      subst hx
      simp only [afterLast, hm, if_false, if_true]
      constructor
      · intro hn
        rw [hn]
        rfl
      · intro hl
        by_contra hne
        obtain ⟨y, ys, rfl⟩ := List.exists_cons_of_ne_nil hne
        rw [List.getLast?_cons_cons] at hl
        exact hm (List.mem_of_getLast?_eq_some hl)

theorem afterLast_append_cons (c : Char) (p q : List Char) (h : c ∉ q) :
    afterLast c (p ++ c :: q) = q := by
  induction p with
  | nil => simp [afterLast, h]
  | cons x xs ih =>
    have hm : c ∈ xs ++ c :: q := by simp
    show (if c ∈ xs ++ c :: q then afterLast c (xs ++ c :: q)
      else if x = c then xs ++ c :: q else x :: (xs ++ c :: q)) = q
    rw [if_pos hm]
    exact ih

/-- The guarded stripping step of `normalizeErrorCode`, in list form. -/
theorem Qt.strip_eq_afterLastUnlessFinal (c : Char) (s : String) :
    (if Qt.lastIndexOf s c ≥ 0 ∧ Qt.lastIndexOf s c + 1 < Qt.size s then
      Qt.mid s (Qt.lastIndexOf s c + 1) else s) = ⟨afterLastUnlessFinal c s.data⟩ := by
  unfold Qt.lastIndexOf Qt.size Qt.mid afterLastUnlessFinal
  by_cases hm : c ∈ s.data
  · have hnn := Qt.lastIndexOfChars_nonneg_of_mem c s.data hm
    have hd := Qt.drop_lastIndexOfChars c s.data hm
    have hnil := afterLast_eq_nil_iff c s.data hm
    by_cases hl : s.data.getLast? = some c
    · have hn : afterLast c s.data = [] := hnil.mpr hl
      rw [← hd, List.drop_eq_nil_iff] at hn
      have hlt : ¬(Qt.lastIndexOfChars c s.data ≥ 0 ∧
          Qt.lastIndexOfChars c s.data + 1 < (s.data.length : Int)) := by omega
      rw [if_neg hlt, if_pos hl]
    · have hn : afterLast c s.data ≠ [] := fun h => hl (hnil.mp h)
      rw [← hd, Ne, List.drop_eq_nil_iff] at hn
      have hlt : Qt.lastIndexOfChars c s.data ≥ 0 ∧
          Qt.lastIndexOfChars c s.data + 1 < (s.data.length : Int) := by omega
      rw [if_pos hlt, if_neg hl, hd]
  · have hl : s.data.getLast? ≠ some c := fun h => hm (List.mem_of_getLast?_eq_some h)
    have hlt : ¬(Qt.lastIndexOfChars c s.data ≥ 0 ∧
        Qt.lastIndexOfChars c s.data + 1 < (s.data.length : Int)) := by
      rw [Qt.lastIndexOfChars_of_not_mem c s.data hm]
      omega
    rw [if_neg hlt, if_neg hl, afterLast_of_not_mem c s.data hm]

theorem normalizeErrorCode_eq_guarded (raw : String) :
    normalizeErrorCode raw = referenceNormalizeGuarded raw := by
  unfold normalizeErrorCode referenceNormalizeGuarded
  by_cases he : Qt.isEmpty raw = true
  · have hd : raw.data = [] := by simpa [Qt.isEmpty] using he
    simp only [he, if_true, hd]
    show raw = ⟨[]⟩
    rw [← hd]
  · simp only [he]
    simp only [Qt.strip_eq_afterLastUnlessFinal, Qt.trimmed]
    rfl


/-! ## Normalization of error codes -/

theorem afterLastUnlessFinal_of_stable (c : Char) (l : List Char)
    (h : c ∉ l ∨ l.getLast? = some c) : afterLastUnlessFinal c l = l := by
  unfold afterLastUnlessFinal
  by_cases hl : l.getLast? = some c
  · rw [if_pos hl]
  · rw [if_neg hl]
    rcases h with h | h
    · exact afterLast_of_not_mem c l h
    · exact absurd h hl

theorem afterLastUnlessFinal_stable (c : Char) (l : List Char) :
    c ∉ afterLastUnlessFinal c l ∨ (afterLastUnlessFinal c l).getLast? = some c := by
  unfold afterLastUnlessFinal
  by_cases hl : l.getLast? = some c
  · rw [if_pos hl]
    exact Or.inr hl
  · rw [if_neg hl]
    exact Or.inl (afterLast_not_mem c l)

theorem getLast?_of_suffix (q l : List Char) (c : Char) (hs : q <:+ l) (hq : q ≠ [])
    (hl : l.getLast? = some c) : q.getLast? = some c := by
  obtain ⟨p, rfl⟩ := hs
  rw [List.getLast?_append_of_ne_nil p hq] at hl
  exact hl

theorem afterLastUnlessFinal_keeps_stable (c d : Char) (l : List Char)
    (h : c ∉ l ∨ l.getLast? = some c) :
    c ∉ afterLastUnlessFinal d l ∨ (afterLastUnlessFinal d l).getLast? = some c := by
  unfold afterLastUnlessFinal
  by_cases hl : l.getLast? = some d
  · rw [if_pos hl]
    exact h
  · rw [if_neg hl]
    rcases h with h | h
    · exact Or.inl (fun hm => h ((afterLast_suffix d l).subset hm))
    · by_cases hn : afterLast d l = []
      · rw [hn]
        exact Or.inl (List.not_mem_nil c)
      · exact Or.inr (getLast?_of_suffix _ l c (afterLast_suffix d l) hn h)

theorem Qt.rdropWhile_of_getLast? (l : List Char) (c : Char) (hl : l.getLast? = some c)
    (hc : Qt.isSpace c = false) : List.rdropWhile Qt.isSpace l = l := by
  obtain ⟨ys, rfl⟩ := List.getLast?_eq_some_iff.mp hl
  rw [List.rdropWhile_concat_neg Qt.isSpace ys c (by simp [hc])]

theorem Qt.trimmedChars_keeps_stable (c : Char) (l : List Char) (hc : Qt.isSpace c = false)
    (h : c ∉ l ∨ l.getLast? = some c) :
    c ∉ Qt.trimmedChars l ∨ (Qt.trimmedChars l).getLast? = some c := by
  rcases h with h | h
  · exact Or.inl (fun hm => h (Qt.mem_of_mem_trimmedChars c l hm))
  · right
    have h1 : Qt.trimmedChars l = List.rdropWhile Qt.isSpace (l.dropWhile Qt.isSpace) := rfl
    have hne : l.dropWhile Qt.isSpace ≠ [] := by
      intro hn
      have hall := List.dropWhile_eq_nil_iff.mp hn c (List.mem_of_getLast?_eq_some h)
      rw [hc] at hall
      exact absurd hall (by decide)
    have hd : (l.dropWhile Qt.isSpace).getLast? = some c :=
      getLast?_of_suffix _ l c (List.dropWhile_suffix Qt.isSpace) hne h
    rw [h1, Qt.rdropWhile_of_getLast? _ c hd hc]
    exact hd

theorem Qt.trimmedChars_eq_self (l : List Char)
    (hhead : ∀ x, l.head? = some x → Qt.isSpace x = false)
    (hlast : ∀ x, l.getLast? = some x → Qt.isSpace x = false) : Qt.trimmedChars l = l := by
  have h1 : Qt.trimmedChars l = List.rdropWhile Qt.isSpace (l.dropWhile Qt.isSpace) := rfl
  cases l with
  | nil => rfl
  | cons x xs =>
    have hx : Qt.isSpace x = false := hhead x rfl
    have hd : (x :: xs).dropWhile Qt.isSpace = x :: xs :=
      List.dropWhile_cons_of_neg (by simp [hx])
    rw [h1, hd]
    obtain ⟨y, hy⟩ : ∃ y, (x :: xs).getLast? = some y := by
      cases hg : (x :: xs).getLast? with
      | none => simp at hg
      | some y => exact ⟨y, rfl⟩
    exact Qt.rdropWhile_of_getLast? _ y hy (hlast y hy)

theorem referenceNormalizeGuarded_data (raw : String) :
    (referenceNormalizeGuarded raw).data =
      Qt.trimmedChars (afterLastUnlessFinal '/' (afterLastUnlessFinal '#' raw.data)) := rfl

/-- C17: `normalizeErrorCode` is idempotent on every string. -/
theorem normalizeErrorCode_idempotent (s : String) :
    normalizeErrorCode (normalizeErrorCode s) = normalizeErrorCode s := by
  rw [normalizeErrorCode_eq_guarded (normalizeErrorCode s), normalizeErrorCode_eq_guarded s]
  have hhash : '#' ∉ (referenceNormalizeGuarded s).data ∨
      (referenceNormalizeGuarded s).data.getLast? = some '#' :=
    Qt.trimmedChars_keeps_stable '#' _ (by decide)
      (afterLastUnlessFinal_keeps_stable '#' '/' _ (afterLastUnlessFinal_stable '#' s.data))
  have hslash : '/' ∉ (referenceNormalizeGuarded s).data ∨
      (referenceNormalizeGuarded s).data.getLast? = some '/' :=
    Qt.trimmedChars_keeps_stable '/' _ (by decide) (afterLastUnlessFinal_stable '/' _)
  show (⟨Qt.trimmedChars (afterLastUnlessFinal '/'
      (afterLastUnlessFinal '#' (referenceNormalizeGuarded s).data))⟩ : String) =
    referenceNormalizeGuarded s
  rw [afterLastUnlessFinal_of_stable '#' _ hhash, afterLastUnlessFinal_of_stable '/' _ hslash,
    referenceNormalizeGuarded_data, Qt.trimmedChars_idempotent]
  rfl

/-- C18 (as stated) fails: for `abc#` the reference (drop everything up to and
including the last `#`) gives the empty string, while `normalizeErrorCode`
returns `abc#`; likewise `a/` is returned unchanged. -/
theorem normalizeErrorCode_keeps_final_separator :
    normalizeErrorCode "abc#" = "abc#" ∧ referenceNormalize "abc#" = "" ∧
    normalizeErrorCode "a/" = "a/" ∧ referenceNormalize "a/" = "" := by
  decide

/-- C18 (amended): for every string, `normalizeErrorCode` equals the reference
that removes everything up to and including the last `#` unless that `#` is
the last character, then from that result everything up to and including the
last `/` unless that `/` is the last character, and then trims leading and
trailing white space. -/
theorem normalizeErrorCode_refines_guarded_reference (raw : String) :
    normalizeErrorCode raw = referenceNormalizeGuarded raw :=
  normalizeErrorCode_eq_guarded raw

theorem normalizeErrorCode_of_clean (p c : String) (hne : c.data ≠ [])
    (hhash : '#' ∉ c.data) (hslash : '/' ∉ c.data)
    (hhead : c.data.head?.any Qt.isSpace = false)
    (hlast : c.data.getLast?.any Qt.isSpace = false) :
    normalizeErrorCode (p ++ "#" ++ c) = c ∧ normalizeErrorCode c = c := by
  have hhead' : ∀ x, c.data.head? = some x → Qt.isSpace x = false := by
    intro x hx
    rw [hx] at hhead
    exact hhead
  have hlast' : ∀ x, c.data.getLast? = some x → Qt.isSpace x = false := by
    intro x hx
    rw [hx] at hlast
    exact hlast
  have hc : normalizeErrorCode c = c := by
    rw [normalizeErrorCode_eq_guarded]
    unfold referenceNormalizeGuarded
    rw [afterLastUnlessFinal_of_stable '#' _ (Or.inl hhash),
      afterLastUnlessFinal_of_stable '/' _ (Or.inl hslash),
      Qt.trimmedChars_eq_self _ hhead' hlast']
  refine ⟨?_, hc⟩
  rw [normalizeErrorCode_eq_guarded]
  unfold referenceNormalizeGuarded
  have hdata : (p ++ "#" ++ c).data = p.data ++ '#' :: c.data := by
    simp [String.data_append]
  have hl : (p.data ++ '#' :: c.data).getLast? ≠ some '#' := by
    intro h
    have hq : ('#' :: c.data).getLast? = some '#' :=
      getLast?_of_suffix _ _ '#' (List.suffix_append _ _) (List.cons_ne_nil _ _) h
    have hq' : c.data.getLast? = some '#' :=
      getLast?_of_suffix _ _ '#' (List.suffix_cons _ _) hne hq
    exact hhash (List.mem_of_getLast?_eq_some hq')
  rw [hdata]
  have hstrip : afterLastUnlessFinal '#' (p.data ++ '#' :: c.data) = c.data := by
    unfold afterLastUnlessFinal
    rw [if_neg hl, afterLast_append_cons '#' p.data c.data hhash]
  rw [hstrip, afterLastUnlessFinal_of_stable '/' _ (Or.inl hslash),
    Qt.trimmedChars_eq_self _ hhead' hlast']

/-- C19: for every non-empty code `c` without `#`, without `/` and without
leading or trailing white space, and for every prefix `p`,
`normalizeErrorCode (p ++ "#" ++ c) = normalizeErrorCode c = c`; in particular
for `SomeNamespace#NotAuthorizedException`. -/
theorem normalizeErrorCode_strips_namespace (p c : String) (hne : c.data ≠ [])
    (hhash : '#' ∉ c.data) (hslash : '/' ∉ c.data)
    (hhead : c.data.head?.any Qt.isSpace = false)
    (hlast : c.data.getLast?.any Qt.isSpace = false) :
    normalizeErrorCode (p ++ "#" ++ c) = c ∧ normalizeErrorCode c = c ∧
    normalizeErrorCode "SomeNamespace#NotAuthorizedException" = "NotAuthorizedException" ∧
    normalizeErrorCode "NotAuthorizedException" = "NotAuthorizedException" := by
  have h := normalizeErrorCode_of_clean p c hne hhash hslash hhead hlast
  have hx := normalizeErrorCode_of_clean "SomeNamespace" "NotAuthorizedException"
    (by decide) (by decide) (by decide) (by decide) (by decide)
  have happ : ("SomeNamespace" ++ "#" ++ "NotAuthorizedException" : String) =
      "SomeNamespace#NotAuthorizedException" := by decide
  rw [happ] at hx
  exact ⟨h.1, h.2, hx.1, hx.2⟩

/-- Witness for C19: the prefix `com.amazon.coral.service` and the code
`UserNotFoundException`. -/
theorem normalizeErrorCode_strips_namespace_witness :
    normalizeErrorCode ("com.amazon.coral.service" ++ "#" ++ "UserNotFoundException") =
      "UserNotFoundException" ∧
    normalizeErrorCode "UserNotFoundException" = "UserNotFoundException" :=
  have h := normalizeErrorCode_strips_namespace "com.amazon.coral.service"
    "UserNotFoundException" (by decide) (by decide) (by decide) (by decide) (by decide)
  ⟨h.1, h.2.1⟩


/-! ## Classification of error codes -/

theorem mapErrorCodeToStatus_of_http (code : String) (hs : Qt.startsWith code "Http" = true) :
    mapErrorCodeToStatus code = AuthHttpError := by
  have hall : ∀ k ∈ knownErrorCodes, Qt.startsWith k "Http" = false := by decide
  have hne : ∀ k ∈ knownErrorCodes, code ≠ k := by
    intro k hk heq
    rw [heq, hall k hk] at hs
    exact absurd hs (by decide)
  simp only [knownErrorCodes, List.mem_cons, List.mem_singleton, forall_eq_or_imp, forall_eq,
    List.not_mem_nil, false_implies, implies_true, and_true, ne_eq] at hne
  unfold mapErrorCodeToStatus
  simp [hne, hs]

theorem mapErrorCodeToStatus_of_unknown (code : String) (hk : code ∉ knownErrorCodes)
    (hs : Qt.startsWith code "Http" = false) : mapErrorCodeToStatus code = AuthUnknownError := by
  simp only [knownErrorCodes, List.mem_cons, List.mem_singleton, List.not_mem_nil, or_false,
    not_or] at hk
  unfold mapErrorCodeToStatus
  simp [hk, hs]

theorem Qt.startsWith_append (p q : String) : Qt.startsWith (p ++ q) p = true := by
  unfold Qt.startsWith
  rw [String.data_append, List.isPrefixOf_iff_prefix]
  exact List.prefix_append _ _

/-- C20 (as stated) fails: `Httpx` and `Http` are not in the table and are
not `Http` followed by a status number, yet they are mapped to http-error
rather than unknown-error. -/
theorem mapErrorCodeToStatus_http_prefix_only :
    "Httpx" ∉ knownErrorCodes ∧ isHttpStatusCode "Httpx" = false ∧
    mapErrorCodeToStatus "Httpx" = AuthHttpError ∧
    "Http" ∉ knownErrorCodes ∧ isHttpStatusCode "Http" = false ∧
    mapErrorCodeToStatus "Http" = AuthHttpError := by
  decide

/-- C20 (amended): `mapErrorCodeToStatus` maps each known code to its outcome
as listed in the claim, maps the further table entries `EmptyCredentials`,
`EmptyEmail`, `EmptyPassword`, `InvalidEmail` to invalid-input,
`RequestLimitExceeded` to limit-exceeded, `InternalError` to internal-error and
`MissingAccessToken`, `EmptyResponse` to parse-error, maps every code that
starts with `Http` (so every `Http<status>`) to http-error, and maps every
code that is not in the table and does not start with `Http` to
unknown-error. -/
theorem mapErrorCodeToStatus_table :
    (mapErrorCodeToStatus "NotAuthorizedException" = AuthNotAuthorized ∧
      mapErrorCodeToStatus "UserNotFoundException" = AuthUserNotFound ∧
      mapErrorCodeToStatus "UserNotConfirmedException" = AuthUserNotConfirmed ∧
      mapErrorCodeToStatus "PasswordResetRequiredException" = AuthPasswordResetRequired ∧
      mapErrorCodeToStatus "InvalidParameterException" = AuthInvalidParameter ∧
      mapErrorCodeToStatus "InvalidPasswordException" = AuthInvalidPassword ∧
      mapErrorCodeToStatus "TooManyRequestsException" = AuthTooManyRequests ∧
      mapErrorCodeToStatus "LimitExceededException" = AuthLimitExceeded ∧
      mapErrorCodeToStatus "ResourceNotFoundException" = AuthResourceNotFound ∧
      mapErrorCodeToStatus "InternalErrorException" = AuthInternalError ∧
      mapErrorCodeToStatus "NetworkError" = AuthNetworkError ∧
      mapErrorCodeToStatus "ParseError" = AuthParseError ∧
      mapErrorCodeToStatus "InProgress" = AuthInProgress ∧
      mapErrorCodeToStatus "ChallengeRequired" = AuthChallengeRequired) ∧
    (mapErrorCodeToStatus "EmptyCredentials" = AuthInvalidInput ∧
      mapErrorCodeToStatus "EmptyEmail" = AuthInvalidInput ∧
      mapErrorCodeToStatus "EmptyPassword" = AuthInvalidInput ∧
      mapErrorCodeToStatus "InvalidEmail" = AuthInvalidInput ∧
      mapErrorCodeToStatus "RequestLimitExceeded" = AuthLimitExceeded ∧
      mapErrorCodeToStatus "InternalError" = AuthInternalError ∧
      mapErrorCodeToStatus "MissingAccessToken" = AuthParseError ∧
      mapErrorCodeToStatus "EmptyResponse" = AuthParseError) ∧
    (∀ code : String, Qt.startsWith code "Http" = true →
      mapErrorCodeToStatus code = AuthHttpError) ∧
    (∀ statusCode : Int, mapErrorCodeToStatus (httpCode statusCode) = AuthHttpError) ∧
    (∀ code : String, isHttpStatusCode code = true →
      mapErrorCodeToStatus code = AuthHttpError) ∧
    (∀ code : String, code ∉ knownErrorCodes → Qt.startsWith code "Http" = false →
      mapErrorCodeToStatus code = AuthUnknownError) := by
  refine ⟨by decide, by decide, mapErrorCodeToStatus_of_http, ?_, ?_,
    mapErrorCodeToStatus_of_unknown⟩
  · intro statusCode
    exact mapErrorCodeToStatus_of_http _ (Qt.startsWith_append "Http" _)
  · intro code h
    unfold isHttpStatusCode at h
    simp only [Bool.and_eq_true] at h
    exact mapErrorCodeToStatus_of_http code h.1.1

/-- Witness for C20 (amended): `Http404` is an http-error and the unlisted code
`ThrottlingException` is an unknown-error. -/
theorem mapErrorCodeToStatus_table_witness :
    mapErrorCodeToStatus "Http404" = AuthHttpError ∧
    mapErrorCodeToStatus "ThrottlingException" = AuthUnknownError :=
  ⟨mapErrorCodeToStatus_table.2.2.1 "Http404" (by decide),
   mapErrorCodeToStatus_table.2.2.2.2.2 "ThrottlingException" (by decide) (by decide)⟩

/-! ## Extraction of the error code -/

theorem QJsonObject.contains_of_isString (obj : QJsonObject) (key : String)
    (h : (obj.value key).isString = true) : obj.contains key = true := by
  induction obj with
  | nil => simp [QJsonObject.value, QJsonValue.isString] at h
  | cons kv rest ih =>
    obtain ⟨k, v⟩ := kv
    by_cases hk : k = key
    · simp [QJsonObject.contains, hk]
    · simp only [QJsonObject.value, hk, if_false] at h
      simp only [QJsonObject.contains, hk, if_false]
      exact ih h

theorem firstStringValue_cons (obj : QJsonObject) (key : String) (rest : List String) :
    firstStringValue obj (key :: rest) =
      if (obj.contains key && (obj.value key).isString) = true then (obj.value key).toString
      else firstStringValue obj rest := by
  cases hv : obj.value key with
  | string x =>
    have hs : (obj.value key).isString = true := by rw [hv]; rfl
    have hc := QJsonObject.contains_of_isString obj key hs
    simp [firstStringValue, hv, hc, QJsonValue.isString, QJsonValue.toString]
  | null => simp [firstStringValue, hv, QJsonValue.isString]
  | undefined => simp [firstStringValue, hv, QJsonValue.isString]
  | bool b => simp [firstStringValue, hv, QJsonValue.isString]
  | number n => simp [firstStringValue, hv, QJsonValue.isString]
  | real d => simp [firstStringValue, hv, QJsonValue.isString]
  | array xs => simp [firstStringValue, hv, QJsonValue.isString]
  | object m => simp [firstStringValue, hv, QJsonValue.isString]

/-- C21: for every JSON object, `extractErrorCode` returns the value of the
first of the keys `__type`, `code`, `error`, `Error`, `errorCode` (in this
order) whose value is a string; a key that is absent or present with a
non-string value is skipped; the result is the empty string when none of the
keys holds a string. -/
theorem extractErrorCode_first_string (obj : QJsonObject) :
    extractErrorCode obj = firstStringValue obj errorCodeKeys := by
  unfold extractErrorCode errorCodeKeys
  simp only [firstStringValue_cons]
  rfl

/-! ## Classified provider errors of a login -/

theorem failLogin_effects (now : Int) (s : State) (status : AuthStatus) (ec em : String) :
    (failLogin now s status ec em).2 =
      [Effect.loginCompleted status "" 0 "" "" "" ec em "" []] := by
  unfold failLogin finishLogin
  simp

theorem handleLoginReply_classified (now : Int) (s : State) (r : Reply) (obj : QJsonObject)
    (hout : s.loginReply = true) (hbody : Qt.isEmpty r.body = false)
    (hdoc : r.doc = QJsonDocument.object obj)
    (hres : (obj.contains "AuthenticationResult" &&
      (obj.value "AuthenticationResult").isObject) = false)
    (hch : obj.contains "ChallengeName" = false) :
    handleLoginReply now s r =
      (if Qt.isEmpty (if Qt.isEmpty (normalizeErrorCode (extractErrorCode obj)) = true ∧
            r.statusCode ≥ 400 then httpCode r.statusCode
          else normalizeErrorCode (extractErrorCode obj)) = true then
        failLogin now { s with loginReply := false } AuthUnknownError "UnknownError"
          "Unknown login error"
      else
        failLogin now { s with loginReply := false }
          (mapErrorCodeToStatus
            (if Qt.isEmpty (normalizeErrorCode (extractErrorCode obj)) = true ∧
              r.statusCode ≥ 400 then httpCode r.statusCode
            else normalizeErrorCode (extractErrorCode obj)))
          (if Qt.isEmpty (normalizeErrorCode (extractErrorCode obj)) = true ∧
              r.statusCode ≥ 400 then httpCode r.statusCode
            else normalizeErrorCode (extractErrorCode obj))
          (if Qt.isEmpty
              (if Qt.isEmpty (extractErrorMessage obj) = true ∧ r.statusCode ≥ 400 then
                httpMessage r.statusCode else extractErrorMessage obj) = true then
            defaultMessageForStatus (mapErrorCodeToStatus
              (if Qt.isEmpty (normalizeErrorCode (extractErrorCode obj)) = true ∧
                r.statusCode ≥ 400 then httpCode r.statusCode
              else normalizeErrorCode (extractErrorCode obj)))
          else
            (if Qt.isEmpty (extractErrorMessage obj) = true ∧ r.statusCode ≥ 400 then
              httpMessage r.statusCode else extractErrorMessage obj))) := by
  unfold handleLoginReply
  simp only [hout, hbody, hdoc, hres, hch]
  simp

theorem httpCode_nonempty (statusCode : Int) : Qt.isEmpty (httpCode statusCode) = false := by
  unfold httpCode Qt.isEmpty
  rw [String.data_append]
  rfl

/-- C22: for every reply to the outstanding login whose body is a JSON object
without an `AuthenticationResult` object and without a `ChallengeName` key, and
whose extracted code has the non-empty normalization `c`, the login completes
exactly once with status `mapErrorCodeToStatus c` and error code `c`, whatever
the HTTP status and the transport error are.  The fallback code `Http<status>`
is used only when `c` is empty and the HTTP status is at least 400; with `c`
empty and a lower status the completion is `UnknownError`. -/
theorem login_error_payload_wins (now : Int) (s : State) (r : Reply) (obj : QJsonObject)
    (hout : s.loginReply = true) (hbody : Qt.isEmpty r.body = false)
    (hdoc : r.doc = QJsonDocument.object obj)
    (hres : (obj.contains "AuthenticationResult" &&
      (obj.value "AuthenticationResult").isObject) = false)
    (hch : obj.contains "ChallengeName" = false) :
    (Qt.isEmpty (normalizeErrorCode (extractErrorCode obj)) = false →
      ∃ message, (handleLoginReply now s r).2 =
        [Effect.loginCompleted (mapErrorCodeToStatus (normalizeErrorCode (extractErrorCode obj)))
          "" 0 "" "" "" (normalizeErrorCode (extractErrorCode obj)) message "" []]) ∧
    (Qt.isEmpty (normalizeErrorCode (extractErrorCode obj)) = true → r.statusCode ≥ 400 →
      ∃ message, (handleLoginReply now s r).2 =
        [Effect.loginCompleted AuthHttpError "" 0 "" "" "" (httpCode r.statusCode) message
          "" []]) ∧
    (Qt.isEmpty (normalizeErrorCode (extractErrorCode obj)) = true → r.statusCode < 400 →
      (handleLoginReply now s r).2 =
        [Effect.loginCompleted AuthUnknownError "" 0 "" "" "" "UnknownError"
          "Unknown login error" "" []]) := by
  rw [handleLoginReply_classified now s r obj hout hbody hdoc hres hch]
  refine ⟨fun hc => ?_, fun hc hst => ?_, fun hc hst => ?_⟩
  · have hn : ¬(Qt.isEmpty (normalizeErrorCode (extractErrorCode obj)) = true ∧
        r.statusCode ≥ 400) := fun h => by rw [hc] at h; exact absurd h.1 (by decide)
    have hne : ¬(Qt.isEmpty (normalizeErrorCode (extractErrorCode obj)) = true) := by
      rw [hc]; decide
    rw [if_neg hn, if_neg hne]
    exact ⟨_, failLogin_effects _ _ _ _ _⟩
  · have hp : Qt.isEmpty (normalizeErrorCode (extractErrorCode obj)) = true ∧
        r.statusCode ≥ 400 := ⟨hc, hst⟩
    have hne : ¬(Qt.isEmpty (httpCode r.statusCode) = true) := by
      rw [httpCode_nonempty]; decide
    have hmap : mapErrorCodeToStatus (httpCode r.statusCode) = AuthHttpError :=
      mapErrorCodeToStatus_of_http _ (Qt.startsWith_append "Http" _)
    rw [if_pos hp, if_neg hne, hmap]
    exact ⟨_, failLogin_effects _ _ _ _ _⟩
  · have hn : ¬(Qt.isEmpty (normalizeErrorCode (extractErrorCode obj)) = true ∧
        r.statusCode ≥ 400) := fun h => absurd h.2 (not_le.mpr hst)
    rw [if_neg hn, if_pos hc]
    exact failLogin_effects _ _ _ _ _

/-- Witness for C22: the outstanding login is answered with HTTP 400 and the
provider error `ns#UserNotFoundException`. -/
theorem login_error_payload_wins_witness :
    ∃ message, (handleLoginReply 5 loggingInState
      (providerErrorReply "ns#UserNotFoundException" "User does not exist.")).2 =
      [Effect.loginCompleted
        (mapErrorCodeToStatus (normalizeErrorCode (extractErrorCode
          [("__type", QJsonValue.string "ns#UserNotFoundException"),
           ("message", QJsonValue.string "User does not exist.")])))
        "" 0 "" "" ""
        (normalizeErrorCode (extractErrorCode
          [("__type", QJsonValue.string "ns#UserNotFoundException"),
           ("message", QJsonValue.string "User does not exist.")]))
        message "" []] :=
  (login_error_payload_wins 5 loggingInState
    (providerErrorReply "ns#UserNotFoundException" "User does not exist.")
    [("__type", QJsonValue.string "ns#UserNotFoundException"),
     ("message", QJsonValue.string "User does not exist.")] rfl rfl rfl rfl rfl).1 rfl

/-! ## Local validation of a status fetch -/

/-- C23 (as stated) fails: with the non-empty machine id `" "` (one space) and
an empty access token `fetchMachineStatus` reports `EmptyMachineId`, not
`EmptyAccessToken`. -/
theorem fetchMachineStatus_blank_id_counts_as_empty :
    Qt.isEmpty " " = false ∧
    (fetchMachineStatus State.initial " " "").2 =
      [Effect.machineStatusFailed "EmptyMachineId" "Machine ID is required"] :=
  ⟨rfl, rfl⟩

/-- C23 (amended): for every state and access token, `fetchMachineStatus` with
a machine id that is empty after trimming white space (in particular the empty
id) emits exactly one `machineStatusFailed` with code `EmptyMachineId` and
nothing else, and leaves the state unchanged; with a machine id that is
non-empty after trimming and an access token that is empty after trimming it
emits `EmptyAccessToken`, issues no request and leaves the state unchanged. -/
theorem fetchMachineStatus_rejects_blank_arguments (s : State)
    (machineId accessToken : String) :
    fetchMachineStatus s "" accessToken =
      (s, [Effect.machineStatusFailed "EmptyMachineId" "Machine ID is required"]) ∧
    (Qt.isEmpty (Qt.trimmed machineId) = true →
      fetchMachineStatus s machineId accessToken =
        (s, [Effect.machineStatusFailed "EmptyMachineId" "Machine ID is required"])) ∧
    (Qt.isEmpty (Qt.trimmed machineId) = false → Qt.isEmpty (Qt.trimmed accessToken) = true →
      fetchMachineStatus s machineId accessToken =
        (s, [Effect.machineStatusFailed "EmptyAccessToken" "Access token is required"])) := by
  have hempty : Qt.isEmpty (Qt.trimmed "") = true := by decide
  refine ⟨?_, fun h => ?_, fun h1 h2 => ?_⟩
  · unfold fetchMachineStatus
    simp only [hempty, if_true]
  · unfold fetchMachineStatus
    simp only [h, if_true]
  · unfold fetchMachineStatus
    simp [h1, h2]

/-- Witness for C23 (amended): a blank machine id, and the id `m-1` with a
blank token, on the started controller. -/
theorem fetchMachineStatus_rejects_blank_arguments_witness :
    fetchMachineStatus startedState "  " "token" =
      (startedState, [Effect.machineStatusFailed "EmptyMachineId" "Machine ID is required"]) ∧
    fetchMachineStatus startedState "m-1" " " =
      (startedState,
        [Effect.machineStatusFailed "EmptyAccessToken" "Access token is required"]) :=
  ⟨(fetchMachineStatus_rejects_blank_arguments startedState "  " "token").2.1 rfl,
   (fetchMachineStatus_rejects_blank_arguments startedState "m-1" " ").2.2 rfl rfl⟩

/-! ## The machine record after a status fetch -/

theorem sendMachineCommand_machineRecord (s : State) (machineId action accessToken : String) :
    (sendMachineCommand s machineId action accessToken).1.machineRecord = s.machineRecord := by
  rw [sendMachineCommand_frame]
  rfl

theorem advanceMachineAction_machineRecord (t : State) :
    (advanceMachineAction t).1.machineRecord = t.machineRecord := by
  unfold advanceMachineAction
  simp only []
  repeat' split
  all_goals first
    | rfl
    | (rw [sendMachineCommand_machineRecord]; rfl)

theorem storeMachineRecord_machineRecord (s : State) (obj : QJsonObject) :
    (storeMachineRecord s obj).machineRecord =
      (if hasStringId obj = true then (obj.value "id").toString else s.machineId,
       (obj.value "status").toString, (obj.value "password").toString,
       (obj.value "public_ip").toString, (obj.value "last_started").toInt64,
       (obj.value "created_at").toInt64) := by
  unfold storeMachineRecord hasStringId State.machineRecord
  simp only []
  split <;> rfl

theorem handleMachineStatusReply_machineRecord (s : State) (r : Reply) (obj : QJsonObject)
    (hout : s.machineStatusReply = true) (hok : r.fetchedStatus = some obj) :
    (handleMachineStatusReply s r).1.machineRecord =
      (if hasStringId obj = true then (obj.value "id").toString else s.machineId,
       (obj.value "status").toString, (obj.value "password").toString,
       (obj.value "public_ip").toString, (obj.value "last_started").toInt64,
       (obj.value "created_at").toInt64) := by
  rw [handleMachineStatusReply_fetched s r obj hout hok]
  show (advanceMachineAction _).1.machineRecord = _
  rw [advanceMachineAction_machineRecord, storeMachineRecord_machineRecord]

/-- C24 (as stated) fails: the same successful response `status = running`,
which has no `id` member, handled after a fetch for `m-1` and after a fetch for
`m-2`, ends with two different records: each keeps its previous id. -/
theorem statusReply_keeps_previous_id :
    (statusReply "running").fetchedStatus = some [("status", QJsonValue.string "running")] ∧
    (handleMachineStatusReply (fetchMachineStatus State.initial "m-1" "token").1
      (statusReply "running")).1.machineRecord = ("m-1", "running", "", "", 0, 0) ∧
    (handleMachineStatusReply (fetchMachineStatus State.initial "m-2" "token").1
      (statusReply "running")).1.machineRecord = ("m-2", "running", "", "", 0, 0) :=
  ⟨rfl, rfl, rfl⟩

/-- C24 (amended): for every state with an outstanding status request and
every successful status response, the fields status, password, public address,
last-started and created-at of the resulting record are those of the response
alone, and the id is the `id` of the response when the response holds a string
`id` and the previous id otherwise.  Hence two runs with the same response end
with records that agree on the five fields, and with equal records when the
response holds a string `id`. -/
theorem statusReply_replaces_record (s1 s2 : State) (r : Reply) (obj : QJsonObject)
    (hout1 : s1.machineStatusReply = true) (hout2 : s2.machineStatusReply = true)
    (hok : r.fetchedStatus = some obj) :
    (handleMachineStatusReply s1 r).1.machineRecord =
      (if hasStringId obj = true then (obj.value "id").toString else s1.machineId,
       (obj.value "status").toString, (obj.value "password").toString,
       (obj.value "public_ip").toString, (obj.value "last_started").toInt64,
       (obj.value "created_at").toInt64) ∧
    (handleMachineStatusReply s1 r).1.machineRecord.2 =
      (handleMachineStatusReply s2 r).1.machineRecord.2 ∧
    (hasStringId obj = true →
      (handleMachineStatusReply s1 r).1.machineRecord =
        (handleMachineStatusReply s2 r).1.machineRecord) := by
  rw [handleMachineStatusReply_machineRecord s1 r obj hout1 hok,
    handleMachineStatusReply_machineRecord s2 r obj hout2 hok]
  refine ⟨rfl, rfl, fun h => ?_⟩
  rw [if_pos h, if_pos h]

/-- Witness for C24 (amended): the response `id = m-9, status = running`
handled after a fetch for `m-1` and after a fetch for `m-2`. -/
theorem statusReply_replaces_record_witness :
    (handleMachineStatusReply (fetchMachineStatus State.initial "m-1" "token").1
      (statusReplyWithId "m-9" "running")).1.machineRecord =
      (handleMachineStatusReply (fetchMachineStatus State.initial "m-2" "token").1
        (statusReplyWithId "m-9" "running")).1.machineRecord :=
  (statusReply_replaces_record (fetchMachineStatus State.initial "m-1" "token").1
    (fetchMachineStatus State.initial "m-2" "token").1 (statusReplyWithId "m-9" "running")
    [("id", QJsonValue.string "m-9"), ("status", QJsonValue.string "running")]
    rfl rfl rfl).2.2 rfl

/-! ## Single flight of the machine-id lookup -/

/-- C25: for every state in which the get-user lookup or the account lookup is
in flight, and every access token that is non-empty after trimming,
`fetchMachineId` emits exactly `machineIdFetched(false, "", "InProgress", _)`,
issues no request, and leaves the whole state (in particular the stored machine
id, the account id and both in-flight flags) unchanged. -/
theorem fetchMachineId_rejected_while_lookup_in_flight (s : State) (accessToken : String)
    (hflight : s.getUserInProgress = true ∨ s.accountInProgress = true)
    (htoken : Qt.isEmpty (Qt.trimmed accessToken) = false) :
    fetchMachineId s accessToken =
      (s, [Effect.machineIdFetched false "" "InProgress" "GetUser already in progress"]) ∧
    requests (fetchMachineId s accessToken).2 = [] ∧
    (fetchMachineId s accessToken).1.machineId = s.machineId ∧
    (fetchMachineId s accessToken).1.accountId = s.accountId ∧
    (fetchMachineId s accessToken).1.getUserInProgress = s.getUserInProgress ∧
    (fetchMachineId s accessToken).1.accountInProgress = s.accountInProgress := by
  have h : fetchMachineId s accessToken =
      (s, [Effect.machineIdFetched false "" "InProgress" "GetUser already in progress"]) := by
    unfold fetchMachineId
    have hor : (s.getUserInProgress || s.accountInProgress) = true := by
      rcases hflight with h | h <;> simp [h]
    simp only [htoken, hor, if_true]
    simp
  rw [h]
  exact ⟨rfl, rfl, rfl, rfl, rfl, rfl⟩

/-- Witness for C25: a second `fetchMachineId` while the get-user request of
the first is outstanding. -/
theorem fetchMachineId_rejected_while_lookup_in_flight_witness :
    fetchMachineId (fetchMachineId State.initial "token").1 "other" =
      ((fetchMachineId State.initial "token").1,
        [Effect.machineIdFetched false "" "InProgress" "GetUser already in progress"]) :=
  (fetchMachineId_rejected_while_lookup_in_flight (fetchMachineId State.initial "token").1
    "other" (Or.inl rfl) rfl).1

/-! ## Reported outcomes -/

theorem finishLogin_signals (now : Int) (s : State) (status : AuthStatus) (a : String)
    (e : Int) (i rt tt ec em cn : String) (cp : QJsonObject) :
    (signals (finishLogin now s status a e i rt tt ec em cn cp).2).length = 1 ∧
    requests (finishLogin now s status a e i rt tt ec em cn cp).2 = [] := by
  unfold finishLogin signals requests
  simp only []
  repeat' split
  all_goals simp [Effect.isSignal, Effect.isRequest]

theorem failLogin_signals (now : Int) (s : State) (status : AuthStatus) (ec em : String) :
    (signals (failLogin now s status ec em).2).length = 1 ∧
    requests (failLogin now s status ec em).2 = [] :=
  finishLogin_signals now s status "" 0 "" "" "" ec em "" []

theorem loginWithCredentials_outcome (now : Int) (s : State) (email password : String) :
    (signals (loginWithCredentials now s email password).2).length +
      (requests (loginWithCredentials now s email password).2).length = 1 := by
  unfold loginWithCredentials
  simp only []
  repeat' split
  all_goals first
    | (rw [(failLogin_signals _ _ _ _ _).1, (failLogin_signals _ _ _ _ _).2]; rfl)
    | simp [signals, requests, Effect.isSignal, Effect.isRequest]

theorem handleLoginReply_signals (now : Int) (s : State) (r : Reply) :
    (signals (handleLoginReply now s r).2).length = 1 := by
  unfold handleLoginReply
  simp only []
  repeat' split
  all_goals first
    | exact (failLogin_signals _ _ _ _ _).1
    | exact (finishLogin_signals _ _ _ _ _ _ _ _ _ _ _ _).1

theorem fetchMachineId_outcome (s : State) (accessToken : String) :
    (signals (fetchMachineId s accessToken).2).length +
      (requests (fetchMachineId s accessToken).2).length = 1 := by
  unfold fetchMachineId
  simp only []
  repeat' split
  all_goals simp [signals, requests, Effect.isSignal, Effect.isRequest]

theorem fetchAccountMachineId_outcome (s : State) (accountId accessToken : String) :
    (signals (fetchAccountMachineId s accountId accessToken).2).length +
      (requests (fetchAccountMachineId s accountId accessToken).2).length = 1 := by
  unfold fetchAccountMachineId
  simp only []
  repeat' split
  all_goals simp [signals, requests, Effect.isSignal, Effect.isRequest]

theorem handleGetUserReply_outcome (s : State) (r : Reply) :
    (signals (handleGetUserReply s r).2).length +
      (requests (handleGetUserReply s r).2).length = 1 := by
  unfold handleGetUserReply
  simp only []
  repeat' split
  all_goals first
    | (simp [signals, requests, Effect.isSignal, Effect.isRequest]; done)
    | exact fetchAccountMachineId_outcome _ _ _

theorem handleAccountReply_signals (s : State) (r : Reply) :
    (signals (handleAccountReply s r).2).length = 1 := by
  unfold handleAccountReply
  simp only []
  repeat' split
  all_goals simp [signals, Effect.isSignal]

theorem addMachineClient_outcome (s : State) (accessToken machineId pin : String) :
    (signals (addMachineClient s accessToken machineId pin).2).length +
      (requests (addMachineClient s accessToken machineId pin).2).length = 1 := by
  unfold addMachineClient
  simp only []
  repeat' split
  all_goals simp [signals, requests, Effect.isSignal, Effect.isRequest]

theorem handleMachineClientReply_signals (s : State) (r : Reply)
    (hout : s.machineClientReply = true) :
    (signals (handleMachineClientReply s r).2).length = 1 := by
  unfold handleMachineClientReply
  simp only [hout]
  repeat' split
  all_goals simp_all [signals, Effect.isSignal]

theorem sendMachineCommand_outcome (s : State) (machineId action accessToken : String)
    (hid : Qt.isEmpty (Qt.trimmed machineId) = false)
    (hreq : requests (sendMachineCommand s machineId action accessToken).2 = []) :
    (signals (sendMachineCommand s machineId action accessToken).2).length = 1 := by
  unfold sendMachineCommand at hreq ⊢
  simp only [hid, Bool.false_eq_true, if_false] at hreq ⊢
  split at hreq
  · rename_i htok
    simp only [htok, if_true]
    split <;> rfl
  · simp [requests, List.filter_append, Effect.isRequest] at hreq

theorem startMachine_outcome (s : State) (machineId accessToken : String)
    (hreq : requests (startMachine s machineId accessToken).2 = []) :
    (signals (startMachine s machineId accessToken).2).length = 1 := by
  unfold startMachine at hreq ⊢
  simp only [] at hreq ⊢
  repeat' split at hreq
  all_goals first
    | (simp_all [signals, Effect.isSignal]; done)
    | (rename_i hid _ _
       have hid' : Qt.isEmpty (Qt.trimmed (Qt.trimmed machineId)) = false := by
         rw [Qt.isEmpty_trimmed_trimmed]; simpa using hid
       have := sendMachineCommand_outcome _ _ _ _ hid' hreq
       simp_all)

theorem stopMachine_outcome (s : State) (machineId accessToken : String)
    (hreq : requests (stopMachine s machineId accessToken).2 = []) :
    (signals (stopMachine s machineId accessToken).2).length = 1 := by
  unfold stopMachine at hreq ⊢
  simp only [] at hreq ⊢
  repeat' split at hreq
  all_goals first
    | (simp_all [signals, Effect.isSignal]; done)
    | (rename_i hid _ _
       have hid' : Qt.isEmpty (Qt.trimmed (Qt.trimmed machineId)) = false := by
         rw [Qt.isEmpty_trimmed_trimmed]; simpa using hid
       have := sendMachineCommand_outcome _ _ _ _ hid' hreq
       simp_all)

theorem fetchMachineStatus_outcome (s : State) (machineId accessToken : String) :
    (signals (fetchMachineStatus s machineId accessToken).2).length +
      (requests (fetchMachineStatus s machineId accessToken).2).length = 1 ∨
    (Qt.isEmpty (Qt.trimmed machineId) = false ∧ Qt.isEmpty (Qt.trimmed accessToken) = false ∧
      s.machineStatusReply = true ∧ fetchMachineStatus s machineId accessToken = (s, [])) := by
  unfold fetchMachineStatus
  simp only []
  repeat' split
  all_goals simp_all [signals, requests, Effect.isSignal, Effect.isRequest]

theorem handleMachineStatusReply_signals (s : State) (r : Reply)
    (hout : s.machineStatusReply = true) :
    1 ≤ (signals (handleMachineStatusReply s r).2).length := by
  unfold handleMachineStatusReply
  simp only [hout]
  repeat' split
  all_goals first
    | (simp_all [signals, Effect.isSignal, List.filter_append]; done)
    | (simp only [signals, List.filter_append, List.length_append, List.filter, Effect.isSignal,
        List.length]
       omega)

/-- C26 (as stated) fails on two call paths that report nothing: a
`fetchMachineStatus` with valid arguments while a status request is outstanding
returns without a request and without an event, and a get-user reply that holds
a `custom:account` attribute is followed by the account request and not by a
completion event. -/
theorem silent_call_paths :
    fetchMachineStatus polledState "m-1" "token" = (polledState, []) ∧
    (handleGetUserReply (fetchMachineId State.initial "token").1
      (userAttributesReply "acc-1")).2 = [Effect.sent (Request.getAccount "acc-1" "token")] ∧
    signals (handleGetUserReply (fetchMachineId State.initial "token").1
      (userAttributesReply "acc-1")).2 = [] :=
  ⟨rfl, rfl, rfl⟩

/-- C26 (amended): for every state and arguments, a call of
`loginWithCredentials`, `fetchMachineId`, `startMachine`, `stopMachine` or
`addMachineClient` that issues no network request emits exactly one completion
signal; so does a call of `fetchMachineStatus`, except that with valid
arguments and a status request already outstanding it returns with no request,
no signal and the state unchanged.  Every login reply and every account reply
emits exactly one completion signal, every reply to an outstanding status
request emits at least one, every reply to an outstanding client-add request
emits exactly one, and every get-user reply either emits exactly one completion
signal or issues the account request (exactly one request and no signal). -/
theorem every_call_path_reports (s : State) :
    (∀ now email password, requests (loginWithCredentials now s email password).2 = [] →
      (signals (loginWithCredentials now s email password).2).length = 1) ∧
    (∀ accessToken, requests (fetchMachineId s accessToken).2 = [] →
      (signals (fetchMachineId s accessToken).2).length = 1) ∧
    (∀ machineId accessToken, requests (startMachine s machineId accessToken).2 = [] →
      (signals (startMachine s machineId accessToken).2).length = 1) ∧
    (∀ machineId accessToken, requests (stopMachine s machineId accessToken).2 = [] →
      (signals (stopMachine s machineId accessToken).2).length = 1) ∧
    (∀ accessToken machineId pin,
      requests (addMachineClient s accessToken machineId pin).2 = [] →
      (signals (addMachineClient s accessToken machineId pin).2).length = 1) ∧
    (∀ machineId accessToken, requests (fetchMachineStatus s machineId accessToken).2 = [] →
      (signals (fetchMachineStatus s machineId accessToken).2).length = 1 ∨
      (Qt.isEmpty (Qt.trimmed machineId) = false ∧
        Qt.isEmpty (Qt.trimmed accessToken) = false ∧ s.machineStatusReply = true ∧
        fetchMachineStatus s machineId accessToken = (s, []))) ∧
    (∀ now r, (signals (handleLoginReply now s r).2).length = 1) ∧
    (∀ r, (signals (handleAccountReply s r).2).length = 1) ∧
    (∀ r, s.machineStatusReply = true →
      1 ≤ (signals (handleMachineStatusReply s r).2).length) ∧
    (∀ r, s.machineClientReply = true →
      (signals (handleMachineClientReply s r).2).length = 1) ∧
    (∀ r, (signals (handleGetUserReply s r).2).length = 1 ∨
      ((signals (handleGetUserReply s r).2).length = 0 ∧
        (requests (handleGetUserReply s r).2).length = 1)) := by
  refine ⟨fun now email password h => ?_, fun accessToken h => ?_,
    fun machineId accessToken h => ?_, fun machineId accessToken h => ?_,
    fun accessToken machineId pin h => ?_, fun machineId accessToken h => ?_,
    fun now r => handleLoginReply_signals now s r, fun r => handleAccountReply_signals s r,
    fun r hout => handleMachineStatusReply_signals s r hout,
    fun r hout => handleMachineClientReply_signals s r hout, fun r => ?_⟩
  · have := loginWithCredentials_outcome now s email password
    rw [h] at this
    simpa using this
  · have := fetchMachineId_outcome s accessToken
    rw [h] at this
    simpa using this
  · exact startMachine_outcome s machineId accessToken h
  · exact stopMachine_outcome s machineId accessToken h
  · have := addMachineClient_outcome s accessToken machineId pin
    rw [h] at this
    simpa using this
  · rcases fetchMachineStatus_outcome s machineId accessToken with h1 | h1
    · left
      rw [h] at h1
      simpa using h1
    · exact Or.inr h1
  · have := handleGetUserReply_outcome s r
    omega

/-- Witness for C26 (amended): on the started controller, a second
`startMachine` issues no request and emits one signal, and the reply to the
outstanding status request of the polled controller emits a signal. -/
theorem every_call_path_reports_witness :
    (signals (startMachine startedState "m-1" "token").2).length = 1 ∧
    1 ≤ (signals (handleMachineStatusReply polledState (statusReply "running")).2).length :=
  ⟨(every_call_path_reports startedState).2.2.1 "m-1" "token" rfl,
   (every_call_path_reports polledState).2.2.2.2.2.2.2.2.1 (statusReply "running") rfl⟩

/-! ## The poll loop and the action in flight -/

theorem LifecycleConsistent.of_frame (s t : State) (h : LifecycleConsistent s)
    (ha : t.machineAction = s.machineAction) (hp : t.pollTimerActive = s.pollTimerActive)
    (htok : t.machineAccessToken = s.machineAccessToken ∨
      Qt.isEmpty (Qt.trimmed t.machineAccessToken) = false) :
    LifecycleConsistent t := by
  unfold LifecycleConsistent at *
  rw [ha, hp]
  intro hne
  refine ⟨(h hne).1, ?_⟩
  rcases htok with h1 | h1
  · rw [h1]; exact (h hne).2
  · exact h1

theorem LifecycleConsistent.of_idle (t : State) (ha : t.machineAction = MachineNone) :
    LifecycleConsistent t := by
  unfold LifecycleConsistent
  rw [ha]
  exact fun hne => absurd rfl hne

theorem LifecycleConsistent.initial : LifecycleConsistent State.initial :=
  LifecycleConsistent.of_idle _ rfl

theorem handleMachineCommandReply_keeps_lifecycle (s : State) (r : Reply)
    (h : LifecycleConsistent s) : LifecycleConsistent (handleMachineCommandReply s r).1 := by
  have h1 : LifecycleConsistent { s with machineCommandReply := false } :=
    LifecycleConsistent.of_frame s _ h rfl rfl (Or.inl rfl)
  unfold handleMachineCommandReply
  simp only []
  repeat' split
  all_goals first
    | exact h
    | exact h1
    | exact LifecycleConsistent.of_idle _ rfl

theorem sendMachineCommand_keeps_lifecycle (s : State) (machineId action accessToken : String)
    (h : LifecycleConsistent s) :
    LifecycleConsistent (sendMachineCommand s machineId action accessToken).1 := by
  unfold sendMachineCommand
  simp only []
  repeat' split
  all_goals first
    | exact h
    | exact LifecycleConsistent.of_frame s _ h rfl rfl (Or.inl rfl)
    | exact LifecycleConsistent.of_frame _ _
        (handleMachineCommandReply_keeps_lifecycle s Reply.canceled h) rfl rfl (Or.inl rfl)

theorem finishLogin_keeps_lifecycle (now : Int) (s : State) (status : AuthStatus) (a : String)
    (e : Int) (i rt tt ec em cn : String) (cp : QJsonObject) (h : LifecycleConsistent s) :
    LifecycleConsistent (finishLogin now s status a e i rt tt ec em cn cp).1 := by
  unfold finishLogin
  simp only []
  split
  all_goals exact LifecycleConsistent.of_frame s _ h rfl rfl (Or.inl rfl)

theorem loginWithCredentials_keeps_lifecycle (now : Int) (s : State) (email password : String)
    (h : LifecycleConsistent s) :
    LifecycleConsistent (loginWithCredentials now s email password).1 := by
  unfold loginWithCredentials failLogin
  simp only []
  repeat' split
  all_goals first
    | exact finishLogin_keeps_lifecycle _ _ _ _ _ _ _ _ _ _ _ _ h
    | exact LifecycleConsistent.of_frame s _ h rfl rfl (Or.inl rfl)

theorem handleLoginReply_keeps_lifecycle (now : Int) (s : State) (r : Reply)
    (h : LifecycleConsistent s) : LifecycleConsistent (handleLoginReply now s r).1 := by
  have h1 : LifecycleConsistent { s with loginReply := false } :=
    LifecycleConsistent.of_frame s _ h rfl rfl (Or.inl rfl)
  unfold handleLoginReply failLogin
  simp only []
  repeat' split
  all_goals exact finishLogin_keeps_lifecycle _ _ _ _ _ _ _ _ _ _ _ _ h1

theorem fetchAccountMachineId_keeps_lifecycle (s : State) (accountId accessToken : String)
    (h : LifecycleConsistent s) :
    LifecycleConsistent (fetchAccountMachineId s accountId accessToken).1 := by
  unfold fetchAccountMachineId
  simp only []
  repeat' split
  all_goals exact LifecycleConsistent.of_frame s _ h rfl rfl (Or.inl rfl)

theorem fetchMachineId_keeps_lifecycle (s : State) (accessToken : String)
    (h : LifecycleConsistent s) : LifecycleConsistent (fetchMachineId s accessToken).1 := by
  unfold fetchMachineId
  simp only []
  repeat' split
  all_goals first
    | exact h
    | (refine LifecycleConsistent.of_frame s _ h rfl rfl (Or.inr ?_)
       rw [Qt.isEmpty_trimmed_trimmed]
       rename_i hne _
       simpa using hne)

theorem handleGetUserReply_keeps_lifecycle (s : State) (r : Reply)
    (h : LifecycleConsistent s) : LifecycleConsistent (handleGetUserReply s r).1 := by
  unfold handleGetUserReply
  simp only []
  repeat' split
  all_goals first
    | exact LifecycleConsistent.of_frame s _ h rfl rfl (Or.inl rfl)
    | (refine fetchAccountMachineId_keeps_lifecycle _ _ _ ?_
       exact LifecycleConsistent.of_frame s _ h rfl rfl (Or.inl rfl))

theorem handleAccountReply_keeps_lifecycle (s : State) (r : Reply)
    (h : LifecycleConsistent s) : LifecycleConsistent (handleAccountReply s r).1 := by
  unfold handleAccountReply
  simp only []
  repeat' split
  all_goals exact LifecycleConsistent.of_frame s _ h rfl rfl (Or.inl rfl)

theorem addMachineClient_keeps_lifecycle (s : State) (accessToken machineId pin : String)
    (h : LifecycleConsistent s) :
    LifecycleConsistent (addMachineClient s accessToken machineId pin).1 := by
  unfold addMachineClient
  simp only []
  repeat' split
  all_goals exact LifecycleConsistent.of_frame s _ h rfl rfl (Or.inl rfl)

theorem handleMachineClientReply_keeps_lifecycle (s : State) (r : Reply)
    (h : LifecycleConsistent s) : LifecycleConsistent (handleMachineClientReply s r).1 := by
  unfold handleMachineClientReply
  simp only []
  repeat' split
  all_goals exact LifecycleConsistent.of_frame s _ h rfl rfl (Or.inl rfl)

theorem cancelCurrentOperation_keeps_lifecycle (s : State) :
    LifecycleConsistent (cancelCurrentOperation s).1 :=
  LifecycleConsistent.of_idle _ rfl

theorem fetchMachineStatus_keeps_lifecycle (s : State) (machineId accessToken : String)
    (h : LifecycleConsistent s) :
    LifecycleConsistent (fetchMachineStatus s machineId accessToken).1 := by
  unfold fetchMachineStatus
  simp only []
  repeat' split
  all_goals first
    | exact h
    | (refine LifecycleConsistent.of_frame s _ h rfl rfl (Or.inr ?_)
       rw [Qt.isEmpty_trimmed_trimmed]
       rename_i hne _
       simpa using hne)

theorem pollMachineStatus_keeps_lifecycle (s : State) (h : LifecycleConsistent s) :
    LifecycleConsistent (pollMachineStatus s).1 := by
  unfold pollMachineStatus
  split
  · exact h
  · split
    · rename_i htok
      have hnone : s.machineAction = MachineNone := by
        by_contra hne
        have h2 := (h hne).2
        have h3 := Qt.isEmpty_of_trimmed_nonempty _ h2
        rw [h3] at htok
        exact absurd htok (by decide)
      exact LifecycleConsistent.of_idle _ hnone
    · exact fetchMachineStatus_keeps_lifecycle s _ _ h

/-- After the command of an accepted start or stop the timer is started: the
action is the one just set, or none when the handler of an aborted command
reply has cleared it. -/
theorem LifecycleConsistent.of_started (t : State) (accessToken : String)
    (hp : t.pollTimerActive = true) (htok : t.machineAccessToken = Qt.trimmed accessToken)
    (hne : Qt.isEmpty (Qt.trimmed accessToken) = false) : LifecycleConsistent t := by
  unfold LifecycleConsistent
  intro _
  refine ⟨hp, ?_⟩
  rw [htok, Qt.isEmpty_trimmed_trimmed]
  exact hne

theorem startMachine_keeps_lifecycle (s : State) (machineId accessToken : String)
    (h : LifecycleConsistent s) :
    LifecycleConsistent (startMachine s machineId accessToken).1 := by
  by_cases hid : Qt.isEmpty (Qt.trimmed machineId) = true
  · unfold startMachine; simp only [hid, if_true]; exact h
  by_cases htok : Qt.isEmpty (Qt.trimmed accessToken) = true
  · unfold startMachine; simp only [hid, htok, if_true, if_false]; exact h
  by_cases ha : s.machineAction = MachineNone
  · unfold startMachine
    simp only [hid, htok, if_false]
    rw [if_neg (not_not.mpr ha)]
    refine LifecycleConsistent.of_started _ accessToken rfl ?_ (by simpa using htok)
    show (sendMachineCommand _ _ _ _).1.machineAccessToken = _
    rw [sendMachineCommand_frame]
  · unfold startMachine
    simp only [hid, htok, if_false]
    rw [if_pos ha]
    exact h

theorem stopMachine_keeps_lifecycle (s : State) (machineId accessToken : String)
    (h : LifecycleConsistent s) :
    LifecycleConsistent (stopMachine s machineId accessToken).1 := by
  by_cases hid : Qt.isEmpty (Qt.trimmed machineId) = true
  · unfold stopMachine; simp only [hid, if_true]; exact h
  by_cases htok : Qt.isEmpty (Qt.trimmed accessToken) = true
  · unfold stopMachine; simp only [hid, htok, if_true, if_false]; exact h
  by_cases ha : s.machineAction = MachineNone
  · unfold stopMachine
    simp only [hid, htok, if_false]
    rw [if_neg (not_not.mpr ha)]
    refine LifecycleConsistent.of_started _ accessToken rfl ?_ (by simpa using htok)
    show (sendMachineCommand _ _ _ _).1.machineAccessToken = _
    rw [sendMachineCommand_frame]
  · unfold stopMachine
    simp only [hid, htok, if_false]
    rw [if_pos ha]
    exact h

theorem advanceMachineAction_keeps_lifecycle (t : State) (h : LifecycleConsistent t) :
    LifecycleConsistent (advanceMachineAction t).1 := by
  unfold advanceMachineAction
  simp only []
  repeat' split
  all_goals first
    | exact h
    | exact LifecycleConsistent.of_idle _ rfl
    | exact LifecycleConsistent.of_frame t _ h rfl rfl (Or.inl rfl)
    | (refine sendMachineCommand_keeps_lifecycle _ _ _ _ ?_
       exact LifecycleConsistent.of_frame t _ h rfl rfl (Or.inl rfl))

theorem storeMachineRecord_keeps_lifecycle (s : State) (obj : QJsonObject)
    (h : LifecycleConsistent s) : LifecycleConsistent (storeMachineRecord s obj) := by
  have hf := storeMachineRecord_fields s obj
  exact LifecycleConsistent.of_frame s _ h hf.2.1 hf.2.2.2.1 (Or.inl hf.2.2.2.2.1)

theorem handleMachineStatusReply_keeps_lifecycle (s : State) (r : Reply)
    (h : LifecycleConsistent s) : LifecycleConsistent (handleMachineStatusReply s r).1 := by
  have h1 : LifecycleConsistent { s with machineStatusReply := false } :=
    LifecycleConsistent.of_frame s _ h rfl rfl (Or.inl rfl)
  unfold handleMachineStatusReply
  simp only []
  repeat' split
  all_goals first
    | exact h
    | exact h1
    | exact storeMachineRecord_keeps_lifecycle _ _ h1
    | exact advanceMachineAction_keeps_lifecycle _ (storeMachineRecord_keeps_lifecycle _ _ h1)

theorem step_keeps_lifecycle (s : State) (i : Input) (h : LifecycleConsistent s) :
    LifecycleConsistent (step s i).1 := by
  cases i with
  | loginWithCredentials now email password =>
    exact loginWithCredentials_keeps_lifecycle now s email password h
  | fetchMachineId accessToken => exact fetchMachineId_keeps_lifecycle s accessToken h
  | fetchMachineStatus machineId accessToken =>
    exact fetchMachineStatus_keeps_lifecycle s machineId accessToken h
  | startMachine machineId accessToken =>
    exact startMachine_keeps_lifecycle s machineId accessToken h
  | stopMachine machineId accessToken =>
    exact stopMachine_keeps_lifecycle s machineId accessToken h
  | addMachineClient accessToken machineId pin =>
    exact addMachineClient_keeps_lifecycle s accessToken machineId pin h
  | cancelCurrentOperation => exact cancelCurrentOperation_keeps_lifecycle s
  | loginReply now r => exact handleLoginReply_keeps_lifecycle now s r h
  | getUserReply r => exact handleGetUserReply_keeps_lifecycle s r h
  | accountReply r => exact handleAccountReply_keeps_lifecycle s r h
  | machineStatusReply r => exact handleMachineStatusReply_keeps_lifecycle s r h
  | machineCommandReply r => exact handleMachineCommandReply_keeps_lifecycle s r h
  | machineClientReply r => exact handleMachineClientReply_keeps_lifecycle s r h
  | pollTimeout => exact pollMachineStatus_keeps_lifecycle s h

theorem run_keeps_lifecycle (inputs : List Input) (s : State) (h : LifecycleConsistent s) :
    LifecycleConsistent (run s inputs).1 := by
  induction inputs generalizing s with
  | nil => exact h
  | cons i rest ih => exact ih (step s i).1 (step_keeps_lifecycle s i h)

/-- C27 (evaluation at the failing input): `startMachine("m-1", "token")`, a
poll tick and the status reply `running` end the start while the reply to the
start command is still outstanding: the action is none and the timer is
stopped.  A second `startMachine("m-1", "token")` sets the action and aborts
the outstanding command reply; the handler of the aborted reply reports a
failed start, clears the action and stops the timer; then the command is
posted and the timer is started.  The controller ends with the poll timer
active and the action none. -/
theorem restart_leaves_timer_without_action :
    (run State.initial (restartTrace.take 3)).1.machineAction = MachineNone ∧
    (run State.initial (restartTrace.take 3)).1.pollTimerActive = false ∧
    (run State.initial (restartTrace.take 3)).1.machineCommandReply = true ∧
    (run State.initial (restartTrace.take 3)).2 =
      [Effect.sent (Request.postMachineCommand "m-1" "start" "token"),
       Effect.sent (Request.getMachine "m-1" "token"),
       Effect.machineStatusUpdated "running" "" "" 0 0,
       Effect.machineStartFinished true "running" "" ""] ∧
    (startMachine (run State.initial (restartTrace.take 3)).1 "m-1" "token").2 =
      [Effect.aborted ReplyKind.machineCommand,
       Effect.machineStartFinished false "running" "NetworkError" "Operation canceled",
       Effect.sent (Request.postMachineCommand "m-1" "start" "token")] ∧
    (run State.initial restartTrace).1.pollTimerActive = true ∧
    (run State.initial restartTrace).1.machineAction = MachineNone :=
  ⟨rfl, rfl, rfl, rfl, rfl, rfl, rfl⟩

/-- C28 (as stated) fails: after `startMachine("m-1", "token")` followed by
`fetchMachineId("token")` the action is still `MachineStarting`, the stored
machine id is empty, no status request is outstanding, and the poll tick does
nothing at all. -/
theorem poll_tick_noop_while_starting :
    (run State.initial [Input.startMachine "m-1" "token", Input.fetchMachineId "token"]).1 =
      startedThenResolving ∧
    startedThenResolving.machineAction = MachineStarting ∧
    startedThenResolving.machineId = "" ∧
    startedThenResolving.machineStatusReply = false ∧
    pollMachineStatus startedThenResolving = (startedThenResolving, []) :=
  ⟨rfl, rfl, rfl, rfl, rfl⟩

/-- C28 (amended): in every state reached from the initial state with a
machine action in flight, the stored machine access token is non-empty, also
after trimming; and whenever the stored machine id is non-empty after trimming
as well, a poll tick taken while no status request is outstanding issues
exactly the status request for the stored id, and a command for the stored id
and token (the stall-recovery re-issue) is sent from any controller state. -/
theorem active_action_has_token (inputs : List Input)
    (hact : (run State.initial inputs).1.machineAction ≠ MachineNone) :
    Qt.isEmpty (Qt.trimmed (run State.initial inputs).1.machineAccessToken) = false ∧
    Qt.isEmpty (run State.initial inputs).1.machineAccessToken = false ∧
    (Qt.isEmpty (Qt.trimmed (run State.initial inputs).1.machineId) = false →
      ((run State.initial inputs).1.machineStatusReply = false →
        (pollMachineStatus (run State.initial inputs).1).2 =
          [Effect.sent (Request.getMachine
            (Qt.trimmed (run State.initial inputs).1.machineId)
            (Qt.trimmed (run State.initial inputs).1.machineAccessToken))]) ∧
      (∀ (t : State) (action : String),
        commandRequests (sendMachineCommand t (run State.initial inputs).1.machineId action
          (run State.initial inputs).1.machineAccessToken).2 =
          [Effect.sent (Request.postMachineCommand (run State.initial inputs).1.machineId action
            (run State.initial inputs).1.machineAccessToken)])) := by
  have htok := ((run_keeps_lifecycle inputs State.initial LifecycleConsistent.initial) hact).2
  refine ⟨htok, Qt.isEmpty_of_trimmed_nonempty _ htok,
    fun hid => ⟨fun hout => ?_, fun t action => ?_⟩⟩
  · rw [pollMachineStatus_fetches _ hid htok hout]
  · exact sendMachineCommand_commandRequests t _ action _ hid htok

/-- Witness for C28 (amended): the controller right after
`startMachine("m-1", "token")`. -/
theorem active_action_has_token_witness :
    Qt.isEmpty (Qt.trimmed
      (run State.initial [Input.startMachine "m-1" "token"]).1.machineAccessToken) = false ∧
    (pollMachineStatus (run State.initial [Input.startMachine "m-1" "token"]).1).2 =
      [Effect.sent (Request.getMachine
        (Qt.trimmed (run State.initial [Input.startMachine "m-1" "token"]).1.machineId)
        (Qt.trimmed
          (run State.initial [Input.startMachine "m-1" "token"]).1.machineAccessToken))] :=
  ⟨(active_action_has_token [Input.startMachine "m-1" "token"] (by decide)).1,
   ((active_action_has_token [Input.startMachine "m-1" "token"] (by decide)).2.2 rfl).1 rfl⟩

/-! ## Agreement of status and code of a login completion -/

theorem mapErrorCodeToStatus_ne_success (errorCode : String) :
    mapErrorCodeToStatus errorCode ≠ AuthSuccess := by
  by_cases hk : errorCode ∈ knownErrorCodes
  · have hall : ∀ k ∈ knownErrorCodes, mapErrorCodeToStatus k ≠ AuthSuccess := by decide
    exact hall errorCode hk
  · by_cases hs : Qt.startsWith errorCode "Http" = true
    · rw [mapErrorCodeToStatus_of_http errorCode hs]; decide
    · rw [mapErrorCodeToStatus_of_unknown errorCode hk (by simpa using hs)]; decide

theorem StatusAgrees.of_code (status : AuthStatus) (errorCode : String)
    (hne : Qt.isEmpty errorCode = false) (h : status = mapErrorCodeToStatus errorCode) :
    StatusAgrees status errorCode := by
  have hs : status ≠ AuthSuccess := by
    rw [h]; exact mapErrorCodeToStatus_ne_success errorCode
  unfold StatusAgrees
  refine ⟨⟨fun h1 => absurd h1 hs, fun h1 => ?_⟩, fun _ => ⟨hne, h⟩⟩
  rw [hne] at h1
  exact absurd h1 (by decide)

theorem StatusAgrees.success : StatusAgrees AuthSuccess "" := by
  unfold StatusAgrees
  exact ⟨⟨fun _ => rfl, fun _ => rfl⟩, fun h => absurd rfl h⟩

theorem finishLogin_completion (now : Int) (s : State) (status : AuthStatus) (a : String)
    (e : Int) (i rt tt ec em cn : String) (cp : QJsonObject) (x : Effect) (st : AuthStatus)
    (c : String) (hx : x ∈ (finishLogin now s status a e i rt tt ec em cn cp).2)
    (hst : x.loginStatus = some st) (hc : x.loginErrorCode = some c) :
    st = status ∧ c = ec := by
  unfold finishLogin at hx
  simp only [] at hx
  split at hx
  · split at hx
    · simp only [List.mem_append, List.mem_cons, List.mem_singleton, List.not_mem_nil,
        or_false] at hx
      rcases hx with (h | h | h) | h
      all_goals subst h
      all_goals simp_all [Effect.loginStatus, Effect.loginErrorCode]
    · simp only [List.nil_append, List.mem_singleton] at hx
      subst hx
      simp_all [Effect.loginStatus, Effect.loginErrorCode]
  · simp only [List.mem_singleton] at hx
    subst hx
    simp_all [Effect.loginStatus, Effect.loginErrorCode]

theorem loginWithCredentials_finishes (now : Int) (s : State) (email password : String) :
    (loginWithCredentials now s email password).2 =
        [Effect.sent (Request.initiateAuth (Qt.trimmed email) password)] ∨
    ∃ status ec em, StatusAgrees status ec ∧
      loginWithCredentials now s email password = failLogin now s status ec em := by
  suffices h : ∀ res, res = loginWithCredentials now s email password →
      (res.2 = [Effect.sent (Request.initiateAuth (Qt.trimmed email) password)] ∨
        ∃ status ec em, StatusAgrees status ec ∧ res = failLogin now s status ec em) from
    h _ rfl
  intro res hres
  unfold loginWithCredentials at hres
  simp only [] at hres
  repeat' split at hres
  all_goals first
    | (left; rw [hres]; done)
    | (refine Or.inr ⟨_, _, _, ?_, hres⟩
       exact StatusAgrees.of_code _ _ rfl (by decide))

theorem handleLoginReply_finishes (now : Int) (s : State) (r : Reply) :
    ∃ t status a e i rt tt ec em cn cp, StatusAgrees status ec ∧
      handleLoginReply now s r = finishLogin now t status a e i rt tt ec em cn cp := by
  suffices h : ∀ res, res = handleLoginReply now s r →
      ∃ t status a e i rt tt ec em cn cp, StatusAgrees status ec ∧
        res = finishLogin now t status a e i rt tt ec em cn cp from h _ rfl
  intro res hres
  unfold handleLoginReply failLogin at hres
  simp only [] at hres
  repeat' split at hres
  all_goals refine ⟨_, _, _, _, _, _, _, _, _, _, _, ?_, hres⟩
  all_goals first
    | exact StatusAgrees.success
    | exact StatusAgrees.of_code _ _ rfl (by decide)
    | exact StatusAgrees.of_code _ _ (httpCode_nonempty _)
        (mapErrorCodeToStatus_of_http _ (Qt.startsWith_append "Http" _)).symm
    | exact StatusAgrees.of_code _ _ (by simp_all) rfl

/-- C29: for every state, every `loginWithCredentials` call and every login
reply, each `loginCompleted` signal emitted has status success if and only if
its error code is empty, and when its status is not success its error code is
non-empty and the status is `mapErrorCodeToStatus` of that code; and
`mapErrorCodeToStatus` returns success for no string. -/
theorem login_status_agrees_with_code (now : Int) (s : State) :
    (∀ (email password : String) (x : Effect) (status : AuthStatus) (code : String),
      x ∈ (loginWithCredentials now s email password).2 → x.loginStatus = some status →
      x.loginErrorCode = some code → StatusAgrees status code) ∧
    (∀ (r : Reply) (x : Effect) (status : AuthStatus) (code : String),
      x ∈ (handleLoginReply now s r).2 → x.loginStatus = some status →
      x.loginErrorCode = some code → StatusAgrees status code) ∧
    (∀ code : String, mapErrorCodeToStatus code ≠ AuthSuccess) := by
  refine ⟨fun email password x status code hx hst hc => ?_,
    fun r x status code hx hst hc => ?_, mapErrorCodeToStatus_ne_success⟩
  · rcases loginWithCredentials_finishes now s email password with h | ⟨st, ec, em, hag, h⟩
    · rw [h, List.mem_singleton] at hx
      subst hx
      simp [Effect.loginStatus] at hst
    · rw [h] at hx
      obtain ⟨h1, h2⟩ := finishLogin_completion _ _ _ _ _ _ _ _ _ _ _ _ x status code hx hst hc
      rw [h1, h2]
      exact hag
  · obtain ⟨t, st, a, e, i, rt, tt, ec, em, cn, cp, hag, h⟩ := handleLoginReply_finishes now s r
    rw [h] at hx
    obtain ⟨h1, h2⟩ := finishLogin_completion _ _ _ _ _ _ _ _ _ _ _ _ x status code hx hst hc
    rw [h1, h2]
    exact hag

/-- Witness for C29: the completion of the login answered with the provider
error `ns#UserNotFoundException`. -/
theorem login_status_agrees_with_code_witness :
    StatusAgrees AuthUserNotFound "UserNotFoundException" :=
  (login_status_agrees_with_code 5 loggingInState).2.1
    (providerErrorReply "ns#UserNotFoundException" "User does not exist.")
    (Effect.loginCompleted AuthUserNotFound "" 0 "" "" "" "UserNotFoundException"
      "User does not exist." "" [])
    AuthUserNotFound "UserNotFoundException" (List.mem_singleton_self _) rfl rfl

/-! ## Acceptance of a login call -/

theorem Qt.indexOf_zero (t : String) (c : Char) :
    Qt.indexOf t c 0 = Qt.indexOfChars c t.data := by
  unfold Qt.indexOf
  simp only [List.drop_zero, Nat.cast_zero, add_zero]
  by_cases hm : c ∈ t.data
  · simp [Qt.indexOfChars_nonneg_of_mem _ _ hm]
  · simp [Qt.indexOfChars_of_not_mem _ _ hm]

theorem Qt.indexOfChars_pos_iff (c : Char) (l : List Char) :
    0 < Qt.indexOfChars c l ↔ c ∈ l ∧ l.head? ≠ some c := by
  cases l with
  | nil => simp [Qt.indexOfChars]
  | cons x xs =>
    by_cases hx : x = c
    · simp [Qt.indexOfChars, hx]
    · by_cases hm : c ∈ xs
      · have := Qt.indexOfChars_nonneg_of_mem c xs hm
        simp only [Qt.indexOfChars, beq_iff_eq, hx, if_false, List.mem_cons, List.head?_cons,
          ne_eq, Option.some.injEq, not_false_eq_true, and_true, hm, or_true, iff_true]
        rw [if_pos this]
        omega
      · have hne : c ≠ x := fun h => hx h.symm
        simp [Qt.indexOfChars, hx, hm, hne, Qt.indexOfChars_of_not_mem c xs hm]

theorem Qt.indexOf_after_at (t : String) (hm : '@' ∈ t.data) :
    Qt.indexOf t '.' (Qt.indexOf t '@' 0).toNat = -1 ↔ '.' ∉ afterFirstAt t.data := by
  rw [Qt.indexOf_zero]
  unfold Qt.indexOf
  rw [Qt.drop_indexOfChars_at _ hm]
  by_cases hd : '.' ∈ afterFirstAt t.data
  · have hmem : '.' ∈ '@' :: afterFirstAt t.data := List.mem_cons_of_mem _ hd
    have hnn := Qt.indexOfChars_nonneg_of_mem '.' _ hmem
    simp only [hd, not_true_eq_false, iff_false]
    rw [if_pos hnn]
    omega
  · have hmem : '.' ∉ '@' :: afterFirstAt t.data := by
      intro h
      rcases List.mem_cons.mp h with h1 | h1
      · exact absurd h1 (by decide)
      · exact hd h1
    simp [Qt.indexOfChars_of_not_mem _ _ hmem, hd]

theorem hasAcceptedShape_iff (t : String) :
    hasAcceptedShape t.data = true ↔
      ¬(Qt.indexOf t '@' 0 ≤ 0 ∨ Qt.indexOf t '.' (Qt.indexOf t '@' 0).toNat = -1) := by
  by_cases hm : '@' ∈ t.data
  · rw [Qt.indexOf_after_at t hm, Qt.indexOf_zero, not_or, not_le, Qt.indexOfChars_pos_iff]
    simp [hasAcceptedShape, hm]
  · have h1 : Qt.indexOf t '@' 0 ≤ 0 := by
      rw [Qt.indexOf_zero, Qt.indexOfChars_of_not_mem _ _ hm]; decide
    simp [hasAcceptedShape, hm, h1]

theorem loginWithCredentials_accepts_iff (now : Int) (s : State) (email password : String)
    (hidle : s.loginInProgress = false) :
    ((Qt.isEmpty (Qt.trimmed email) = false ∧ Qt.isEmpty (Qt.trimmed password) = false ∧
        hasAcceptedShape (Qt.trimmed email).data = true) →
      loginWithCredentials now s email password =
        ({ s with lastLoginEmail := Qt.trimmed email, lastLoginPassword := password,
                  loginInProgress := true, loginReply := true },
          [Effect.sent (Request.initiateAuth (Qt.trimmed email) password)])) ∧
    (¬(Qt.isEmpty (Qt.trimmed email) = false ∧ Qt.isEmpty (Qt.trimmed password) = false ∧
        hasAcceptedShape (Qt.trimmed email).data = true) →
      ∃ ec em, loginWithCredentials now s email password =
        failLogin now s AuthInvalidInput ec em) := by
  rw [hasAcceptedShape_iff]
  unfold loginWithCredentials
  simp only [hidle]
  constructor
  · rintro ⟨he, hp, hshape⟩
    simp [he, hp, hshape]
  · intro hn
    by_cases he : Qt.isEmpty (Qt.trimmed email) = true
    · by_cases hp : Qt.isEmpty (Qt.trimmed password) = true
      · exact ⟨"EmptyCredentials", "Email and password are required", by simp [he, hp]⟩
      · exact ⟨"EmptyEmail", "Email is required", by simp [he, hp]⟩
    · by_cases hp : Qt.isEmpty (Qt.trimmed password) = true
      · exact ⟨"EmptyPassword", "Password is required", by simp [he, hp]⟩
      · have hbad : Qt.indexOf (Qt.trimmed email) '@' 0 ≤ 0 ∨
            Qt.indexOf (Qt.trimmed email) '.' (Qt.indexOf (Qt.trimmed email) '@' 0).toNat = -1 := by
          by_contra hc
          exact hn ⟨by simpa using he, by simpa using hp, hc⟩
        exact ⟨"InvalidEmail", "Email address is invalid", by simp [he, hp, hbad]⟩

/-- C30: when no login is in progress, `loginWithCredentials(email, password)`
issues a network request if and only if the trimmed email is non-empty, the
trimmed password is non-empty, the trimmed email holds an `@` that is not its
first character, and a `.` occurs after its first `@`.  When it does, the only
effect is the authentication request with the trimmed email and the password
as given, and the trimmed email and the password are remembered; when it does
not, the call is rejected with status invalid-input. -/
theorem login_request_iff_accepted (now : Int) (s : State) (email password : String)
    (hidle : s.loginInProgress = false) :
    (requests (loginWithCredentials now s email password).2 ≠ [] ↔
      (Qt.isEmpty (Qt.trimmed email) = false ∧ Qt.isEmpty (Qt.trimmed password) = false ∧
        hasAcceptedShape (Qt.trimmed email).data = true)) ∧
    (requests (loginWithCredentials now s email password).2 ≠ [] →
      (loginWithCredentials now s email password).2 =
        [Effect.sent (Request.initiateAuth (Qt.trimmed email) password)] ∧
      (loginWithCredentials now s email password).1.lastLoginEmail = Qt.trimmed email ∧
      (loginWithCredentials now s email password).1.lastLoginPassword = password) ∧
    (requests (loginWithCredentials now s email password).2 = [] →
      loginCompletions (loginWithCredentials now s email password).2 = [AuthInvalidInput]) := by
  have hacc := loginWithCredentials_accepts_iff now s email password hidle
  by_cases hc : Qt.isEmpty (Qt.trimmed email) = false ∧
      Qt.isEmpty (Qt.trimmed password) = false ∧
      hasAcceptedShape (Qt.trimmed email).data = true
  · rw [hacc.1 hc]
    refine ⟨⟨fun _ => hc, fun _ => by simp [requests, Effect.isRequest]⟩,
      fun _ => ⟨rfl, rfl, rfl⟩, fun h => ?_⟩
    simp [requests, Effect.isRequest] at h
  · obtain ⟨ec, em, h⟩ := hacc.2 hc
    rw [h]
    have hreq : requests (failLogin now s AuthInvalidInput ec em).2 = [] :=
      (failLogin_signals now s AuthInvalidInput ec em).2
    refine ⟨⟨fun hne => absurd hreq hne, fun h1 => absurd h1 hc⟩,
      fun hne => absurd hreq hne, fun _ => ?_⟩
    exact finishLogin_completions _ _ _ _ _ _ _ _ _ _ _ _

/-- Witness for C30: the email `a@b.com` and the password `pw`, both given
with surrounding blanks, are accepted; `@b.com`, which holds an `@` followed by
a `.`, is rejected. -/
theorem login_request_iff_accepted_witness :
    (loginWithCredentials 0 State.initial " a@b.com " " pw ").2 =
      [Effect.sent (Request.initiateAuth (Qt.trimmed " a@b.com ") " pw ")] ∧
    loginCompletions (loginWithCredentials 0 State.initial "@b.com" "pw").2 =
      [AuthInvalidInput] :=
  ⟨((login_request_iff_accepted 0 State.initial " a@b.com " " pw " rfl).2.1
      (by simp [requests, Effect.isRequest, loginWithCredentials]; decide)).1,
   (login_request_iff_accepted 0 State.initial "@b.com" "pw" rfl).2.2 rfl⟩

end CloudDeck
